import Mathlib

set_option maxRecDepth 100000

/-!
# Verification of the S-box Research Analyzer core

Shallow embedding of the repository's Python core into Lean 4:

* `galois_field.py` — GF(2^8) exp/log tables, `multiply`, `inverse`, `add`,
  `power`, `affine_transform`;
* `sbox_generator.py` — the affine S-box generator and the named matrices;
* `aes_cipher.py` — the pluggable-S-box AES-128 block cipher, key schedule,
  CBC mode and PKCS7 padding;
* `cryptographic_tests.py` — the Möbius/ANF transform and the cycle-structure
  decomposition.

Bytes are modelled as `Nat` with explicit `&&& 0xFF` masking exactly where the
Python code masks; byte strings are `List Nat`; fallible operations return
`Except String`.
-/

namespace GF256

/-- Lower 8 bits of the irreducible polynomial 0x11B (`REDUCTION_POLY` in
`galois_field.py`). -/
def REDUCTION_POLY : Nat := 0x1B

/-- One iteration of the table-generation loop in `GF256._generate_tables`
(`galois_field.py` lines 43-63): multiply the running value by 3
(shift-left with reduction, then XOR with the pre-shift value), store it in
the exp table at index `i`, and record its logarithm if unset. -/
def tableStep (st : Nat × List Nat × List Nat) (i : Nat) : Nat × List Nat × List Nat :=
  let val := st.1
  let expT := st.2.1
  let logT := st.2.2
  let temp := val <<< 1
  let temp := if temp &&& 0x100 ≠ 0 then temp ^^^ REDUCTION_POLY else temp
  let temp := temp &&& 0xFF
  let val2 := temp ^^^ val
  let expT := expT.set i val2
  let logT :=
    if val2 ≠ 0 ∧ val2 ≠ 1 then
      (if logT.getD val2 0 = 0 then logT.set val2 i else logT)
    else logT
  (val2, expT, logT)

/-- `GF256._generate_tables` (`galois_field.py` lines 18-75): build the
512-entry exponential table and 256-entry logarithm table by walking
generator 3 for 255 steps, close the cycle with `exp[255] = 1`, and extend
indices 256..511 with `exp[i] = exp[i-255]`. -/
def generate_tables : List Nat × List Nat :=
  let expT0 := (List.replicate 512 0).set 0 1
  let logT0 := List.replicate 256 0
  let st := (List.range' 1 254).foldl tableStep (1, expT0, logT0)
  let expT := st.2.1.set 255 1
  let expT := (List.range' 256 256).foldl (fun e i => e.set i (e.getD (i - 255) 0)) expT
  (expT, st.2.2)

/-- The exponential table held by a `GF256` instance. -/
def exp_table : List Nat := generate_tables.1

/-- The logarithm table held by a `GF256` instance. -/
def log_table : List Nat := generate_tables.2

/-- `GF256.multiply` (`galois_field.py` lines 77-81). -/
def multiply (a b : Nat) : Nat :=
  if a = 0 ∨ b = 0 then 0
  else exp_table.getD ((log_table.getD a 0 + log_table.getD b 0) % 255) 0

/-- `GF256.inverse` (`galois_field.py` lines 83-87). -/
def inverse (a : Nat) : Nat :=
  if a = 0 then 0 else exp_table.getD (255 - log_table.getD a 0) 0

/-- `GF256.add` (`galois_field.py` lines 89-91). -/
def add (a b : Nat) : Nat := a ^^^ b

/-- `GF256.power` (`galois_field.py` lines 93-99).  Note the `a == 0` guard
comes first in the source, so `power 0 0 = 0`. -/
def power (a n : Nat) : Nat :=
  if a = 0 then 0
  else if n = 0 then 1
  else exp_table.getD (log_table.getD a 0 * n % 255) 0

end GF256

/-- `affine_transform` (`galois_field.py` lines 102-130): result bit `i` is the
GF(2) dot product of the input byte with matrix row `i`; the 8 bits are
assembled and XORed with `constant`. -/
def affine_transform (byte : Nat) (matrix : List Nat) (constant : Nat) : Nat :=
  let result := (List.range 8).foldl
    (fun result i =>
      let bit := (List.range 8).foldl
        (fun bit j => bit ^^^ (((byte >>> j) &&& 1) &&& ((matrix.getD i 0) >>> j &&& 1)))
        0
      result ||| (bit <<< i))
    0
  result ^^^ constant

/-! ## Literal values of the generated tables

The table-generation loops above are executable; the following literals record
their outputs once and for all, so that later proofs can reason by table
lookup instead of re-running the generation loop at every use. -/
/-- The 512-entry exponential table produced by `GF256.generate_tables`, as an explicit literal (proved equal below). -/
def expTableLit : List Nat :=
  [1, 3, 5, 15, 17, 51, 85, 255, 26, 46, 114, 150, 161, 248, 19, 53,
  95, 225, 56, 72, 216, 115, 149, 164, 247, 2, 6, 10, 30, 34, 102, 170,
  229, 52, 92, 228, 55, 89, 235, 38, 106, 190, 217, 112, 144, 171, 230, 49,
  83, 245, 4, 12, 20, 60, 68, 204, 79, 209, 104, 184, 211, 110, 178, 205,
  76, 212, 103, 169, 224, 59, 77, 215, 98, 166, 241, 8, 24, 40, 120, 136,
  131, 158, 185, 208, 107, 189, 220, 127, 129, 152, 179, 206, 73, 219, 118, 154,
  181, 196, 87, 249, 16, 48, 80, 240, 11, 29, 39, 105, 187, 214, 97, 163,
  254, 25, 43, 125, 135, 146, 173, 236, 47, 113, 147, 174, 233, 32, 96, 160,
  251, 22, 58, 78, 210, 109, 183, 194, 93, 231, 50, 86, 250, 21, 63, 65,
  195, 94, 226, 61, 71, 201, 64, 192, 91, 237, 44, 116, 156, 191, 218, 117,
  159, 186, 213, 100, 172, 239, 42, 126, 130, 157, 188, 223, 122, 142, 137, 128,
  155, 182, 193, 88, 232, 35, 101, 175, 234, 37, 111, 177, 200, 67, 197, 84,
  252, 31, 33, 99, 165, 244, 7, 9, 27, 45, 119, 153, 176, 203, 70, 202,
  69, 207, 74, 222, 121, 139, 134, 145, 168, 227, 62, 66, 198, 81, 243, 14,
  18, 54, 90, 238, 41, 123, 141, 140, 143, 138, 133, 148, 167, 242, 13, 23,
  57, 75, 221, 124, 132, 151, 162, 253, 28, 36, 108, 180, 199, 82, 246, 1,
  3, 5, 15, 17, 51, 85, 255, 26, 46, 114, 150, 161, 248, 19, 53, 95,
  225, 56, 72, 216, 115, 149, 164, 247, 2, 6, 10, 30, 34, 102, 170, 229,
  52, 92, 228, 55, 89, 235, 38, 106, 190, 217, 112, 144, 171, 230, 49, 83,
  245, 4, 12, 20, 60, 68, 204, 79, 209, 104, 184, 211, 110, 178, 205, 76,
  212, 103, 169, 224, 59, 77, 215, 98, 166, 241, 8, 24, 40, 120, 136, 131,
  158, 185, 208, 107, 189, 220, 127, 129, 152, 179, 206, 73, 219, 118, 154, 181,
  196, 87, 249, 16, 48, 80, 240, 11, 29, 39, 105, 187, 214, 97, 163, 254,
  25, 43, 125, 135, 146, 173, 236, 47, 113, 147, 174, 233, 32, 96, 160, 251,
  22, 58, 78, 210, 109, 183, 194, 93, 231, 50, 86, 250, 21, 63, 65, 195,
  94, 226, 61, 71, 201, 64, 192, 91, 237, 44, 116, 156, 191, 218, 117, 159,
  186, 213, 100, 172, 239, 42, 126, 130, 157, 188, 223, 122, 142, 137, 128, 155,
  182, 193, 88, 232, 35, 101, 175, 234, 37, 111, 177, 200, 67, 197, 84, 252,
  31, 33, 99, 165, 244, 7, 9, 27, 45, 119, 153, 176, 203, 70, 202, 69,
  207, 74, 222, 121, 139, 134, 145, 168, 227, 62, 66, 198, 81, 243, 14, 18,
  54, 90, 238, 41, 123, 141, 140, 143, 138, 133, 148, 167, 242, 13, 23, 57,
  75, 221, 124, 132, 151, 162, 253, 28, 36, 108, 180, 199, 82, 246, 1, 3]

/-- The 256-entry logarithm table produced by `GF256.generate_tables`, as an explicit literal (proved equal below). -/
def logTableLit : List Nat :=
  [0, 0, 25, 1, 50, 2, 26, 198, 75, 199, 27, 104, 51, 238, 223, 3,
  100, 4, 224, 14, 52, 141, 129, 239, 76, 113, 8, 200, 248, 105, 28, 193,
  125, 194, 29, 181, 249, 185, 39, 106, 77, 228, 166, 114, 154, 201, 9, 120,
  101, 47, 138, 5, 33, 15, 225, 36, 18, 240, 130, 69, 53, 147, 218, 142,
  150, 143, 219, 189, 54, 208, 206, 148, 19, 92, 210, 241, 64, 70, 131, 56,
  102, 221, 253, 48, 191, 6, 139, 98, 179, 37, 226, 152, 34, 136, 145, 16,
  126, 110, 72, 195, 163, 182, 30, 66, 58, 107, 40, 84, 250, 133, 61, 186,
  43, 121, 10, 21, 155, 159, 94, 202, 78, 212, 172, 229, 243, 115, 167, 87,
  175, 88, 168, 80, 244, 234, 214, 116, 79, 174, 233, 213, 231, 230, 173, 232,
  44, 215, 117, 122, 235, 22, 11, 245, 89, 203, 95, 176, 156, 169, 81, 160,
  127, 12, 246, 111, 23, 196, 73, 236, 216, 67, 31, 45, 164, 118, 123, 183,
  204, 187, 62, 90, 251, 96, 177, 134, 59, 82, 161, 108, 170, 85, 41, 157,
  151, 178, 135, 144, 97, 190, 220, 252, 188, 149, 207, 205, 55, 63, 91, 209,
  83, 57, 132, 60, 65, 162, 109, 71, 20, 42, 158, 93, 86, 242, 211, 171,
  68, 17, 146, 217, 35, 32, 46, 137, 180, 124, 184, 38, 119, 153, 227, 165,
  103, 74, 237, 222, 197, 49, 254, 24, 13, 99, 140, 128, 192, 247, 112, 7]

/-- The values of `GF256.inverse` on 0..255, as an explicit literal (proved pointwise equal below). -/
def invTableLit : List Nat :=
  [0, 1, 141, 246, 203, 82, 123, 209, 232, 79, 41, 192, 176, 225, 229, 199,
  116, 180, 170, 75, 153, 43, 96, 95, 88, 63, 253, 204, 255, 64, 238, 178,
  58, 110, 90, 241, 85, 77, 168, 201, 193, 10, 152, 21, 48, 68, 162, 194,
  44, 69, 146, 108, 243, 57, 102, 66, 242, 53, 32, 111, 119, 187, 89, 25,
  29, 254, 55, 103, 45, 49, 245, 105, 167, 100, 171, 19, 84, 37, 233, 9,
  237, 92, 5, 202, 76, 36, 135, 191, 24, 62, 34, 240, 81, 236, 97, 23,
  22, 94, 175, 211, 73, 166, 54, 67, 244, 71, 145, 223, 51, 147, 33, 59,
  121, 183, 151, 133, 16, 181, 186, 60, 182, 112, 208, 6, 161, 250, 129, 130,
  131, 126, 127, 128, 150, 115, 190, 86, 155, 158, 149, 217, 247, 2, 185, 164,
  222, 106, 50, 109, 216, 138, 132, 114, 42, 20, 159, 136, 249, 220, 137, 154,
  251, 124, 46, 195, 143, 184, 101, 72, 38, 200, 18, 74, 206, 231, 210, 98,
  12, 224, 31, 239, 17, 117, 120, 113, 165, 142, 118, 61, 189, 188, 134, 87,
  11, 40, 47, 163, 218, 212, 228, 15, 169, 39, 83, 4, 27, 252, 172, 230,
  122, 7, 174, 99, 197, 219, 226, 234, 148, 139, 196, 213, 157, 248, 144, 107,
  177, 13, 214, 235, 198, 14, 207, 173, 8, 78, 215, 227, 93, 80, 30, 179,
  91, 35, 56, 52, 104, 70, 3, 140, 221, 156, 125, 160, 205, 26, 65, 28]

/-- The canonical AES S-box as published in FIPS-197, Figure 7 (row-major, 16 entries per row). -/
def canonical_fips197_sbox : List Nat :=
  [99, 124, 119, 123, 242, 107, 111, 197, 48, 1, 103, 43, 254, 215, 171, 118,
  202, 130, 201, 125, 250, 89, 71, 240, 173, 212, 162, 175, 156, 164, 114, 192,
  183, 253, 147, 38, 54, 63, 247, 204, 52, 165, 229, 241, 113, 216, 49, 21,
  4, 199, 35, 195, 24, 150, 5, 154, 7, 18, 128, 226, 235, 39, 178, 117,
  9, 131, 44, 26, 27, 110, 90, 160, 82, 59, 214, 179, 41, 227, 47, 132,
  83, 209, 0, 237, 32, 252, 177, 91, 106, 203, 190, 57, 74, 76, 88, 207,
  208, 239, 170, 251, 67, 77, 51, 133, 69, 249, 2, 127, 80, 60, 159, 168,
  81, 163, 64, 143, 146, 157, 56, 245, 188, 182, 218, 33, 16, 255, 243, 210,
  205, 12, 19, 236, 95, 151, 68, 23, 196, 167, 126, 61, 100, 93, 25, 115,
  96, 129, 79, 220, 34, 42, 144, 136, 70, 238, 184, 20, 222, 94, 11, 219,
  224, 50, 58, 10, 73, 6, 36, 92, 194, 211, 172, 98, 145, 149, 228, 121,
  231, 200, 55, 109, 141, 213, 78, 169, 108, 86, 244, 234, 101, 122, 174, 8,
  186, 120, 37, 46, 28, 166, 180, 198, 232, 221, 116, 31, 75, 189, 139, 138,
  112, 62, 181, 102, 72, 3, 246, 14, 97, 53, 87, 185, 134, 193, 29, 158,
  225, 248, 152, 17, 105, 217, 142, 148, 155, 30, 135, 233, 206, 85, 40, 223,
  140, 161, 137, 13, 191, 230, 66, 104, 65, 153, 45, 15, 176, 84, 187, 22]

namespace SBoxGenerator

/-- `C_AES` (`sbox_generator.py` line 11). -/
def C_AES : Nat := 0x63

/-- `K44_MATRIX` (`sbox_generator.py` lines 20-29). -/
def K44_MATRIX : List Nat := [0x57, 0xAB, 0xD5, 0xEA, 0x75, 0xBA, 0x5D, 0xAE]

/-- `AES_MATRIX` (`sbox_generator.py` lines 64-73). -/
def AES_MATRIX : List Nat := [0xF1, 0xE3, 0xC7, 0x8F, 0x1F, 0x3E, 0x7C, 0xF8]

/-- `SBoxGenerator.generate_sbox` (`sbox_generator.py` lines 120-142):
`sbox[x] = affine_transform(GF.inverse(x), matrix, constant)` for x in 0..255. -/
def generate_sbox (matrix : List Nat) (constant : Nat) : List Nat :=
  (List.range 256).map (fun x => affine_transform (GF256.inverse x) matrix constant)

/-- `SBoxGenerator.generate_aes_sbox` (`sbox_generator.py` lines 148-150). -/
def generate_aes_sbox : List Nat := generate_sbox AES_MATRIX C_AES

/-- `SBoxGenerator.generate_k44_sbox` (`sbox_generator.py` lines 144-146). -/
def generate_k44_sbox : List Nat := generate_sbox K44_MATRIX C_AES

/-- `SBoxGenerator.generate_inverse_sbox` (`sbox_generator.py` lines 152-157):
scatter `inv_sbox[sbox[i]] = i`. -/
def generate_inverse_sbox (sbox : List Nat) : List Nat :=
  (List.range 256).foldl (fun inv i => inv.set (sbox.getD i 0) i) (List.replicate 256 0)

end SBoxGenerator

namespace AESCipher

/-- An `AESCipher` instance (`aes_cipher.py` lines 24-37): it carries the
caller's forward and inverse S-boxes. -/
structure Cipher where
  sbox : List Nat
  inv_sbox : List Nat

/-- `AESCipher.N_ROUNDS`. -/
def N_ROUNDS : Nat := 10

/-- `AESCipher.N_BLOCK`. -/
def N_BLOCK : Nat := 16

/-- `AESCipher.N_KEY`. -/
def N_KEY : Nat := 16

/-- `AESCipher.RCON` (`aes_cipher.py` lines 20-22). -/
def RCON : List Nat := [0x01, 0x02, 0x04, 0x08, 0x10, 0x20, 0x40, 0x80, 0x1b, 0x36]

/-- `AESCipher._rot_word` (`aes_cipher.py` lines 39-42). -/
def rot_word (word : List Nat) : List Nat := word.drop 1 ++ word.take 1

/-- `AESCipher._sub_word` (`aes_cipher.py` lines 44-47). -/
def sub_word (word : List Nat) (sbox : List Nat) : List Nat := word.map (fun b => sbox.getD b 0)

/-- One iteration of the word-generation loop in `AESCipher._key_expansion`
(`aes_cipher.py` lines 66-76).  SubWord always uses the standard AES S-box
produced by `SBoxGenerator.generate_aes_sbox`, as in the source (line 58). -/
def key_expansion_word (w : List (List Nat)) (i : Nat) : List (List Nat) :=
  let temp := w.getD (i - 1) []
  let temp :=
    if i % 4 = 0 then
      match sub_word (rot_word temp) SBoxGenerator.generate_aes_sbox with
      | [] => []
      | t0 :: rest => (t0 ^^^ RCON.getD (i / 4 - 1) 0) :: rest
    else temp
  w ++ [(List.range 4).map (fun j => (w.getD (i - 4) []).getD j 0 ^^^ temp.getD j 0)]

/-- `AESCipher._key_expansion` (`aes_cipher.py` lines 49-86).  The `c`
parameter is the cipher instance (`self`); its experimental S-box is never
consulted. -/
def key_expansion (c : Cipher) (key : List Nat) : Except String (List (List Nat)) :=
  if key.length ≠ N_KEY then Except.error "Key must be exactly 16 bytes"
  else
    let w0 := (List.range 4).map (fun i =>
      [key.getD (4 * i) 0, key.getD (4 * i + 1) 0, key.getD (4 * i + 2) 0, key.getD (4 * i + 3) 0])
    let w := (List.range' 4 40).foldl key_expansion_word w0
    Except.ok ((List.range 11).map (fun i =>
      (List.range 4).foldl (fun rk j => rk ++ w.getD (4 * i + j) []) []))

/-- `AESCipher._add_round_key` (`aes_cipher.py` lines 88-91). -/
def add_round_key (state round_key : List Nat) : List Nat :=
  (List.range 16).map (fun i => state.getD i 0 ^^^ round_key.getD i 0)

/-- `AESCipher._sub_bytes` (`aes_cipher.py` lines 93-95). -/
def sub_bytes (c : Cipher) (state : List Nat) : List Nat :=
  state.map (fun b => c.sbox.getD b 0)

/-- `AESCipher._inv_sub_bytes` (`aes_cipher.py` lines 97-99). -/
def inv_sub_bytes (c : Cipher) (state : List Nat) : List Nat :=
  state.map (fun b => c.inv_sbox.getD b 0)

/-- `AESCipher._shift_rows` (`aes_cipher.py` lines 101-124).  The state is
column-major (`state[i + 4*j]` is row `i`, column `j`); row `i` is rotated
left by `i`, so output position `p = i + 4*j` holds
`state[i + 4*((j + i) % 4)]`. -/
def shift_rows (state : List Nat) : List Nat :=
  (List.range 16).map (fun p => state.getD (p % 4 + 4 * ((p / 4 + p % 4) % 4)) 0)

/-- `AESCipher._inv_shift_rows` (`aes_cipher.py` lines 126-146): row `i` is
rotated right by `i`, so output position `p = i + 4*j` holds
`state[i + 4*((j + 4 - i) % 4)]`. -/
def inv_shift_rows (state : List Nat) : List Nat :=
  (List.range 16).map (fun p => state.getD (p % 4 + 4 * ((p / 4 + (4 - p % 4)) % 4)) 0)

/-- The 8-iteration loop of `AESCipher._gf_multiply` (`aes_cipher.py`
lines 148-159), with the loop counter made explicit. -/
def gf_multiply_loop : Nat → Nat → Nat → Nat → Nat
  | 0, _a, _b, result => result
  | n + 1, a, b, result =>
    let result := if b &&& 1 ≠ 0 then result ^^^ a else result
    let a2 := a <<< 1
    let a2 := if a2 &&& 0x100 ≠ 0 then a2 ^^^ 0x1B else a2
    gf_multiply_loop n a2 (b >>> 1) result

/-- `AESCipher._gf_multiply` (`aes_cipher.py` lines 148-159). -/
def gf_multiply (a b : Nat) : Nat := gf_multiply_loop 8 a b 0 &&& 0xFF

/-- The per-column body of `AESCipher._mix_columns` (`aes_cipher.py`
lines 167-176). -/
def mix_single_column (col : List Nat) : List Nat :=
  let s0 := col.getD 0 0
  let s1 := col.getD 1 0
  let s2 := col.getD 2 0
  let s3 := col.getD 3 0
  [gf_multiply 0x02 s0 ^^^ gf_multiply 0x03 s1 ^^^ s2 ^^^ s3,
   s0 ^^^ gf_multiply 0x02 s1 ^^^ gf_multiply 0x03 s2 ^^^ s3,
   s0 ^^^ s1 ^^^ gf_multiply 0x02 s2 ^^^ gf_multiply 0x03 s3,
   gf_multiply 0x03 s0 ^^^ s1 ^^^ s2 ^^^ gf_multiply 0x02 s3]

/-- `AESCipher._mix_columns` (`aes_cipher.py` lines 161-178). -/
def mix_columns (state : List Nat) : List Nat :=
  ((List.range 4).map (fun c => mix_single_column
    [state.getD (0 + 4 * c) 0, state.getD (1 + 4 * c) 0,
     state.getD (2 + 4 * c) 0, state.getD (3 + 4 * c) 0])).flatten

/-- The per-column body of `AESCipher._inv_mix_columns` (`aes_cipher.py`
lines 186-195). -/
def inv_mix_single_column (col : List Nat) : List Nat :=
  let s0 := col.getD 0 0
  let s1 := col.getD 1 0
  let s2 := col.getD 2 0
  let s3 := col.getD 3 0
  [gf_multiply 0x0E s0 ^^^ gf_multiply 0x0B s1 ^^^ gf_multiply 0x0D s2 ^^^ gf_multiply 0x09 s3,
   gf_multiply 0x09 s0 ^^^ gf_multiply 0x0E s1 ^^^ gf_multiply 0x0B s2 ^^^ gf_multiply 0x0D s3,
   gf_multiply 0x0D s0 ^^^ gf_multiply 0x09 s1 ^^^ gf_multiply 0x0E s2 ^^^ gf_multiply 0x0B s3,
   gf_multiply 0x0B s0 ^^^ gf_multiply 0x0D s1 ^^^ gf_multiply 0x09 s2 ^^^ gf_multiply 0x0E s3]

/-- `AESCipher._inv_mix_columns` (`aes_cipher.py` lines 180-197). -/
def inv_mix_columns (state : List Nat) : List Nat :=
  ((List.range 4).map (fun c => inv_mix_single_column
    [state.getD (0 + 4 * c) 0, state.getD (1 + 4 * c) 0,
     state.getD (2 + 4 * c) 0, state.getD (3 + 4 * c) 0])).flatten

/-- `AESCipher.encrypt_block` (`aes_cipher.py` lines 199-239), on the
precomputed-round-keys path used by the CBC driver (the source's
`isinstance` dispatch expands a raw key into the same round keys first). -/
def encrypt_block (c : Cipher) (plaintext : List Nat) (round_keys : List (List Nat)) :
    Except String (List Nat) :=
  if plaintext.length ≠ N_BLOCK then Except.error "Plaintext must be exactly 16 bytes"
  else
    let state := add_round_key plaintext (round_keys.getD 0 [])
    let state := (List.range' 1 9).foldl
      (fun st r => add_round_key (mix_columns (shift_rows (sub_bytes c st))) (round_keys.getD r []))
      state
    Except.ok (add_round_key (shift_rows (sub_bytes c state)) (round_keys.getD N_ROUNDS []))

/-- `AESCipher.decrypt_block` (`aes_cipher.py` lines 241-279), on the
precomputed-round-keys path.  The main rounds run for `round_num` from 9
down to 1 (`range(9, 0, -1)`). -/
def decrypt_block (c : Cipher) (ciphertext : List Nat) (round_keys : List (List Nat)) :
    Except String (List Nat) :=
  if ciphertext.length ≠ N_BLOCK then Except.error "Ciphertext must be exactly 16 bytes"
  else
    let state := add_round_key ciphertext (round_keys.getD N_ROUNDS [])
    let state := ((List.range' 1 9).reverse).foldl
      (fun st r =>
        inv_mix_columns (add_round_key (inv_sub_bytes c (inv_shift_rows st)) (round_keys.getD r [])))
      state
    Except.ok (add_round_key (inv_sub_bytes c (inv_shift_rows state)) (round_keys.getD 0 []))

/-- `AESCipher._pkcs7_pad` (`aes_cipher.py` lines 281-286). -/
def pkcs7_pad (data : List Nat) (block_size : Nat) : List Nat :=
  let pad_len := block_size - data.length % block_size
  data ++ List.replicate pad_len pad_len

/-- `AESCipher._pkcs7_unpad` (`aes_cipher.py` lines 288-302). -/
def pkcs7_unpad (data : List Nat) : Except String (List Nat) :=
  if data.length = 0 then Except.error "Cannot unpad empty data"
  else
    let pad_len := data.getD (data.length - 1) 0
    if pad_len < 1 ∨ pad_len > 16 then Except.error "Invalid padding"
    else if data.length < pad_len then Except.error "Data too short for padding"
    else if (List.range' (data.length - pad_len) pad_len).all (fun i => data.getD i 0 == pad_len)
      then Except.ok (data.take (data.length - pad_len))
      else Except.error "Invalid padding bytes"

/-- The per-block XOR in CBC mode
(`aes_cipher.py` line 338 and line 380). -/
def xor_block (block prev : List Nat) : List Nat :=
  (List.range N_BLOCK).map (fun j => block.getD j 0 ^^^ prev.getD j 0)

/-- Split a byte string into its successive 16-byte slices, as the CBC loops
do with `range(0, len(data), 16)` (`aes_cipher.py` lines 334 and 373). -/
def toBlocks (l : List Nat) : List (List Nat) :=
  if l = [] then [] else l.take 16 :: toBlocks (l.drop 16)
termination_by l.length
decreasing_by
  rename_i h
  simp only [List.length_drop]
  have : l.length ≠ 0 := fun hz => h (List.eq_nil_of_length_eq_zero hz)
  omega

/-- The CBC encryption loop of `AESCipher.encrypt` (`aes_cipher.py`
lines 330-343): each block is XORed with the previous ciphertext block
(initially the IV) and encrypted. -/
def cbc_encrypt_blocks (c : Cipher) (rks : List (List Nat)) :
    List Nat → List (List Nat) → Except String (List (List Nat))
  | _prev, [] => Except.ok []
  | prev, b :: rest =>
    match encrypt_block c (xor_block b prev) rks with
    | Except.error e => Except.error e
    | Except.ok enc =>
      match cbc_encrypt_blocks c rks enc rest with
      | Except.error e => Except.error e
      | Except.ok tl => Except.ok (enc :: tl)

/-- `AESCipher.encrypt` (`aes_cipher.py` lines 304-346) with a
caller-supplied IV (the source draws a random IV only when none is given). -/
def encrypt (c : Cipher) (plaintext key iv : List Nat) : Except String (List Nat) :=
  if iv.length ≠ 16 then Except.error "IV must be exactly 16 bytes"
  else
    match key_expansion c key with
    | Except.error e => Except.error e
    | Except.ok rks =>
      match cbc_encrypt_blocks c rks iv (toBlocks (pkcs7_pad plaintext N_BLOCK)) with
      | Except.error e => Except.error e
      | Except.ok blocks => Except.ok (iv ++ blocks.flatten)

/-- The CBC decryption loop of `AESCipher.decrypt` (`aes_cipher.py`
lines 369-383): each block is decrypted and XORed with the previous raw
ciphertext block (initially the IV). -/
def cbc_decrypt_blocks (c : Cipher) (rks : List (List Nat)) :
    List Nat → List (List Nat) → Except String (List Nat)
  | _prev, [] => Except.ok []
  | prev, b :: rest =>
    match decrypt_block c b rks with
    | Except.error e => Except.error e
    | Except.ok dec =>
      match cbc_decrypt_blocks c rks b rest with
      | Except.error e => Except.error e
      | Except.ok tl => Except.ok (xor_block dec prev ++ tl)

/-- The body of `AESCipher.decrypt` (`aes_cipher.py` lines 348-384) up to and
excluding the final `_pkcs7_unpad`: the length check, IV extraction, key
expansion and the CBC loop recovering the padded plaintext. -/
def recovered_plaintext (c : Cipher) (ciphertext key : List Nat) : Except String (List Nat) :=
  if ciphertext.length < 32 then Except.error "Ciphertext too short"
  else
    match key_expansion c key with
    | Except.error e => Except.error e
    | Except.ok rks => cbc_decrypt_blocks c rks (ciphertext.take 16) (toBlocks (ciphertext.drop 16))

/-- `AESCipher.decrypt` (`aes_cipher.py` lines 348-388): recover the padded
plaintext in CBC mode, then strip PKCS7 padding. -/
def decrypt (c : Cipher) (ciphertext key : List Nat) : Except String (List Nat) :=
  match recovered_plaintext c ciphertext key with
  | Except.error e => Except.error e
  | Except.ok plaintext => pkcs7_unpad plaintext

end AESCipher


namespace CryptographicTests

/-- One pass of the Möbius transform in `anf_transform`
(`cryptographic_tests.py` lines 372-375): for each `i` in `range(n)` with
`i & h == 0`, XOR `anf[i]` into `anf[i + h]`. -/
def mobiusPass (n h : Nat) (anf : List Nat) : List Nat :=
  (List.range n).foldl
    (fun a i => if i &&& h = 0 then a.set (i + h) (a.getD (i + h) 0 ^^^ a.getD i 0) else a) anf

/-- The `while h < n` loop of `anf_transform` (`cryptographic_tests.py`
lines 370-376), doubling `h` each pass.  The source starts the loop at
`h = 1` and doubles it, so `0 < h` is a loop invariant; it appears here as an
explicit guard only to make termination structural. -/
def anfLoop (n h : Nat) (anf : List Nat) : List Nat :=
  if _hlt : 0 < h ∧ h < n then anfLoop n (h <<< 1) (mobiusPass n h anf) else anf
termination_by n - h
decreasing_by
  have h2 : h <<< 1 = h * 2 ^ 1 := Nat.shiftLeft_eq h 1
  omega

/-- `anf_transform` (`cryptographic_tests.py` lines 365-378): the in-place
Möbius/ANF butterfly over a truth table, with `n = len(truth_table)`. -/
def anf_transform (truth_table : List Nat) : List Nat :=
  anfLoop truth_table.length 1 truth_table

/-- The inner `while not visited[curr]` walk of `calculate_cycle_structure`
(`cryptographic_tests.py` lines 530-535): follow `curr → sbox[curr]`, marking
nodes visited and counting steps, until a visited node is reached. -/
def walkCycle (sbox : List Nat) (visited : List Bool) (curr len : Nat) : List Bool × Nat :=
  if visited.getD curr true then (visited, len)
  else walkCycle sbox (visited.set curr true) (sbox.getD curr 0) (len + 1)
termination_by visited.count false
decreasing_by
  rename_i h
  have hfalse : visited.getD curr true = false := by simpa using h
  have key : ∀ (l : List Bool) (i : Nat), l.getD i true = false →
      (l.set i true).count false < l.count false := by
    intro l
    induction l with
    | nil => intro i h2; simp [List.getD] at h2
    | cons b t ih =>
      intro i h2
      cases i with
      | zero =>
        simp only [List.getD_cons_zero] at h2
        subst h2
        simp [List.count_cons]
      | succ j =>
        simp only [List.getD_cons_succ] at h2
        have := ih j h2
        simp only [List.set, List.count_cons]
        rcases b with _ | _ <;> simp <;> omega
  exact key _ _ hfalse

/-- The list `cycles` accumulated by `calculate_cycle_structure`
(`cryptographic_tests.py` lines 525-536): for each unvisited start `i` in
0..255, walk its cycle and record the length. -/
def cycle_lengths (sbox : List Nat) : List Nat :=
  ((List.range 256).foldl
    (fun (st : List Bool × List Nat) i =>
      if st.1.getD i true then st
      else
        let w := walkCycle sbox st.1 i 0
        (w.1, st.2 ++ [w.2]))
    (List.replicate 256 false, [])).2

/-- The statistics dictionary returned by `calculate_cycle_structure`. -/
structure CycleStats where
  count : Nat
  max_length : Nat
  min_length : Nat
  fixed_points : Nat
deriving Repr, DecidableEq

/-- `calculate_cycle_structure` (`cryptographic_tests.py` lines 515-543). -/
def calculate_cycle_structure (sbox : List Nat) : CycleStats :=
  let cycles := cycle_lengths sbox
  { count := cycles.length
    max_length := (cycles.maximum?).getD 0
    min_length := (cycles.minimum?).getD 0
    fixed_points := cycles.countP (fun c => c == 1) }

end CryptographicTests

/-! ## Proof layer -/

lemma gfFoldSeg1 :
    (List.range' 1 32).foldl GF256.tableStep
      (1, (List.replicate 512 0).set 0 1, List.replicate 256 0) =
      (229, [1, 3, 5, 15, 17, 51, 85, 255, 26, 46, 114, 150, 161, 248, 19, 53, 95, 225, 56, 72, 216, 115, 149, 164, 247, 2, 6, 10, 30, 34, 102, 170, 229, 0, 0, 0, 0, 0, 0, 0, 0, 0, 0, 0, 0, 0, 0, 0, 0, 0, 0, 0, 0, 0, 0, 0, 0, 0, 0, 0, 0, 0, 0, 0, 0, 0, 0, 0, 0, 0, 0, 0, 0, 0, 0, 0, 0, 0, 0, 0, 0, 0, 0, 0, 0, 0, 0, 0, 0, 0, 0, 0, 0, 0, 0, 0, 0, 0, 0, 0, 0, 0, 0, 0, 0, 0, 0, 0, 0, 0, 0, 0, 0, 0, 0, 0, 0, 0, 0, 0, 0, 0, 0, 0, 0, 0, 0, 0, 0, 0, 0, 0, 0, 0, 0, 0, 0, 0, 0, 0, 0, 0, 0, 0, 0, 0, 0, 0, 0, 0, 0, 0, 0, 0, 0, 0, 0, 0, 0, 0, 0, 0, 0, 0, 0, 0, 0, 0, 0, 0, 0, 0, 0, 0, 0, 0, 0, 0, 0, 0, 0, 0, 0, 0, 0, 0, 0, 0, 0, 0, 0, 0, 0, 0, 0, 0, 0, 0, 0, 0, 0, 0, 0, 0, 0, 0, 0, 0, 0, 0, 0, 0, 0, 0, 0, 0, 0, 0, 0, 0, 0, 0, 0, 0, 0, 0, 0, 0, 0, 0, 0, 0, 0, 0, 0, 0, 0, 0, 0, 0, 0, 0, 0, 0, 0, 0, 0, 0, 0, 0, 0, 0, 0, 0, 0, 0, 0, 0, 0, 0, 0, 0, 0, 0, 0, 0, 0, 0, 0, 0, 0, 0, 0, 0, 0, 0, 0, 0, 0, 0, 0, 0, 0, 0, 0, 0, 0, 0, 0, 0, 0, 0, 0, 0, 0, 0, 0, 0, 0, 0, 0, 0, 0, 0, 0, 0, 0, 0, 0, 0, 0, 0, 0, 0, 0, 0, 0, 0, 0, 0, 0, 0, 0, 0, 0, 0, 0, 0, 0, 0, 0, 0, 0, 0, 0, 0, 0, 0, 0, 0, 0, 0, 0, 0, 0, 0, 0, 0, 0, 0, 0, 0, 0, 0, 0, 0, 0, 0, 0, 0, 0, 0, 0, 0, 0, 0, 0, 0, 0, 0, 0, 0, 0, 0, 0, 0, 0, 0, 0, 0, 0, 0, 0, 0, 0, 0, 0, 0, 0, 0, 0, 0, 0, 0, 0, 0, 0, 0, 0, 0, 0, 0, 0, 0, 0, 0, 0, 0, 0, 0, 0, 0, 0, 0, 0, 0, 0, 0, 0, 0, 0, 0, 0, 0, 0, 0, 0, 0, 0, 0, 0, 0, 0, 0, 0, 0, 0, 0, 0, 0, 0, 0, 0, 0, 0, 0, 0, 0, 0, 0, 0, 0, 0, 0, 0, 0, 0, 0, 0, 0, 0, 0, 0, 0, 0, 0, 0, 0, 0, 0, 0, 0, 0, 0, 0, 0, 0, 0, 0, 0, 0, 0, 0, 0, 0, 0, 0, 0, 0, 0, 0, 0, 0, 0, 0, 0, 0, 0, 0, 0, 0, 0, 0, 0, 0, 0, 0, 0, 0, 0, 0, 0], [0, 0, 25, 1, 0, 2, 26, 0, 0, 0, 27, 0, 0, 0, 0, 3, 0, 4, 0, 14, 0, 0, 0, 0, 0, 0, 8, 0, 0, 0, 28, 0, 0, 0, 29, 0, 0, 0, 0, 0, 0, 0, 0, 0, 0, 0, 9, 0, 0, 0, 0, 5, 0, 15, 0, 0, 18, 0, 0, 0, 0, 0, 0, 0, 0, 0, 0, 0, 0, 0, 0, 0, 19, 0, 0, 0, 0, 0, 0, 0, 0, 0, 0, 0, 0, 6, 0, 0, 0, 0, 0, 0, 0, 0, 0, 16, 0, 0, 0, 0, 0, 0, 30, 0, 0, 0, 0, 0, 0, 0, 0, 0, 0, 0, 10, 21, 0, 0, 0, 0, 0, 0, 0, 0, 0, 0, 0, 0, 0, 0, 0, 0, 0, 0, 0, 0, 0, 0, 0, 0, 0, 0, 0, 0, 0, 0, 0, 0, 0, 22, 11, 0, 0, 0, 0, 0, 0, 0, 0, 0, 0, 12, 0, 0, 23, 0, 0, 0, 0, 0, 31, 0, 0, 0, 0, 0, 0, 0, 0, 0, 0, 0, 0, 0, 0, 0, 0, 0, 0, 0, 0, 0, 0, 0, 0, 0, 0, 0, 0, 0, 0, 0, 0, 0, 0, 0, 0, 0, 0, 0, 0, 0, 0, 0, 0, 0, 20, 0, 0, 0, 0, 0, 0, 0, 0, 17, 0, 0, 0, 32, 0, 0, 0, 0, 0, 0, 0, 0, 0, 0, 0, 0, 0, 0, 0, 0, 0, 24, 13, 0, 0, 0, 0, 0, 0, 7]) := by decide

lemma gfFoldSeg2 :
    (List.range' 33 32).foldl GF256.tableStep
      (229, [1, 3, 5, 15, 17, 51, 85, 255, 26, 46, 114, 150, 161, 248, 19, 53, 95, 225, 56, 72, 216, 115, 149, 164, 247, 2, 6, 10, 30, 34, 102, 170, 229, 0, 0, 0, 0, 0, 0, 0, 0, 0, 0, 0, 0, 0, 0, 0, 0, 0, 0, 0, 0, 0, 0, 0, 0, 0, 0, 0, 0, 0, 0, 0, 0, 0, 0, 0, 0, 0, 0, 0, 0, 0, 0, 0, 0, 0, 0, 0, 0, 0, 0, 0, 0, 0, 0, 0, 0, 0, 0, 0, 0, 0, 0, 0, 0, 0, 0, 0, 0, 0, 0, 0, 0, 0, 0, 0, 0, 0, 0, 0, 0, 0, 0, 0, 0, 0, 0, 0, 0, 0, 0, 0, 0, 0, 0, 0, 0, 0, 0, 0, 0, 0, 0, 0, 0, 0, 0, 0, 0, 0, 0, 0, 0, 0, 0, 0, 0, 0, 0, 0, 0, 0, 0, 0, 0, 0, 0, 0, 0, 0, 0, 0, 0, 0, 0, 0, 0, 0, 0, 0, 0, 0, 0, 0, 0, 0, 0, 0, 0, 0, 0, 0, 0, 0, 0, 0, 0, 0, 0, 0, 0, 0, 0, 0, 0, 0, 0, 0, 0, 0, 0, 0, 0, 0, 0, 0, 0, 0, 0, 0, 0, 0, 0, 0, 0, 0, 0, 0, 0, 0, 0, 0, 0, 0, 0, 0, 0, 0, 0, 0, 0, 0, 0, 0, 0, 0, 0, 0, 0, 0, 0, 0, 0, 0, 0, 0, 0, 0, 0, 0, 0, 0, 0, 0, 0, 0, 0, 0, 0, 0, 0, 0, 0, 0, 0, 0, 0, 0, 0, 0, 0, 0, 0, 0, 0, 0, 0, 0, 0, 0, 0, 0, 0, 0, 0, 0, 0, 0, 0, 0, 0, 0, 0, 0, 0, 0, 0, 0, 0, 0, 0, 0, 0, 0, 0, 0, 0, 0, 0, 0, 0, 0, 0, 0, 0, 0, 0, 0, 0, 0, 0, 0, 0, 0, 0, 0, 0, 0, 0, 0, 0, 0, 0, 0, 0, 0, 0, 0, 0, 0, 0, 0, 0, 0, 0, 0, 0, 0, 0, 0, 0, 0, 0, 0, 0, 0, 0, 0, 0, 0, 0, 0, 0, 0, 0, 0, 0, 0, 0, 0, 0, 0, 0, 0, 0, 0, 0, 0, 0, 0, 0, 0, 0, 0, 0, 0, 0, 0, 0, 0, 0, 0, 0, 0, 0, 0, 0, 0, 0, 0, 0, 0, 0, 0, 0, 0, 0, 0, 0, 0, 0, 0, 0, 0, 0, 0, 0, 0, 0, 0, 0, 0, 0, 0, 0, 0, 0, 0, 0, 0, 0, 0, 0, 0, 0, 0, 0, 0, 0, 0, 0, 0, 0, 0, 0, 0, 0, 0, 0, 0, 0, 0, 0, 0, 0, 0, 0, 0, 0, 0, 0, 0, 0, 0, 0, 0, 0, 0, 0, 0, 0, 0, 0, 0, 0, 0, 0, 0, 0, 0, 0, 0, 0, 0, 0, 0, 0, 0, 0, 0, 0, 0, 0, 0, 0, 0, 0, 0, 0, 0, 0, 0, 0, 0, 0, 0, 0, 0, 0, 0], [0, 0, 25, 1, 0, 2, 26, 0, 0, 0, 27, 0, 0, 0, 0, 3, 0, 4, 0, 14, 0, 0, 0, 0, 0, 0, 8, 0, 0, 0, 28, 0, 0, 0, 29, 0, 0, 0, 0, 0, 0, 0, 0, 0, 0, 0, 9, 0, 0, 0, 0, 5, 0, 15, 0, 0, 18, 0, 0, 0, 0, 0, 0, 0, 0, 0, 0, 0, 0, 0, 0, 0, 19, 0, 0, 0, 0, 0, 0, 0, 0, 0, 0, 0, 0, 6, 0, 0, 0, 0, 0, 0, 0, 0, 0, 16, 0, 0, 0, 0, 0, 0, 30, 0, 0, 0, 0, 0, 0, 0, 0, 0, 0, 0, 10, 21, 0, 0, 0, 0, 0, 0, 0, 0, 0, 0, 0, 0, 0, 0, 0, 0, 0, 0, 0, 0, 0, 0, 0, 0, 0, 0, 0, 0, 0, 0, 0, 0, 0, 22, 11, 0, 0, 0, 0, 0, 0, 0, 0, 0, 0, 12, 0, 0, 23, 0, 0, 0, 0, 0, 31, 0, 0, 0, 0, 0, 0, 0, 0, 0, 0, 0, 0, 0, 0, 0, 0, 0, 0, 0, 0, 0, 0, 0, 0, 0, 0, 0, 0, 0, 0, 0, 0, 0, 0, 0, 0, 0, 0, 0, 0, 0, 0, 0, 0, 0, 20, 0, 0, 0, 0, 0, 0, 0, 0, 17, 0, 0, 0, 32, 0, 0, 0, 0, 0, 0, 0, 0, 0, 0, 0, 0, 0, 0, 0, 0, 0, 24, 13, 0, 0, 0, 0, 0, 0, 7]) =
      (76, [1, 3, 5, 15, 17, 51, 85, 255, 26, 46, 114, 150, 161, 248, 19, 53, 95, 225, 56, 72, 216, 115, 149, 164, 247, 2, 6, 10, 30, 34, 102, 170, 229, 52, 92, 228, 55, 89, 235, 38, 106, 190, 217, 112, 144, 171, 230, 49, 83, 245, 4, 12, 20, 60, 68, 204, 79, 209, 104, 184, 211, 110, 178, 205, 76, 0, 0, 0, 0, 0, 0, 0, 0, 0, 0, 0, 0, 0, 0, 0, 0, 0, 0, 0, 0, 0, 0, 0, 0, 0, 0, 0, 0, 0, 0, 0, 0, 0, 0, 0, 0, 0, 0, 0, 0, 0, 0, 0, 0, 0, 0, 0, 0, 0, 0, 0, 0, 0, 0, 0, 0, 0, 0, 0, 0, 0, 0, 0, 0, 0, 0, 0, 0, 0, 0, 0, 0, 0, 0, 0, 0, 0, 0, 0, 0, 0, 0, 0, 0, 0, 0, 0, 0, 0, 0, 0, 0, 0, 0, 0, 0, 0, 0, 0, 0, 0, 0, 0, 0, 0, 0, 0, 0, 0, 0, 0, 0, 0, 0, 0, 0, 0, 0, 0, 0, 0, 0, 0, 0, 0, 0, 0, 0, 0, 0, 0, 0, 0, 0, 0, 0, 0, 0, 0, 0, 0, 0, 0, 0, 0, 0, 0, 0, 0, 0, 0, 0, 0, 0, 0, 0, 0, 0, 0, 0, 0, 0, 0, 0, 0, 0, 0, 0, 0, 0, 0, 0, 0, 0, 0, 0, 0, 0, 0, 0, 0, 0, 0, 0, 0, 0, 0, 0, 0, 0, 0, 0, 0, 0, 0, 0, 0, 0, 0, 0, 0, 0, 0, 0, 0, 0, 0, 0, 0, 0, 0, 0, 0, 0, 0, 0, 0, 0, 0, 0, 0, 0, 0, 0, 0, 0, 0, 0, 0, 0, 0, 0, 0, 0, 0, 0, 0, 0, 0, 0, 0, 0, 0, 0, 0, 0, 0, 0, 0, 0, 0, 0, 0, 0, 0, 0, 0, 0, 0, 0, 0, 0, 0, 0, 0, 0, 0, 0, 0, 0, 0, 0, 0, 0, 0, 0, 0, 0, 0, 0, 0, 0, 0, 0, 0, 0, 0, 0, 0, 0, 0, 0, 0, 0, 0, 0, 0, 0, 0, 0, 0, 0, 0, 0, 0, 0, 0, 0, 0, 0, 0, 0, 0, 0, 0, 0, 0, 0, 0, 0, 0, 0, 0, 0, 0, 0, 0, 0, 0, 0, 0, 0, 0, 0, 0, 0, 0, 0, 0, 0, 0, 0, 0, 0, 0, 0, 0, 0, 0, 0, 0, 0, 0, 0, 0, 0, 0, 0, 0, 0, 0, 0, 0, 0, 0, 0, 0, 0, 0, 0, 0, 0, 0, 0, 0, 0, 0, 0, 0, 0, 0, 0, 0, 0, 0, 0, 0, 0, 0, 0, 0, 0, 0, 0, 0, 0, 0, 0, 0, 0, 0, 0, 0, 0, 0, 0, 0, 0, 0, 0, 0, 0, 0, 0, 0, 0, 0, 0, 0, 0, 0, 0, 0, 0, 0, 0, 0, 0, 0, 0, 0, 0, 0, 0, 0, 0, 0, 0, 0, 0, 0, 0, 0, 0, 0, 0, 0], [0, 0, 25, 1, 50, 2, 26, 0, 0, 0, 27, 0, 51, 0, 0, 3, 0, 4, 0, 14, 52, 0, 0, 0, 0, 0, 8, 0, 0, 0, 28, 0, 0, 0, 29, 0, 0, 0, 39, 0, 0, 0, 0, 0, 0, 0, 9, 0, 0, 47, 0, 5, 33, 15, 0, 36, 18, 0, 0, 0, 53, 0, 0, 0, 0, 0, 0, 0, 54, 0, 0, 0, 19, 0, 0, 0, 64, 0, 0, 56, 0, 0, 0, 48, 0, 6, 0, 0, 0, 37, 0, 0, 34, 0, 0, 16, 0, 0, 0, 0, 0, 0, 30, 0, 58, 0, 40, 0, 0, 0, 61, 0, 43, 0, 10, 21, 0, 0, 0, 0, 0, 0, 0, 0, 0, 0, 0, 0, 0, 0, 0, 0, 0, 0, 0, 0, 0, 0, 0, 0, 0, 0, 0, 0, 44, 0, 0, 0, 0, 22, 11, 0, 0, 0, 0, 0, 0, 0, 0, 0, 0, 12, 0, 0, 23, 0, 0, 0, 0, 0, 31, 45, 0, 0, 0, 0, 0, 0, 62, 0, 0, 0, 0, 0, 59, 0, 0, 0, 0, 0, 41, 0, 0, 0, 0, 0, 0, 0, 0, 0, 0, 0, 0, 0, 55, 63, 0, 0, 0, 57, 0, 60, 0, 0, 0, 0, 20, 42, 0, 0, 0, 0, 0, 0, 0, 17, 0, 0, 35, 32, 46, 0, 0, 0, 0, 38, 0, 0, 0, 0, 0, 0, 0, 0, 0, 49, 0, 24, 13, 0, 0, 0, 0, 0, 0, 7]) := by decide

lemma gfFoldSeg3 :
    (List.range' 65 32).foldl GF256.tableStep
      (76, [1, 3, 5, 15, 17, 51, 85, 255, 26, 46, 114, 150, 161, 248, 19, 53, 95, 225, 56, 72, 216, 115, 149, 164, 247, 2, 6, 10, 30, 34, 102, 170, 229, 52, 92, 228, 55, 89, 235, 38, 106, 190, 217, 112, 144, 171, 230, 49, 83, 245, 4, 12, 20, 60, 68, 204, 79, 209, 104, 184, 211, 110, 178, 205, 76, 0, 0, 0, 0, 0, 0, 0, 0, 0, 0, 0, 0, 0, 0, 0, 0, 0, 0, 0, 0, 0, 0, 0, 0, 0, 0, 0, 0, 0, 0, 0, 0, 0, 0, 0, 0, 0, 0, 0, 0, 0, 0, 0, 0, 0, 0, 0, 0, 0, 0, 0, 0, 0, 0, 0, 0, 0, 0, 0, 0, 0, 0, 0, 0, 0, 0, 0, 0, 0, 0, 0, 0, 0, 0, 0, 0, 0, 0, 0, 0, 0, 0, 0, 0, 0, 0, 0, 0, 0, 0, 0, 0, 0, 0, 0, 0, 0, 0, 0, 0, 0, 0, 0, 0, 0, 0, 0, 0, 0, 0, 0, 0, 0, 0, 0, 0, 0, 0, 0, 0, 0, 0, 0, 0, 0, 0, 0, 0, 0, 0, 0, 0, 0, 0, 0, 0, 0, 0, 0, 0, 0, 0, 0, 0, 0, 0, 0, 0, 0, 0, 0, 0, 0, 0, 0, 0, 0, 0, 0, 0, 0, 0, 0, 0, 0, 0, 0, 0, 0, 0, 0, 0, 0, 0, 0, 0, 0, 0, 0, 0, 0, 0, 0, 0, 0, 0, 0, 0, 0, 0, 0, 0, 0, 0, 0, 0, 0, 0, 0, 0, 0, 0, 0, 0, 0, 0, 0, 0, 0, 0, 0, 0, 0, 0, 0, 0, 0, 0, 0, 0, 0, 0, 0, 0, 0, 0, 0, 0, 0, 0, 0, 0, 0, 0, 0, 0, 0, 0, 0, 0, 0, 0, 0, 0, 0, 0, 0, 0, 0, 0, 0, 0, 0, 0, 0, 0, 0, 0, 0, 0, 0, 0, 0, 0, 0, 0, 0, 0, 0, 0, 0, 0, 0, 0, 0, 0, 0, 0, 0, 0, 0, 0, 0, 0, 0, 0, 0, 0, 0, 0, 0, 0, 0, 0, 0, 0, 0, 0, 0, 0, 0, 0, 0, 0, 0, 0, 0, 0, 0, 0, 0, 0, 0, 0, 0, 0, 0, 0, 0, 0, 0, 0, 0, 0, 0, 0, 0, 0, 0, 0, 0, 0, 0, 0, 0, 0, 0, 0, 0, 0, 0, 0, 0, 0, 0, 0, 0, 0, 0, 0, 0, 0, 0, 0, 0, 0, 0, 0, 0, 0, 0, 0, 0, 0, 0, 0, 0, 0, 0, 0, 0, 0, 0, 0, 0, 0, 0, 0, 0, 0, 0, 0, 0, 0, 0, 0, 0, 0, 0, 0, 0, 0, 0, 0, 0, 0, 0, 0, 0, 0, 0, 0, 0, 0, 0, 0, 0, 0, 0, 0, 0, 0, 0, 0, 0, 0, 0, 0, 0, 0, 0, 0, 0, 0, 0, 0, 0, 0, 0, 0, 0, 0, 0, 0, 0, 0, 0, 0, 0, 0, 0, 0, 0, 0, 0, 0, 0], [0, 0, 25, 1, 50, 2, 26, 0, 0, 0, 27, 0, 51, 0, 0, 3, 0, 4, 0, 14, 52, 0, 0, 0, 0, 0, 8, 0, 0, 0, 28, 0, 0, 0, 29, 0, 0, 0, 39, 0, 0, 0, 0, 0, 0, 0, 9, 0, 0, 47, 0, 5, 33, 15, 0, 36, 18, 0, 0, 0, 53, 0, 0, 0, 0, 0, 0, 0, 54, 0, 0, 0, 19, 0, 0, 0, 64, 0, 0, 56, 0, 0, 0, 48, 0, 6, 0, 0, 0, 37, 0, 0, 34, 0, 0, 16, 0, 0, 0, 0, 0, 0, 30, 0, 58, 0, 40, 0, 0, 0, 61, 0, 43, 0, 10, 21, 0, 0, 0, 0, 0, 0, 0, 0, 0, 0, 0, 0, 0, 0, 0, 0, 0, 0, 0, 0, 0, 0, 0, 0, 0, 0, 0, 0, 44, 0, 0, 0, 0, 22, 11, 0, 0, 0, 0, 0, 0, 0, 0, 0, 0, 12, 0, 0, 23, 0, 0, 0, 0, 0, 31, 45, 0, 0, 0, 0, 0, 0, 62, 0, 0, 0, 0, 0, 59, 0, 0, 0, 0, 0, 41, 0, 0, 0, 0, 0, 0, 0, 0, 0, 0, 0, 0, 0, 55, 63, 0, 0, 0, 57, 0, 60, 0, 0, 0, 0, 20, 42, 0, 0, 0, 0, 0, 0, 0, 17, 0, 0, 35, 32, 46, 0, 0, 0, 0, 38, 0, 0, 0, 0, 0, 0, 0, 0, 0, 49, 0, 24, 13, 0, 0, 0, 0, 0, 0, 7]) =
      (181, [1, 3, 5, 15, 17, 51, 85, 255, 26, 46, 114, 150, 161, 248, 19, 53, 95, 225, 56, 72, 216, 115, 149, 164, 247, 2, 6, 10, 30, 34, 102, 170, 229, 52, 92, 228, 55, 89, 235, 38, 106, 190, 217, 112, 144, 171, 230, 49, 83, 245, 4, 12, 20, 60, 68, 204, 79, 209, 104, 184, 211, 110, 178, 205, 76, 212, 103, 169, 224, 59, 77, 215, 98, 166, 241, 8, 24, 40, 120, 136, 131, 158, 185, 208, 107, 189, 220, 127, 129, 152, 179, 206, 73, 219, 118, 154, 181, 0, 0, 0, 0, 0, 0, 0, 0, 0, 0, 0, 0, 0, 0, 0, 0, 0, 0, 0, 0, 0, 0, 0, 0, 0, 0, 0, 0, 0, 0, 0, 0, 0, 0, 0, 0, 0, 0, 0, 0, 0, 0, 0, 0, 0, 0, 0, 0, 0, 0, 0, 0, 0, 0, 0, 0, 0, 0, 0, 0, 0, 0, 0, 0, 0, 0, 0, 0, 0, 0, 0, 0, 0, 0, 0, 0, 0, 0, 0, 0, 0, 0, 0, 0, 0, 0, 0, 0, 0, 0, 0, 0, 0, 0, 0, 0, 0, 0, 0, 0, 0, 0, 0, 0, 0, 0, 0, 0, 0, 0, 0, 0, 0, 0, 0, 0, 0, 0, 0, 0, 0, 0, 0, 0, 0, 0, 0, 0, 0, 0, 0, 0, 0, 0, 0, 0, 0, 0, 0, 0, 0, 0, 0, 0, 0, 0, 0, 0, 0, 0, 0, 0, 0, 0, 0, 0, 0, 0, 0, 0, 0, 0, 0, 0, 0, 0, 0, 0, 0, 0, 0, 0, 0, 0, 0, 0, 0, 0, 0, 0, 0, 0, 0, 0, 0, 0, 0, 0, 0, 0, 0, 0, 0, 0, 0, 0, 0, 0, 0, 0, 0, 0, 0, 0, 0, 0, 0, 0, 0, 0, 0, 0, 0, 0, 0, 0, 0, 0, 0, 0, 0, 0, 0, 0, 0, 0, 0, 0, 0, 0, 0, 0, 0, 0, 0, 0, 0, 0, 0, 0, 0, 0, 0, 0, 0, 0, 0, 0, 0, 0, 0, 0, 0, 0, 0, 0, 0, 0, 0, 0, 0, 0, 0, 0, 0, 0, 0, 0, 0, 0, 0, 0, 0, 0, 0, 0, 0, 0, 0, 0, 0, 0, 0, 0, 0, 0, 0, 0, 0, 0, 0, 0, 0, 0, 0, 0, 0, 0, 0, 0, 0, 0, 0, 0, 0, 0, 0, 0, 0, 0, 0, 0, 0, 0, 0, 0, 0, 0, 0, 0, 0, 0, 0, 0, 0, 0, 0, 0, 0, 0, 0, 0, 0, 0, 0, 0, 0, 0, 0, 0, 0, 0, 0, 0, 0, 0, 0, 0, 0, 0, 0, 0, 0, 0, 0, 0, 0, 0, 0, 0, 0, 0, 0, 0, 0, 0, 0, 0, 0, 0, 0, 0, 0, 0, 0, 0, 0, 0, 0, 0, 0, 0, 0, 0, 0, 0, 0, 0, 0, 0, 0, 0, 0, 0, 0, 0, 0, 0, 0, 0, 0, 0, 0, 0, 0, 0, 0, 0, 0, 0, 0, 0, 0, 0, 0], [0, 0, 25, 1, 50, 2, 26, 0, 75, 0, 27, 0, 51, 0, 0, 3, 0, 4, 0, 14, 52, 0, 0, 0, 76, 0, 8, 0, 0, 0, 28, 0, 0, 0, 29, 0, 0, 0, 39, 0, 77, 0, 0, 0, 0, 0, 9, 0, 0, 47, 0, 5, 33, 15, 0, 36, 18, 0, 0, 69, 53, 0, 0, 0, 0, 0, 0, 0, 54, 0, 0, 0, 19, 92, 0, 0, 64, 70, 0, 56, 0, 0, 0, 48, 0, 6, 0, 0, 0, 37, 0, 0, 34, 0, 0, 16, 0, 0, 72, 0, 0, 0, 30, 66, 58, 0, 40, 84, 0, 0, 61, 0, 43, 0, 10, 21, 0, 0, 94, 0, 78, 0, 0, 0, 0, 0, 0, 87, 0, 88, 0, 80, 0, 0, 0, 0, 79, 0, 0, 0, 0, 0, 0, 0, 44, 0, 0, 0, 0, 22, 11, 0, 89, 0, 95, 0, 0, 0, 81, 0, 0, 12, 0, 0, 23, 0, 73, 0, 0, 67, 31, 45, 0, 0, 0, 0, 0, 0, 62, 90, 0, 96, 0, 0, 59, 82, 0, 0, 0, 85, 41, 0, 0, 0, 0, 0, 0, 0, 0, 0, 0, 0, 0, 0, 55, 63, 91, 0, 83, 57, 0, 60, 65, 0, 0, 71, 20, 42, 0, 93, 86, 0, 0, 0, 68, 17, 0, 0, 35, 32, 46, 0, 0, 0, 0, 38, 0, 0, 0, 0, 0, 74, 0, 0, 0, 49, 0, 24, 13, 0, 0, 0, 0, 0, 0, 7]) := by decide

lemma gfFoldSeg4 :
    (List.range' 97 32).foldl GF256.tableStep
      (181, [1, 3, 5, 15, 17, 51, 85, 255, 26, 46, 114, 150, 161, 248, 19, 53, 95, 225, 56, 72, 216, 115, 149, 164, 247, 2, 6, 10, 30, 34, 102, 170, 229, 52, 92, 228, 55, 89, 235, 38, 106, 190, 217, 112, 144, 171, 230, 49, 83, 245, 4, 12, 20, 60, 68, 204, 79, 209, 104, 184, 211, 110, 178, 205, 76, 212, 103, 169, 224, 59, 77, 215, 98, 166, 241, 8, 24, 40, 120, 136, 131, 158, 185, 208, 107, 189, 220, 127, 129, 152, 179, 206, 73, 219, 118, 154, 181, 0, 0, 0, 0, 0, 0, 0, 0, 0, 0, 0, 0, 0, 0, 0, 0, 0, 0, 0, 0, 0, 0, 0, 0, 0, 0, 0, 0, 0, 0, 0, 0, 0, 0, 0, 0, 0, 0, 0, 0, 0, 0, 0, 0, 0, 0, 0, 0, 0, 0, 0, 0, 0, 0, 0, 0, 0, 0, 0, 0, 0, 0, 0, 0, 0, 0, 0, 0, 0, 0, 0, 0, 0, 0, 0, 0, 0, 0, 0, 0, 0, 0, 0, 0, 0, 0, 0, 0, 0, 0, 0, 0, 0, 0, 0, 0, 0, 0, 0, 0, 0, 0, 0, 0, 0, 0, 0, 0, 0, 0, 0, 0, 0, 0, 0, 0, 0, 0, 0, 0, 0, 0, 0, 0, 0, 0, 0, 0, 0, 0, 0, 0, 0, 0, 0, 0, 0, 0, 0, 0, 0, 0, 0, 0, 0, 0, 0, 0, 0, 0, 0, 0, 0, 0, 0, 0, 0, 0, 0, 0, 0, 0, 0, 0, 0, 0, 0, 0, 0, 0, 0, 0, 0, 0, 0, 0, 0, 0, 0, 0, 0, 0, 0, 0, 0, 0, 0, 0, 0, 0, 0, 0, 0, 0, 0, 0, 0, 0, 0, 0, 0, 0, 0, 0, 0, 0, 0, 0, 0, 0, 0, 0, 0, 0, 0, 0, 0, 0, 0, 0, 0, 0, 0, 0, 0, 0, 0, 0, 0, 0, 0, 0, 0, 0, 0, 0, 0, 0, 0, 0, 0, 0, 0, 0, 0, 0, 0, 0, 0, 0, 0, 0, 0, 0, 0, 0, 0, 0, 0, 0, 0, 0, 0, 0, 0, 0, 0, 0, 0, 0, 0, 0, 0, 0, 0, 0, 0, 0, 0, 0, 0, 0, 0, 0, 0, 0, 0, 0, 0, 0, 0, 0, 0, 0, 0, 0, 0, 0, 0, 0, 0, 0, 0, 0, 0, 0, 0, 0, 0, 0, 0, 0, 0, 0, 0, 0, 0, 0, 0, 0, 0, 0, 0, 0, 0, 0, 0, 0, 0, 0, 0, 0, 0, 0, 0, 0, 0, 0, 0, 0, 0, 0, 0, 0, 0, 0, 0, 0, 0, 0, 0, 0, 0, 0, 0, 0, 0, 0, 0, 0, 0, 0, 0, 0, 0, 0, 0, 0, 0, 0, 0, 0, 0, 0, 0, 0, 0, 0, 0, 0, 0, 0, 0, 0, 0, 0, 0, 0, 0, 0, 0, 0, 0, 0, 0, 0, 0, 0, 0, 0, 0, 0, 0, 0, 0, 0, 0, 0, 0, 0, 0, 0, 0, 0, 0], [0, 0, 25, 1, 50, 2, 26, 0, 75, 0, 27, 0, 51, 0, 0, 3, 0, 4, 0, 14, 52, 0, 0, 0, 76, 0, 8, 0, 0, 0, 28, 0, 0, 0, 29, 0, 0, 0, 39, 0, 77, 0, 0, 0, 0, 0, 9, 0, 0, 47, 0, 5, 33, 15, 0, 36, 18, 0, 0, 69, 53, 0, 0, 0, 0, 0, 0, 0, 54, 0, 0, 0, 19, 92, 0, 0, 64, 70, 0, 56, 0, 0, 0, 48, 0, 6, 0, 0, 0, 37, 0, 0, 34, 0, 0, 16, 0, 0, 72, 0, 0, 0, 30, 66, 58, 0, 40, 84, 0, 0, 61, 0, 43, 0, 10, 21, 0, 0, 94, 0, 78, 0, 0, 0, 0, 0, 0, 87, 0, 88, 0, 80, 0, 0, 0, 0, 79, 0, 0, 0, 0, 0, 0, 0, 44, 0, 0, 0, 0, 22, 11, 0, 89, 0, 95, 0, 0, 0, 81, 0, 0, 12, 0, 0, 23, 0, 73, 0, 0, 67, 31, 45, 0, 0, 0, 0, 0, 0, 62, 90, 0, 96, 0, 0, 59, 82, 0, 0, 0, 85, 41, 0, 0, 0, 0, 0, 0, 0, 0, 0, 0, 0, 0, 0, 55, 63, 91, 0, 83, 57, 0, 60, 65, 0, 0, 71, 20, 42, 0, 93, 86, 0, 0, 0, 68, 17, 0, 0, 35, 32, 46, 0, 0, 0, 0, 38, 0, 0, 0, 0, 0, 74, 0, 0, 0, 49, 0, 24, 13, 0, 0, 0, 0, 0, 0, 7]) =
      (251, [1, 3, 5, 15, 17, 51, 85, 255, 26, 46, 114, 150, 161, 248, 19, 53, 95, 225, 56, 72, 216, 115, 149, 164, 247, 2, 6, 10, 30, 34, 102, 170, 229, 52, 92, 228, 55, 89, 235, 38, 106, 190, 217, 112, 144, 171, 230, 49, 83, 245, 4, 12, 20, 60, 68, 204, 79, 209, 104, 184, 211, 110, 178, 205, 76, 212, 103, 169, 224, 59, 77, 215, 98, 166, 241, 8, 24, 40, 120, 136, 131, 158, 185, 208, 107, 189, 220, 127, 129, 152, 179, 206, 73, 219, 118, 154, 181, 196, 87, 249, 16, 48, 80, 240, 11, 29, 39, 105, 187, 214, 97, 163, 254, 25, 43, 125, 135, 146, 173, 236, 47, 113, 147, 174, 233, 32, 96, 160, 251, 0, 0, 0, 0, 0, 0, 0, 0, 0, 0, 0, 0, 0, 0, 0, 0, 0, 0, 0, 0, 0, 0, 0, 0, 0, 0, 0, 0, 0, 0, 0, 0, 0, 0, 0, 0, 0, 0, 0, 0, 0, 0, 0, 0, 0, 0, 0, 0, 0, 0, 0, 0, 0, 0, 0, 0, 0, 0, 0, 0, 0, 0, 0, 0, 0, 0, 0, 0, 0, 0, 0, 0, 0, 0, 0, 0, 0, 0, 0, 0, 0, 0, 0, 0, 0, 0, 0, 0, 0, 0, 0, 0, 0, 0, 0, 0, 0, 0, 0, 0, 0, 0, 0, 0, 0, 0, 0, 0, 0, 0, 0, 0, 0, 0, 0, 0, 0, 0, 0, 0, 0, 0, 0, 0, 0, 0, 0, 0, 0, 0, 0, 0, 0, 0, 0, 0, 0, 0, 0, 0, 0, 0, 0, 0, 0, 0, 0, 0, 0, 0, 0, 0, 0, 0, 0, 0, 0, 0, 0, 0, 0, 0, 0, 0, 0, 0, 0, 0, 0, 0, 0, 0, 0, 0, 0, 0, 0, 0, 0, 0, 0, 0, 0, 0, 0, 0, 0, 0, 0, 0, 0, 0, 0, 0, 0, 0, 0, 0, 0, 0, 0, 0, 0, 0, 0, 0, 0, 0, 0, 0, 0, 0, 0, 0, 0, 0, 0, 0, 0, 0, 0, 0, 0, 0, 0, 0, 0, 0, 0, 0, 0, 0, 0, 0, 0, 0, 0, 0, 0, 0, 0, 0, 0, 0, 0, 0, 0, 0, 0, 0, 0, 0, 0, 0, 0, 0, 0, 0, 0, 0, 0, 0, 0, 0, 0, 0, 0, 0, 0, 0, 0, 0, 0, 0, 0, 0, 0, 0, 0, 0, 0, 0, 0, 0, 0, 0, 0, 0, 0, 0, 0, 0, 0, 0, 0, 0, 0, 0, 0, 0, 0, 0, 0, 0, 0, 0, 0, 0, 0, 0, 0, 0, 0, 0, 0, 0, 0, 0, 0, 0, 0, 0, 0, 0, 0, 0, 0, 0, 0, 0, 0, 0, 0, 0, 0, 0, 0, 0, 0, 0, 0, 0, 0, 0, 0, 0, 0, 0, 0, 0, 0, 0, 0, 0, 0, 0, 0, 0, 0, 0, 0, 0, 0, 0, 0, 0, 0, 0, 0, 0, 0, 0, 0, 0, 0, 0, 0, 0, 0, 0, 0, 0, 0], [0, 0, 25, 1, 50, 2, 26, 0, 75, 0, 27, 104, 51, 0, 0, 3, 100, 4, 0, 14, 52, 0, 0, 0, 76, 113, 8, 0, 0, 105, 28, 0, 125, 0, 29, 0, 0, 0, 39, 106, 77, 0, 0, 114, 0, 0, 9, 120, 101, 47, 0, 5, 33, 15, 0, 36, 18, 0, 0, 69, 53, 0, 0, 0, 0, 0, 0, 0, 54, 0, 0, 0, 19, 92, 0, 0, 64, 70, 0, 56, 102, 0, 0, 48, 0, 6, 0, 98, 0, 37, 0, 0, 34, 0, 0, 16, 126, 110, 72, 0, 0, 0, 30, 66, 58, 107, 40, 84, 0, 0, 61, 0, 43, 121, 10, 21, 0, 0, 94, 0, 78, 0, 0, 0, 0, 115, 0, 87, 0, 88, 0, 80, 0, 0, 0, 116, 79, 0, 0, 0, 0, 0, 0, 0, 44, 0, 117, 122, 0, 22, 11, 0, 89, 0, 95, 0, 0, 0, 81, 0, 127, 12, 0, 111, 23, 0, 73, 0, 0, 67, 31, 45, 0, 118, 123, 0, 0, 0, 62, 90, 0, 96, 0, 0, 59, 82, 0, 108, 0, 85, 41, 0, 0, 0, 0, 0, 97, 0, 0, 0, 0, 0, 0, 0, 55, 63, 91, 0, 83, 57, 0, 60, 65, 0, 109, 71, 20, 42, 0, 93, 86, 0, 0, 0, 68, 17, 0, 0, 35, 32, 46, 0, 0, 124, 0, 38, 119, 0, 0, 0, 103, 74, 0, 0, 0, 49, 0, 24, 13, 99, 0, 128, 0, 0, 112, 7]) := by decide

lemma gfFoldSeg5 :
    (List.range' 129 32).foldl GF256.tableStep
      (251, [1, 3, 5, 15, 17, 51, 85, 255, 26, 46, 114, 150, 161, 248, 19, 53, 95, 225, 56, 72, 216, 115, 149, 164, 247, 2, 6, 10, 30, 34, 102, 170, 229, 52, 92, 228, 55, 89, 235, 38, 106, 190, 217, 112, 144, 171, 230, 49, 83, 245, 4, 12, 20, 60, 68, 204, 79, 209, 104, 184, 211, 110, 178, 205, 76, 212, 103, 169, 224, 59, 77, 215, 98, 166, 241, 8, 24, 40, 120, 136, 131, 158, 185, 208, 107, 189, 220, 127, 129, 152, 179, 206, 73, 219, 118, 154, 181, 196, 87, 249, 16, 48, 80, 240, 11, 29, 39, 105, 187, 214, 97, 163, 254, 25, 43, 125, 135, 146, 173, 236, 47, 113, 147, 174, 233, 32, 96, 160, 251, 0, 0, 0, 0, 0, 0, 0, 0, 0, 0, 0, 0, 0, 0, 0, 0, 0, 0, 0, 0, 0, 0, 0, 0, 0, 0, 0, 0, 0, 0, 0, 0, 0, 0, 0, 0, 0, 0, 0, 0, 0, 0, 0, 0, 0, 0, 0, 0, 0, 0, 0, 0, 0, 0, 0, 0, 0, 0, 0, 0, 0, 0, 0, 0, 0, 0, 0, 0, 0, 0, 0, 0, 0, 0, 0, 0, 0, 0, 0, 0, 0, 0, 0, 0, 0, 0, 0, 0, 0, 0, 0, 0, 0, 0, 0, 0, 0, 0, 0, 0, 0, 0, 0, 0, 0, 0, 0, 0, 0, 0, 0, 0, 0, 0, 0, 0, 0, 0, 0, 0, 0, 0, 0, 0, 0, 0, 0, 0, 0, 0, 0, 0, 0, 0, 0, 0, 0, 0, 0, 0, 0, 0, 0, 0, 0, 0, 0, 0, 0, 0, 0, 0, 0, 0, 0, 0, 0, 0, 0, 0, 0, 0, 0, 0, 0, 0, 0, 0, 0, 0, 0, 0, 0, 0, 0, 0, 0, 0, 0, 0, 0, 0, 0, 0, 0, 0, 0, 0, 0, 0, 0, 0, 0, 0, 0, 0, 0, 0, 0, 0, 0, 0, 0, 0, 0, 0, 0, 0, 0, 0, 0, 0, 0, 0, 0, 0, 0, 0, 0, 0, 0, 0, 0, 0, 0, 0, 0, 0, 0, 0, 0, 0, 0, 0, 0, 0, 0, 0, 0, 0, 0, 0, 0, 0, 0, 0, 0, 0, 0, 0, 0, 0, 0, 0, 0, 0, 0, 0, 0, 0, 0, 0, 0, 0, 0, 0, 0, 0, 0, 0, 0, 0, 0, 0, 0, 0, 0, 0, 0, 0, 0, 0, 0, 0, 0, 0, 0, 0, 0, 0, 0, 0, 0, 0, 0, 0, 0, 0, 0, 0, 0, 0, 0, 0, 0, 0, 0, 0, 0, 0, 0, 0, 0, 0, 0, 0, 0, 0, 0, 0, 0, 0, 0, 0, 0, 0, 0, 0, 0, 0, 0, 0, 0, 0, 0, 0, 0, 0, 0, 0, 0, 0, 0, 0, 0, 0, 0, 0, 0, 0, 0, 0, 0, 0, 0, 0, 0, 0, 0, 0, 0, 0, 0, 0, 0, 0, 0, 0, 0, 0, 0, 0, 0, 0, 0, 0, 0, 0, 0, 0, 0, 0, 0], [0, 0, 25, 1, 50, 2, 26, 0, 75, 0, 27, 104, 51, 0, 0, 3, 100, 4, 0, 14, 52, 0, 0, 0, 76, 113, 8, 0, 0, 105, 28, 0, 125, 0, 29, 0, 0, 0, 39, 106, 77, 0, 0, 114, 0, 0, 9, 120, 101, 47, 0, 5, 33, 15, 0, 36, 18, 0, 0, 69, 53, 0, 0, 0, 0, 0, 0, 0, 54, 0, 0, 0, 19, 92, 0, 0, 64, 70, 0, 56, 102, 0, 0, 48, 0, 6, 0, 98, 0, 37, 0, 0, 34, 0, 0, 16, 126, 110, 72, 0, 0, 0, 30, 66, 58, 107, 40, 84, 0, 0, 61, 0, 43, 121, 10, 21, 0, 0, 94, 0, 78, 0, 0, 0, 0, 115, 0, 87, 0, 88, 0, 80, 0, 0, 0, 116, 79, 0, 0, 0, 0, 0, 0, 0, 44, 0, 117, 122, 0, 22, 11, 0, 89, 0, 95, 0, 0, 0, 81, 0, 127, 12, 0, 111, 23, 0, 73, 0, 0, 67, 31, 45, 0, 118, 123, 0, 0, 0, 62, 90, 0, 96, 0, 0, 59, 82, 0, 108, 0, 85, 41, 0, 0, 0, 0, 0, 97, 0, 0, 0, 0, 0, 0, 0, 55, 63, 91, 0, 83, 57, 0, 60, 65, 0, 109, 71, 20, 42, 0, 93, 86, 0, 0, 0, 68, 17, 0, 0, 35, 32, 46, 0, 0, 124, 0, 38, 119, 0, 0, 0, 103, 74, 0, 0, 0, 49, 0, 24, 13, 99, 0, 128, 0, 0, 112, 7]) =
      (159, [1, 3, 5, 15, 17, 51, 85, 255, 26, 46, 114, 150, 161, 248, 19, 53, 95, 225, 56, 72, 216, 115, 149, 164, 247, 2, 6, 10, 30, 34, 102, 170, 229, 52, 92, 228, 55, 89, 235, 38, 106, 190, 217, 112, 144, 171, 230, 49, 83, 245, 4, 12, 20, 60, 68, 204, 79, 209, 104, 184, 211, 110, 178, 205, 76, 212, 103, 169, 224, 59, 77, 215, 98, 166, 241, 8, 24, 40, 120, 136, 131, 158, 185, 208, 107, 189, 220, 127, 129, 152, 179, 206, 73, 219, 118, 154, 181, 196, 87, 249, 16, 48, 80, 240, 11, 29, 39, 105, 187, 214, 97, 163, 254, 25, 43, 125, 135, 146, 173, 236, 47, 113, 147, 174, 233, 32, 96, 160, 251, 22, 58, 78, 210, 109, 183, 194, 93, 231, 50, 86, 250, 21, 63, 65, 195, 94, 226, 61, 71, 201, 64, 192, 91, 237, 44, 116, 156, 191, 218, 117, 159, 0, 0, 0, 0, 0, 0, 0, 0, 0, 0, 0, 0, 0, 0, 0, 0, 0, 0, 0, 0, 0, 0, 0, 0, 0, 0, 0, 0, 0, 0, 0, 0, 0, 0, 0, 0, 0, 0, 0, 0, 0, 0, 0, 0, 0, 0, 0, 0, 0, 0, 0, 0, 0, 0, 0, 0, 0, 0, 0, 0, 0, 0, 0, 0, 0, 0, 0, 0, 0, 0, 0, 0, 0, 0, 0, 0, 0, 0, 0, 0, 0, 0, 0, 0, 0, 0, 0, 0, 0, 0, 0, 0, 0, 0, 0, 0, 0, 0, 0, 0, 0, 0, 0, 0, 0, 0, 0, 0, 0, 0, 0, 0, 0, 0, 0, 0, 0, 0, 0, 0, 0, 0, 0, 0, 0, 0, 0, 0, 0, 0, 0, 0, 0, 0, 0, 0, 0, 0, 0, 0, 0, 0, 0, 0, 0, 0, 0, 0, 0, 0, 0, 0, 0, 0, 0, 0, 0, 0, 0, 0, 0, 0, 0, 0, 0, 0, 0, 0, 0, 0, 0, 0, 0, 0, 0, 0, 0, 0, 0, 0, 0, 0, 0, 0, 0, 0, 0, 0, 0, 0, 0, 0, 0, 0, 0, 0, 0, 0, 0, 0, 0, 0, 0, 0, 0, 0, 0, 0, 0, 0, 0, 0, 0, 0, 0, 0, 0, 0, 0, 0, 0, 0, 0, 0, 0, 0, 0, 0, 0, 0, 0, 0, 0, 0, 0, 0, 0, 0, 0, 0, 0, 0, 0, 0, 0, 0, 0, 0, 0, 0, 0, 0, 0, 0, 0, 0, 0, 0, 0, 0, 0, 0, 0, 0, 0, 0, 0, 0, 0, 0, 0, 0, 0, 0, 0, 0, 0, 0, 0, 0, 0, 0, 0, 0, 0, 0, 0, 0, 0, 0, 0, 0, 0, 0, 0, 0, 0, 0, 0, 0, 0, 0, 0, 0, 0, 0, 0, 0, 0, 0, 0, 0, 0, 0, 0, 0, 0, 0, 0, 0, 0, 0, 0, 0, 0, 0, 0, 0, 0, 0, 0, 0, 0, 0, 0, 0, 0, 0, 0, 0, 0, 0, 0, 0, 0, 0, 0, 0, 0, 0, 0], [0, 0, 25, 1, 50, 2, 26, 0, 75, 0, 27, 104, 51, 0, 0, 3, 100, 4, 0, 14, 52, 141, 129, 0, 76, 113, 8, 0, 0, 105, 28, 0, 125, 0, 29, 0, 0, 0, 39, 106, 77, 0, 0, 114, 154, 0, 9, 120, 101, 47, 138, 5, 33, 15, 0, 36, 18, 0, 130, 69, 53, 147, 0, 142, 150, 143, 0, 0, 54, 0, 0, 148, 19, 92, 0, 0, 64, 70, 131, 56, 102, 0, 0, 48, 0, 6, 139, 98, 0, 37, 0, 152, 34, 136, 145, 16, 126, 110, 72, 0, 0, 0, 30, 66, 58, 107, 40, 84, 0, 133, 61, 0, 43, 121, 10, 21, 155, 159, 94, 0, 78, 0, 0, 0, 0, 115, 0, 87, 0, 88, 0, 80, 0, 0, 0, 116, 79, 0, 0, 0, 0, 0, 0, 0, 44, 0, 117, 122, 0, 22, 11, 0, 89, 0, 95, 0, 156, 0, 81, 160, 127, 12, 0, 111, 23, 0, 73, 0, 0, 67, 31, 45, 0, 118, 123, 0, 0, 0, 62, 90, 0, 96, 0, 134, 59, 82, 0, 108, 0, 85, 41, 157, 151, 0, 135, 144, 97, 0, 0, 0, 0, 149, 0, 0, 55, 63, 91, 0, 83, 57, 132, 60, 65, 0, 109, 71, 20, 42, 158, 93, 86, 0, 0, 0, 68, 17, 146, 0, 35, 32, 46, 137, 0, 124, 0, 38, 119, 153, 0, 0, 103, 74, 0, 0, 0, 49, 0, 24, 13, 99, 140, 128, 0, 0, 112, 7]) := by decide

lemma gfFoldSeg6 :
    (List.range' 161 32).foldl GF256.tableStep
      (159, [1, 3, 5, 15, 17, 51, 85, 255, 26, 46, 114, 150, 161, 248, 19, 53, 95, 225, 56, 72, 216, 115, 149, 164, 247, 2, 6, 10, 30, 34, 102, 170, 229, 52, 92, 228, 55, 89, 235, 38, 106, 190, 217, 112, 144, 171, 230, 49, 83, 245, 4, 12, 20, 60, 68, 204, 79, 209, 104, 184, 211, 110, 178, 205, 76, 212, 103, 169, 224, 59, 77, 215, 98, 166, 241, 8, 24, 40, 120, 136, 131, 158, 185, 208, 107, 189, 220, 127, 129, 152, 179, 206, 73, 219, 118, 154, 181, 196, 87, 249, 16, 48, 80, 240, 11, 29, 39, 105, 187, 214, 97, 163, 254, 25, 43, 125, 135, 146, 173, 236, 47, 113, 147, 174, 233, 32, 96, 160, 251, 22, 58, 78, 210, 109, 183, 194, 93, 231, 50, 86, 250, 21, 63, 65, 195, 94, 226, 61, 71, 201, 64, 192, 91, 237, 44, 116, 156, 191, 218, 117, 159, 0, 0, 0, 0, 0, 0, 0, 0, 0, 0, 0, 0, 0, 0, 0, 0, 0, 0, 0, 0, 0, 0, 0, 0, 0, 0, 0, 0, 0, 0, 0, 0, 0, 0, 0, 0, 0, 0, 0, 0, 0, 0, 0, 0, 0, 0, 0, 0, 0, 0, 0, 0, 0, 0, 0, 0, 0, 0, 0, 0, 0, 0, 0, 0, 0, 0, 0, 0, 0, 0, 0, 0, 0, 0, 0, 0, 0, 0, 0, 0, 0, 0, 0, 0, 0, 0, 0, 0, 0, 0, 0, 0, 0, 0, 0, 0, 0, 0, 0, 0, 0, 0, 0, 0, 0, 0, 0, 0, 0, 0, 0, 0, 0, 0, 0, 0, 0, 0, 0, 0, 0, 0, 0, 0, 0, 0, 0, 0, 0, 0, 0, 0, 0, 0, 0, 0, 0, 0, 0, 0, 0, 0, 0, 0, 0, 0, 0, 0, 0, 0, 0, 0, 0, 0, 0, 0, 0, 0, 0, 0, 0, 0, 0, 0, 0, 0, 0, 0, 0, 0, 0, 0, 0, 0, 0, 0, 0, 0, 0, 0, 0, 0, 0, 0, 0, 0, 0, 0, 0, 0, 0, 0, 0, 0, 0, 0, 0, 0, 0, 0, 0, 0, 0, 0, 0, 0, 0, 0, 0, 0, 0, 0, 0, 0, 0, 0, 0, 0, 0, 0, 0, 0, 0, 0, 0, 0, 0, 0, 0, 0, 0, 0, 0, 0, 0, 0, 0, 0, 0, 0, 0, 0, 0, 0, 0, 0, 0, 0, 0, 0, 0, 0, 0, 0, 0, 0, 0, 0, 0, 0, 0, 0, 0, 0, 0, 0, 0, 0, 0, 0, 0, 0, 0, 0, 0, 0, 0, 0, 0, 0, 0, 0, 0, 0, 0, 0, 0, 0, 0, 0, 0, 0, 0, 0, 0, 0, 0, 0, 0, 0, 0, 0, 0, 0, 0, 0, 0, 0, 0, 0, 0, 0, 0, 0, 0, 0, 0, 0, 0, 0, 0, 0, 0, 0, 0, 0, 0, 0, 0, 0, 0, 0, 0, 0, 0, 0, 0, 0, 0, 0, 0, 0, 0, 0, 0, 0, 0, 0, 0, 0, 0], [0, 0, 25, 1, 50, 2, 26, 0, 75, 0, 27, 104, 51, 0, 0, 3, 100, 4, 0, 14, 52, 141, 129, 0, 76, 113, 8, 0, 0, 105, 28, 0, 125, 0, 29, 0, 0, 0, 39, 106, 77, 0, 0, 114, 154, 0, 9, 120, 101, 47, 138, 5, 33, 15, 0, 36, 18, 0, 130, 69, 53, 147, 0, 142, 150, 143, 0, 0, 54, 0, 0, 148, 19, 92, 0, 0, 64, 70, 131, 56, 102, 0, 0, 48, 0, 6, 139, 98, 0, 37, 0, 152, 34, 136, 145, 16, 126, 110, 72, 0, 0, 0, 30, 66, 58, 107, 40, 84, 0, 133, 61, 0, 43, 121, 10, 21, 155, 159, 94, 0, 78, 0, 0, 0, 0, 115, 0, 87, 0, 88, 0, 80, 0, 0, 0, 116, 79, 0, 0, 0, 0, 0, 0, 0, 44, 0, 117, 122, 0, 22, 11, 0, 89, 0, 95, 0, 156, 0, 81, 160, 127, 12, 0, 111, 23, 0, 73, 0, 0, 67, 31, 45, 0, 118, 123, 0, 0, 0, 62, 90, 0, 96, 0, 134, 59, 82, 0, 108, 0, 85, 41, 157, 151, 0, 135, 144, 97, 0, 0, 0, 0, 149, 0, 0, 55, 63, 91, 0, 83, 57, 132, 60, 65, 0, 109, 71, 20, 42, 158, 93, 86, 0, 0, 0, 68, 17, 146, 0, 35, 32, 46, 137, 0, 124, 0, 38, 119, 153, 0, 0, 103, 74, 0, 0, 0, 49, 0, 24, 13, 99, 140, 128, 0, 0, 112, 7]) =
      (252, [1, 3, 5, 15, 17, 51, 85, 255, 26, 46, 114, 150, 161, 248, 19, 53, 95, 225, 56, 72, 216, 115, 149, 164, 247, 2, 6, 10, 30, 34, 102, 170, 229, 52, 92, 228, 55, 89, 235, 38, 106, 190, 217, 112, 144, 171, 230, 49, 83, 245, 4, 12, 20, 60, 68, 204, 79, 209, 104, 184, 211, 110, 178, 205, 76, 212, 103, 169, 224, 59, 77, 215, 98, 166, 241, 8, 24, 40, 120, 136, 131, 158, 185, 208, 107, 189, 220, 127, 129, 152, 179, 206, 73, 219, 118, 154, 181, 196, 87, 249, 16, 48, 80, 240, 11, 29, 39, 105, 187, 214, 97, 163, 254, 25, 43, 125, 135, 146, 173, 236, 47, 113, 147, 174, 233, 32, 96, 160, 251, 22, 58, 78, 210, 109, 183, 194, 93, 231, 50, 86, 250, 21, 63, 65, 195, 94, 226, 61, 71, 201, 64, 192, 91, 237, 44, 116, 156, 191, 218, 117, 159, 186, 213, 100, 172, 239, 42, 126, 130, 157, 188, 223, 122, 142, 137, 128, 155, 182, 193, 88, 232, 35, 101, 175, 234, 37, 111, 177, 200, 67, 197, 84, 252, 0, 0, 0, 0, 0, 0, 0, 0, 0, 0, 0, 0, 0, 0, 0, 0, 0, 0, 0, 0, 0, 0, 0, 0, 0, 0, 0, 0, 0, 0, 0, 0, 0, 0, 0, 0, 0, 0, 0, 0, 0, 0, 0, 0, 0, 0, 0, 0, 0, 0, 0, 0, 0, 0, 0, 0, 0, 0, 0, 0, 0, 0, 0, 0, 0, 0, 0, 0, 0, 0, 0, 0, 0, 0, 0, 0, 0, 0, 0, 0, 0, 0, 0, 0, 0, 0, 0, 0, 0, 0, 0, 0, 0, 0, 0, 0, 0, 0, 0, 0, 0, 0, 0, 0, 0, 0, 0, 0, 0, 0, 0, 0, 0, 0, 0, 0, 0, 0, 0, 0, 0, 0, 0, 0, 0, 0, 0, 0, 0, 0, 0, 0, 0, 0, 0, 0, 0, 0, 0, 0, 0, 0, 0, 0, 0, 0, 0, 0, 0, 0, 0, 0, 0, 0, 0, 0, 0, 0, 0, 0, 0, 0, 0, 0, 0, 0, 0, 0, 0, 0, 0, 0, 0, 0, 0, 0, 0, 0, 0, 0, 0, 0, 0, 0, 0, 0, 0, 0, 0, 0, 0, 0, 0, 0, 0, 0, 0, 0, 0, 0, 0, 0, 0, 0, 0, 0, 0, 0, 0, 0, 0, 0, 0, 0, 0, 0, 0, 0, 0, 0, 0, 0, 0, 0, 0, 0, 0, 0, 0, 0, 0, 0, 0, 0, 0, 0, 0, 0, 0, 0, 0, 0, 0, 0, 0, 0, 0, 0, 0, 0, 0, 0, 0, 0, 0, 0, 0, 0, 0, 0, 0, 0, 0, 0, 0, 0, 0, 0, 0, 0, 0, 0, 0, 0, 0, 0, 0, 0, 0, 0, 0, 0, 0, 0, 0, 0, 0, 0, 0, 0, 0, 0, 0, 0, 0, 0, 0, 0, 0, 0, 0, 0, 0, 0, 0, 0, 0, 0, 0, 0, 0, 0, 0, 0, 0, 0, 0, 0, 0], [0, 0, 25, 1, 50, 2, 26, 0, 75, 0, 27, 104, 51, 0, 0, 3, 100, 4, 0, 14, 52, 141, 129, 0, 76, 113, 8, 0, 0, 105, 28, 0, 125, 0, 29, 181, 0, 185, 39, 106, 77, 0, 166, 114, 154, 0, 9, 120, 101, 47, 138, 5, 33, 15, 0, 36, 18, 0, 130, 69, 53, 147, 0, 142, 150, 143, 0, 189, 54, 0, 0, 148, 19, 92, 0, 0, 64, 70, 131, 56, 102, 0, 0, 48, 191, 6, 139, 98, 179, 37, 0, 152, 34, 136, 145, 16, 126, 110, 72, 0, 163, 182, 30, 66, 58, 107, 40, 84, 0, 133, 61, 186, 43, 121, 10, 21, 155, 159, 94, 0, 78, 0, 172, 0, 0, 115, 167, 87, 175, 88, 168, 80, 0, 0, 0, 116, 79, 174, 0, 0, 0, 0, 173, 0, 44, 0, 117, 122, 0, 22, 11, 0, 89, 0, 95, 176, 156, 169, 81, 160, 127, 12, 0, 111, 23, 0, 73, 0, 0, 67, 31, 45, 164, 118, 123, 183, 0, 187, 62, 90, 0, 96, 177, 134, 59, 82, 161, 108, 170, 85, 41, 157, 151, 178, 135, 144, 97, 190, 0, 0, 188, 149, 0, 0, 55, 63, 91, 0, 83, 57, 132, 60, 65, 162, 109, 71, 20, 42, 158, 93, 86, 0, 0, 171, 68, 17, 146, 0, 35, 32, 46, 137, 180, 124, 184, 38, 119, 153, 0, 165, 103, 74, 0, 0, 0, 49, 0, 24, 13, 99, 140, 128, 192, 0, 112, 7]) := by decide

lemma gfFoldSeg7 :
    (List.range' 193 32).foldl GF256.tableStep
      (252, [1, 3, 5, 15, 17, 51, 85, 255, 26, 46, 114, 150, 161, 248, 19, 53, 95, 225, 56, 72, 216, 115, 149, 164, 247, 2, 6, 10, 30, 34, 102, 170, 229, 52, 92, 228, 55, 89, 235, 38, 106, 190, 217, 112, 144, 171, 230, 49, 83, 245, 4, 12, 20, 60, 68, 204, 79, 209, 104, 184, 211, 110, 178, 205, 76, 212, 103, 169, 224, 59, 77, 215, 98, 166, 241, 8, 24, 40, 120, 136, 131, 158, 185, 208, 107, 189, 220, 127, 129, 152, 179, 206, 73, 219, 118, 154, 181, 196, 87, 249, 16, 48, 80, 240, 11, 29, 39, 105, 187, 214, 97, 163, 254, 25, 43, 125, 135, 146, 173, 236, 47, 113, 147, 174, 233, 32, 96, 160, 251, 22, 58, 78, 210, 109, 183, 194, 93, 231, 50, 86, 250, 21, 63, 65, 195, 94, 226, 61, 71, 201, 64, 192, 91, 237, 44, 116, 156, 191, 218, 117, 159, 186, 213, 100, 172, 239, 42, 126, 130, 157, 188, 223, 122, 142, 137, 128, 155, 182, 193, 88, 232, 35, 101, 175, 234, 37, 111, 177, 200, 67, 197, 84, 252, 0, 0, 0, 0, 0, 0, 0, 0, 0, 0, 0, 0, 0, 0, 0, 0, 0, 0, 0, 0, 0, 0, 0, 0, 0, 0, 0, 0, 0, 0, 0, 0, 0, 0, 0, 0, 0, 0, 0, 0, 0, 0, 0, 0, 0, 0, 0, 0, 0, 0, 0, 0, 0, 0, 0, 0, 0, 0, 0, 0, 0, 0, 0, 0, 0, 0, 0, 0, 0, 0, 0, 0, 0, 0, 0, 0, 0, 0, 0, 0, 0, 0, 0, 0, 0, 0, 0, 0, 0, 0, 0, 0, 0, 0, 0, 0, 0, 0, 0, 0, 0, 0, 0, 0, 0, 0, 0, 0, 0, 0, 0, 0, 0, 0, 0, 0, 0, 0, 0, 0, 0, 0, 0, 0, 0, 0, 0, 0, 0, 0, 0, 0, 0, 0, 0, 0, 0, 0, 0, 0, 0, 0, 0, 0, 0, 0, 0, 0, 0, 0, 0, 0, 0, 0, 0, 0, 0, 0, 0, 0, 0, 0, 0, 0, 0, 0, 0, 0, 0, 0, 0, 0, 0, 0, 0, 0, 0, 0, 0, 0, 0, 0, 0, 0, 0, 0, 0, 0, 0, 0, 0, 0, 0, 0, 0, 0, 0, 0, 0, 0, 0, 0, 0, 0, 0, 0, 0, 0, 0, 0, 0, 0, 0, 0, 0, 0, 0, 0, 0, 0, 0, 0, 0, 0, 0, 0, 0, 0, 0, 0, 0, 0, 0, 0, 0, 0, 0, 0, 0, 0, 0, 0, 0, 0, 0, 0, 0, 0, 0, 0, 0, 0, 0, 0, 0, 0, 0, 0, 0, 0, 0, 0, 0, 0, 0, 0, 0, 0, 0, 0, 0, 0, 0, 0, 0, 0, 0, 0, 0, 0, 0, 0, 0, 0, 0, 0, 0, 0, 0, 0, 0, 0, 0, 0, 0, 0, 0, 0, 0, 0, 0, 0, 0, 0, 0, 0, 0, 0, 0, 0, 0, 0, 0, 0, 0, 0, 0, 0, 0], [0, 0, 25, 1, 50, 2, 26, 0, 75, 0, 27, 104, 51, 0, 0, 3, 100, 4, 0, 14, 52, 141, 129, 0, 76, 113, 8, 0, 0, 105, 28, 0, 125, 0, 29, 181, 0, 185, 39, 106, 77, 0, 166, 114, 154, 0, 9, 120, 101, 47, 138, 5, 33, 15, 0, 36, 18, 0, 130, 69, 53, 147, 0, 142, 150, 143, 0, 189, 54, 0, 0, 148, 19, 92, 0, 0, 64, 70, 131, 56, 102, 0, 0, 48, 191, 6, 139, 98, 179, 37, 0, 152, 34, 136, 145, 16, 126, 110, 72, 0, 163, 182, 30, 66, 58, 107, 40, 84, 0, 133, 61, 186, 43, 121, 10, 21, 155, 159, 94, 0, 78, 0, 172, 0, 0, 115, 167, 87, 175, 88, 168, 80, 0, 0, 0, 116, 79, 174, 0, 0, 0, 0, 173, 0, 44, 0, 117, 122, 0, 22, 11, 0, 89, 0, 95, 176, 156, 169, 81, 160, 127, 12, 0, 111, 23, 0, 73, 0, 0, 67, 31, 45, 164, 118, 123, 183, 0, 187, 62, 90, 0, 96, 177, 134, 59, 82, 161, 108, 170, 85, 41, 157, 151, 178, 135, 144, 97, 190, 0, 0, 188, 149, 0, 0, 55, 63, 91, 0, 83, 57, 132, 60, 65, 162, 109, 71, 20, 42, 158, 93, 86, 0, 0, 171, 68, 17, 146, 0, 35, 32, 46, 137, 180, 124, 184, 38, 119, 153, 0, 165, 103, 74, 0, 0, 0, 49, 0, 24, 13, 99, 140, 128, 192, 0, 112, 7]) =
      (18, [1, 3, 5, 15, 17, 51, 85, 255, 26, 46, 114, 150, 161, 248, 19, 53, 95, 225, 56, 72, 216, 115, 149, 164, 247, 2, 6, 10, 30, 34, 102, 170, 229, 52, 92, 228, 55, 89, 235, 38, 106, 190, 217, 112, 144, 171, 230, 49, 83, 245, 4, 12, 20, 60, 68, 204, 79, 209, 104, 184, 211, 110, 178, 205, 76, 212, 103, 169, 224, 59, 77, 215, 98, 166, 241, 8, 24, 40, 120, 136, 131, 158, 185, 208, 107, 189, 220, 127, 129, 152, 179, 206, 73, 219, 118, 154, 181, 196, 87, 249, 16, 48, 80, 240, 11, 29, 39, 105, 187, 214, 97, 163, 254, 25, 43, 125, 135, 146, 173, 236, 47, 113, 147, 174, 233, 32, 96, 160, 251, 22, 58, 78, 210, 109, 183, 194, 93, 231, 50, 86, 250, 21, 63, 65, 195, 94, 226, 61, 71, 201, 64, 192, 91, 237, 44, 116, 156, 191, 218, 117, 159, 186, 213, 100, 172, 239, 42, 126, 130, 157, 188, 223, 122, 142, 137, 128, 155, 182, 193, 88, 232, 35, 101, 175, 234, 37, 111, 177, 200, 67, 197, 84, 252, 31, 33, 99, 165, 244, 7, 9, 27, 45, 119, 153, 176, 203, 70, 202, 69, 207, 74, 222, 121, 139, 134, 145, 168, 227, 62, 66, 198, 81, 243, 14, 18, 0, 0, 0, 0, 0, 0, 0, 0, 0, 0, 0, 0, 0, 0, 0, 0, 0, 0, 0, 0, 0, 0, 0, 0, 0, 0, 0, 0, 0, 0, 0, 0, 0, 0, 0, 0, 0, 0, 0, 0, 0, 0, 0, 0, 0, 0, 0, 0, 0, 0, 0, 0, 0, 0, 0, 0, 0, 0, 0, 0, 0, 0, 0, 0, 0, 0, 0, 0, 0, 0, 0, 0, 0, 0, 0, 0, 0, 0, 0, 0, 0, 0, 0, 0, 0, 0, 0, 0, 0, 0, 0, 0, 0, 0, 0, 0, 0, 0, 0, 0, 0, 0, 0, 0, 0, 0, 0, 0, 0, 0, 0, 0, 0, 0, 0, 0, 0, 0, 0, 0, 0, 0, 0, 0, 0, 0, 0, 0, 0, 0, 0, 0, 0, 0, 0, 0, 0, 0, 0, 0, 0, 0, 0, 0, 0, 0, 0, 0, 0, 0, 0, 0, 0, 0, 0, 0, 0, 0, 0, 0, 0, 0, 0, 0, 0, 0, 0, 0, 0, 0, 0, 0, 0, 0, 0, 0, 0, 0, 0, 0, 0, 0, 0, 0, 0, 0, 0, 0, 0, 0, 0, 0, 0, 0, 0, 0, 0, 0, 0, 0, 0, 0, 0, 0, 0, 0, 0, 0, 0, 0, 0, 0, 0, 0, 0, 0, 0, 0, 0, 0, 0, 0, 0, 0, 0, 0, 0, 0, 0, 0, 0, 0, 0, 0, 0, 0, 0, 0, 0, 0, 0, 0, 0, 0, 0, 0, 0, 0, 0, 0, 0, 0, 0, 0, 0, 0, 0, 0, 0, 0, 0, 0, 0, 0, 0, 0, 0, 0, 0, 0, 0, 0, 0, 0, 0, 0, 0, 0, 0, 0, 0, 0, 0, 0, 0, 0, 0], [0, 0, 25, 1, 50, 2, 26, 198, 75, 199, 27, 104, 51, 0, 223, 3, 100, 4, 224, 14, 52, 141, 129, 0, 76, 113, 8, 200, 0, 105, 28, 193, 125, 194, 29, 181, 0, 185, 39, 106, 77, 0, 166, 114, 154, 201, 9, 120, 101, 47, 138, 5, 33, 15, 0, 36, 18, 0, 130, 69, 53, 147, 218, 142, 150, 143, 219, 189, 54, 208, 206, 148, 19, 92, 210, 0, 64, 70, 131, 56, 102, 221, 0, 48, 191, 6, 139, 98, 179, 37, 0, 152, 34, 136, 145, 16, 126, 110, 72, 195, 163, 182, 30, 66, 58, 107, 40, 84, 0, 133, 61, 186, 43, 121, 10, 21, 155, 159, 94, 202, 78, 212, 172, 0, 0, 115, 167, 87, 175, 88, 168, 80, 0, 0, 214, 116, 79, 174, 0, 213, 0, 0, 173, 0, 44, 215, 117, 122, 0, 22, 11, 0, 89, 203, 95, 176, 156, 169, 81, 160, 127, 12, 0, 111, 23, 196, 73, 0, 216, 67, 31, 45, 164, 118, 123, 183, 204, 187, 62, 90, 0, 96, 177, 134, 59, 82, 161, 108, 170, 85, 41, 157, 151, 178, 135, 144, 97, 190, 220, 0, 188, 149, 207, 205, 55, 63, 91, 209, 83, 57, 132, 60, 65, 162, 109, 71, 20, 42, 158, 93, 86, 0, 211, 171, 68, 17, 146, 217, 35, 32, 46, 137, 180, 124, 184, 38, 119, 153, 0, 165, 103, 74, 0, 222, 197, 49, 0, 24, 13, 99, 140, 128, 192, 0, 112, 7]) := by decide

lemma gfFoldSeg8 :
    (List.range' 225 30).foldl GF256.tableStep
      (18, [1, 3, 5, 15, 17, 51, 85, 255, 26, 46, 114, 150, 161, 248, 19, 53, 95, 225, 56, 72, 216, 115, 149, 164, 247, 2, 6, 10, 30, 34, 102, 170, 229, 52, 92, 228, 55, 89, 235, 38, 106, 190, 217, 112, 144, 171, 230, 49, 83, 245, 4, 12, 20, 60, 68, 204, 79, 209, 104, 184, 211, 110, 178, 205, 76, 212, 103, 169, 224, 59, 77, 215, 98, 166, 241, 8, 24, 40, 120, 136, 131, 158, 185, 208, 107, 189, 220, 127, 129, 152, 179, 206, 73, 219, 118, 154, 181, 196, 87, 249, 16, 48, 80, 240, 11, 29, 39, 105, 187, 214, 97, 163, 254, 25, 43, 125, 135, 146, 173, 236, 47, 113, 147, 174, 233, 32, 96, 160, 251, 22, 58, 78, 210, 109, 183, 194, 93, 231, 50, 86, 250, 21, 63, 65, 195, 94, 226, 61, 71, 201, 64, 192, 91, 237, 44, 116, 156, 191, 218, 117, 159, 186, 213, 100, 172, 239, 42, 126, 130, 157, 188, 223, 122, 142, 137, 128, 155, 182, 193, 88, 232, 35, 101, 175, 234, 37, 111, 177, 200, 67, 197, 84, 252, 31, 33, 99, 165, 244, 7, 9, 27, 45, 119, 153, 176, 203, 70, 202, 69, 207, 74, 222, 121, 139, 134, 145, 168, 227, 62, 66, 198, 81, 243, 14, 18, 0, 0, 0, 0, 0, 0, 0, 0, 0, 0, 0, 0, 0, 0, 0, 0, 0, 0, 0, 0, 0, 0, 0, 0, 0, 0, 0, 0, 0, 0, 0, 0, 0, 0, 0, 0, 0, 0, 0, 0, 0, 0, 0, 0, 0, 0, 0, 0, 0, 0, 0, 0, 0, 0, 0, 0, 0, 0, 0, 0, 0, 0, 0, 0, 0, 0, 0, 0, 0, 0, 0, 0, 0, 0, 0, 0, 0, 0, 0, 0, 0, 0, 0, 0, 0, 0, 0, 0, 0, 0, 0, 0, 0, 0, 0, 0, 0, 0, 0, 0, 0, 0, 0, 0, 0, 0, 0, 0, 0, 0, 0, 0, 0, 0, 0, 0, 0, 0, 0, 0, 0, 0, 0, 0, 0, 0, 0, 0, 0, 0, 0, 0, 0, 0, 0, 0, 0, 0, 0, 0, 0, 0, 0, 0, 0, 0, 0, 0, 0, 0, 0, 0, 0, 0, 0, 0, 0, 0, 0, 0, 0, 0, 0, 0, 0, 0, 0, 0, 0, 0, 0, 0, 0, 0, 0, 0, 0, 0, 0, 0, 0, 0, 0, 0, 0, 0, 0, 0, 0, 0, 0, 0, 0, 0, 0, 0, 0, 0, 0, 0, 0, 0, 0, 0, 0, 0, 0, 0, 0, 0, 0, 0, 0, 0, 0, 0, 0, 0, 0, 0, 0, 0, 0, 0, 0, 0, 0, 0, 0, 0, 0, 0, 0, 0, 0, 0, 0, 0, 0, 0, 0, 0, 0, 0, 0, 0, 0, 0, 0, 0, 0, 0, 0, 0, 0, 0, 0, 0, 0, 0, 0, 0, 0, 0, 0, 0, 0, 0, 0, 0, 0, 0, 0, 0, 0, 0, 0, 0, 0, 0, 0, 0, 0, 0, 0, 0, 0], [0, 0, 25, 1, 50, 2, 26, 198, 75, 199, 27, 104, 51, 0, 223, 3, 100, 4, 224, 14, 52, 141, 129, 0, 76, 113, 8, 200, 0, 105, 28, 193, 125, 194, 29, 181, 0, 185, 39, 106, 77, 0, 166, 114, 154, 201, 9, 120, 101, 47, 138, 5, 33, 15, 0, 36, 18, 0, 130, 69, 53, 147, 218, 142, 150, 143, 219, 189, 54, 208, 206, 148, 19, 92, 210, 0, 64, 70, 131, 56, 102, 221, 0, 48, 191, 6, 139, 98, 179, 37, 0, 152, 34, 136, 145, 16, 126, 110, 72, 195, 163, 182, 30, 66, 58, 107, 40, 84, 0, 133, 61, 186, 43, 121, 10, 21, 155, 159, 94, 202, 78, 212, 172, 0, 0, 115, 167, 87, 175, 88, 168, 80, 0, 0, 214, 116, 79, 174, 0, 213, 0, 0, 173, 0, 44, 215, 117, 122, 0, 22, 11, 0, 89, 203, 95, 176, 156, 169, 81, 160, 127, 12, 0, 111, 23, 196, 73, 0, 216, 67, 31, 45, 164, 118, 123, 183, 204, 187, 62, 90, 0, 96, 177, 134, 59, 82, 161, 108, 170, 85, 41, 157, 151, 178, 135, 144, 97, 190, 220, 0, 188, 149, 207, 205, 55, 63, 91, 209, 83, 57, 132, 60, 65, 162, 109, 71, 20, 42, 158, 93, 86, 0, 211, 171, 68, 17, 146, 217, 35, 32, 46, 137, 180, 124, 184, 38, 119, 153, 0, 165, 103, 74, 0, 222, 197, 49, 0, 24, 13, 99, 140, 128, 192, 0, 112, 7]) =
      (246, [1, 3, 5, 15, 17, 51, 85, 255, 26, 46, 114, 150, 161, 248, 19, 53, 95, 225, 56, 72, 216, 115, 149, 164, 247, 2, 6, 10, 30, 34, 102, 170, 229, 52, 92, 228, 55, 89, 235, 38, 106, 190, 217, 112, 144, 171, 230, 49, 83, 245, 4, 12, 20, 60, 68, 204, 79, 209, 104, 184, 211, 110, 178, 205, 76, 212, 103, 169, 224, 59, 77, 215, 98, 166, 241, 8, 24, 40, 120, 136, 131, 158, 185, 208, 107, 189, 220, 127, 129, 152, 179, 206, 73, 219, 118, 154, 181, 196, 87, 249, 16, 48, 80, 240, 11, 29, 39, 105, 187, 214, 97, 163, 254, 25, 43, 125, 135, 146, 173, 236, 47, 113, 147, 174, 233, 32, 96, 160, 251, 22, 58, 78, 210, 109, 183, 194, 93, 231, 50, 86, 250, 21, 63, 65, 195, 94, 226, 61, 71, 201, 64, 192, 91, 237, 44, 116, 156, 191, 218, 117, 159, 186, 213, 100, 172, 239, 42, 126, 130, 157, 188, 223, 122, 142, 137, 128, 155, 182, 193, 88, 232, 35, 101, 175, 234, 37, 111, 177, 200, 67, 197, 84, 252, 31, 33, 99, 165, 244, 7, 9, 27, 45, 119, 153, 176, 203, 70, 202, 69, 207, 74, 222, 121, 139, 134, 145, 168, 227, 62, 66, 198, 81, 243, 14, 18, 54, 90, 238, 41, 123, 141, 140, 143, 138, 133, 148, 167, 242, 13, 23, 57, 75, 221, 124, 132, 151, 162, 253, 28, 36, 108, 180, 199, 82, 246, 0, 0, 0, 0, 0, 0, 0, 0, 0, 0, 0, 0, 0, 0, 0, 0, 0, 0, 0, 0, 0, 0, 0, 0, 0, 0, 0, 0, 0, 0, 0, 0, 0, 0, 0, 0, 0, 0, 0, 0, 0, 0, 0, 0, 0, 0, 0, 0, 0, 0, 0, 0, 0, 0, 0, 0, 0, 0, 0, 0, 0, 0, 0, 0, 0, 0, 0, 0, 0, 0, 0, 0, 0, 0, 0, 0, 0, 0, 0, 0, 0, 0, 0, 0, 0, 0, 0, 0, 0, 0, 0, 0, 0, 0, 0, 0, 0, 0, 0, 0, 0, 0, 0, 0, 0, 0, 0, 0, 0, 0, 0, 0, 0, 0, 0, 0, 0, 0, 0, 0, 0, 0, 0, 0, 0, 0, 0, 0, 0, 0, 0, 0, 0, 0, 0, 0, 0, 0, 0, 0, 0, 0, 0, 0, 0, 0, 0, 0, 0, 0, 0, 0, 0, 0, 0, 0, 0, 0, 0, 0, 0, 0, 0, 0, 0, 0, 0, 0, 0, 0, 0, 0, 0, 0, 0, 0, 0, 0, 0, 0, 0, 0, 0, 0, 0, 0, 0, 0, 0, 0, 0, 0, 0, 0, 0, 0, 0, 0, 0, 0, 0, 0, 0, 0, 0, 0, 0, 0, 0, 0, 0, 0, 0, 0, 0, 0, 0, 0, 0, 0, 0, 0, 0, 0, 0, 0, 0, 0, 0, 0, 0, 0, 0, 0, 0, 0, 0, 0, 0, 0, 0, 0, 0, 0, 0, 0, 0, 0, 0, 0, 0, 0, 0, 0, 0, 0, 0], [0, 0, 25, 1, 50, 2, 26, 198, 75, 199, 27, 104, 51, 238, 223, 3, 100, 4, 224, 14, 52, 141, 129, 239, 76, 113, 8, 200, 248, 105, 28, 193, 125, 194, 29, 181, 249, 185, 39, 106, 77, 228, 166, 114, 154, 201, 9, 120, 101, 47, 138, 5, 33, 15, 225, 36, 18, 240, 130, 69, 53, 147, 218, 142, 150, 143, 219, 189, 54, 208, 206, 148, 19, 92, 210, 241, 64, 70, 131, 56, 102, 221, 253, 48, 191, 6, 139, 98, 179, 37, 226, 152, 34, 136, 145, 16, 126, 110, 72, 195, 163, 182, 30, 66, 58, 107, 40, 84, 250, 133, 61, 186, 43, 121, 10, 21, 155, 159, 94, 202, 78, 212, 172, 229, 243, 115, 167, 87, 175, 88, 168, 80, 244, 234, 214, 116, 79, 174, 233, 213, 231, 230, 173, 232, 44, 215, 117, 122, 235, 22, 11, 245, 89, 203, 95, 176, 156, 169, 81, 160, 127, 12, 246, 111, 23, 196, 73, 236, 216, 67, 31, 45, 164, 118, 123, 183, 204, 187, 62, 90, 251, 96, 177, 134, 59, 82, 161, 108, 170, 85, 41, 157, 151, 178, 135, 144, 97, 190, 220, 252, 188, 149, 207, 205, 55, 63, 91, 209, 83, 57, 132, 60, 65, 162, 109, 71, 20, 42, 158, 93, 86, 242, 211, 171, 68, 17, 146, 217, 35, 32, 46, 137, 180, 124, 184, 38, 119, 153, 227, 165, 103, 74, 237, 222, 197, 49, 254, 24, 13, 99, 140, 128, 192, 247, 112, 7]) := by decide

lemma gfRangeSplit : List.range' 1 254 = List.range' 1 32 ++ (List.range' 33 32 ++ (List.range' 65 32 ++ (List.range' 97 32 ++ (List.range' 129 32 ++ (List.range' 161 32 ++ (List.range' 193 32 ++ (List.range' 225 30))))))) := by decide

lemma gfMainFold :
    (List.range' 1 254).foldl GF256.tableStep
      (1, (List.replicate 512 0).set 0 1, List.replicate 256 0) =
      (246, [1, 3, 5, 15, 17, 51, 85, 255, 26, 46, 114, 150, 161, 248, 19, 53, 95, 225, 56, 72, 216, 115, 149, 164, 247, 2, 6, 10, 30, 34, 102, 170, 229, 52, 92, 228, 55, 89, 235, 38, 106, 190, 217, 112, 144, 171, 230, 49, 83, 245, 4, 12, 20, 60, 68, 204, 79, 209, 104, 184, 211, 110, 178, 205, 76, 212, 103, 169, 224, 59, 77, 215, 98, 166, 241, 8, 24, 40, 120, 136, 131, 158, 185, 208, 107, 189, 220, 127, 129, 152, 179, 206, 73, 219, 118, 154, 181, 196, 87, 249, 16, 48, 80, 240, 11, 29, 39, 105, 187, 214, 97, 163, 254, 25, 43, 125, 135, 146, 173, 236, 47, 113, 147, 174, 233, 32, 96, 160, 251, 22, 58, 78, 210, 109, 183, 194, 93, 231, 50, 86, 250, 21, 63, 65, 195, 94, 226, 61, 71, 201, 64, 192, 91, 237, 44, 116, 156, 191, 218, 117, 159, 186, 213, 100, 172, 239, 42, 126, 130, 157, 188, 223, 122, 142, 137, 128, 155, 182, 193, 88, 232, 35, 101, 175, 234, 37, 111, 177, 200, 67, 197, 84, 252, 31, 33, 99, 165, 244, 7, 9, 27, 45, 119, 153, 176, 203, 70, 202, 69, 207, 74, 222, 121, 139, 134, 145, 168, 227, 62, 66, 198, 81, 243, 14, 18, 54, 90, 238, 41, 123, 141, 140, 143, 138, 133, 148, 167, 242, 13, 23, 57, 75, 221, 124, 132, 151, 162, 253, 28, 36, 108, 180, 199, 82, 246, 0, 0, 0, 0, 0, 0, 0, 0, 0, 0, 0, 0, 0, 0, 0, 0, 0, 0, 0, 0, 0, 0, 0, 0, 0, 0, 0, 0, 0, 0, 0, 0, 0, 0, 0, 0, 0, 0, 0, 0, 0, 0, 0, 0, 0, 0, 0, 0, 0, 0, 0, 0, 0, 0, 0, 0, 0, 0, 0, 0, 0, 0, 0, 0, 0, 0, 0, 0, 0, 0, 0, 0, 0, 0, 0, 0, 0, 0, 0, 0, 0, 0, 0, 0, 0, 0, 0, 0, 0, 0, 0, 0, 0, 0, 0, 0, 0, 0, 0, 0, 0, 0, 0, 0, 0, 0, 0, 0, 0, 0, 0, 0, 0, 0, 0, 0, 0, 0, 0, 0, 0, 0, 0, 0, 0, 0, 0, 0, 0, 0, 0, 0, 0, 0, 0, 0, 0, 0, 0, 0, 0, 0, 0, 0, 0, 0, 0, 0, 0, 0, 0, 0, 0, 0, 0, 0, 0, 0, 0, 0, 0, 0, 0, 0, 0, 0, 0, 0, 0, 0, 0, 0, 0, 0, 0, 0, 0, 0, 0, 0, 0, 0, 0, 0, 0, 0, 0, 0, 0, 0, 0, 0, 0, 0, 0, 0, 0, 0, 0, 0, 0, 0, 0, 0, 0, 0, 0, 0, 0, 0, 0, 0, 0, 0, 0, 0, 0, 0, 0, 0, 0, 0, 0, 0, 0, 0, 0, 0, 0, 0, 0, 0, 0, 0, 0, 0, 0, 0, 0, 0, 0, 0, 0, 0, 0, 0, 0, 0, 0, 0, 0, 0, 0, 0, 0, 0, 0], [0, 0, 25, 1, 50, 2, 26, 198, 75, 199, 27, 104, 51, 238, 223, 3, 100, 4, 224, 14, 52, 141, 129, 239, 76, 113, 8, 200, 248, 105, 28, 193, 125, 194, 29, 181, 249, 185, 39, 106, 77, 228, 166, 114, 154, 201, 9, 120, 101, 47, 138, 5, 33, 15, 225, 36, 18, 240, 130, 69, 53, 147, 218, 142, 150, 143, 219, 189, 54, 208, 206, 148, 19, 92, 210, 241, 64, 70, 131, 56, 102, 221, 253, 48, 191, 6, 139, 98, 179, 37, 226, 152, 34, 136, 145, 16, 126, 110, 72, 195, 163, 182, 30, 66, 58, 107, 40, 84, 250, 133, 61, 186, 43, 121, 10, 21, 155, 159, 94, 202, 78, 212, 172, 229, 243, 115, 167, 87, 175, 88, 168, 80, 244, 234, 214, 116, 79, 174, 233, 213, 231, 230, 173, 232, 44, 215, 117, 122, 235, 22, 11, 245, 89, 203, 95, 176, 156, 169, 81, 160, 127, 12, 246, 111, 23, 196, 73, 236, 216, 67, 31, 45, 164, 118, 123, 183, 204, 187, 62, 90, 251, 96, 177, 134, 59, 82, 161, 108, 170, 85, 41, 157, 151, 178, 135, 144, 97, 190, 220, 252, 188, 149, 207, 205, 55, 63, 91, 209, 83, 57, 132, 60, 65, 162, 109, 71, 20, 42, 158, 93, 86, 242, 211, 171, 68, 17, 146, 217, 35, 32, 46, 137, 180, 124, 184, 38, 119, 153, 227, 165, 103, 74, 237, 222, 197, 49, 254, 24, 13, 99, 140, 128, 192, 247, 112, 7]) := by
  rw [gfRangeSplit]
  simp only [List.foldl_append]
  rw [gfFoldSeg1, gfFoldSeg2, gfFoldSeg3, gfFoldSeg4, gfFoldSeg5, gfFoldSeg6, gfFoldSeg7,
    gfFoldSeg8]

lemma generate_tables_eq : GF256.generate_tables = (expTableLit, logTableLit) := by
  simp only [GF256.generate_tables, gfMainFold]
  decide

lemma exp_table_eq : GF256.exp_table = expTableLit := by
  simp only [GF256.exp_table, generate_tables_eq]

lemma log_table_eq : GF256.log_table = logTableLit := by
  simp only [GF256.log_table, generate_tables_eq]

lemma inverse_eq_lit : ∀ a, a < 256 → GF256.inverse a = invTableLit.getD a 0 := by
  simp only [GF256.inverse, exp_table_eq, log_table_eq]
  decide


lemma getD_map_range (n : Nat) (f : Nat → Nat) (i : Nat) (h : i < n) :
    ((List.range n).map f).getD i 0 = f i := by
  rw [List.getD_eq_getElem _ _ (by simpa using h)]
  simp

lemma map_range_getD_eq_self (s : List Nat) (n : Nat) (h : s.length = n) :
    (List.range n).map (fun i => s.getD i 0) = s := by
  apply List.ext_getElem
  · simp [h]
  · intro i h1 h2
    simp only [List.getElem_map, List.getElem_range]
    rw [List.getD_eq_getElem _ _ (by omega)]

-- C3 core
lemma multiply_inverse_eq_one : ∀ a, a < 256 → 1 ≤ a → GF256.multiply a (GF256.inverse a) = 1 := by
  simp only [GF256.multiply, GF256.inverse, exp_table_eq, log_table_eq]
  decide

lemma inverse_zero : GF256.inverse 0 = 0 := rfl

-- C2 core
lemma generate_aes_sbox_eq : SBoxGenerator.generate_aes_sbox = canonical_fips197_sbox := by
  have h : SBoxGenerator.generate_aes_sbox
      = (List.range 256).map
          (fun x => affine_transform (invTableLit.getD x 0) SBoxGenerator.AES_MATRIX
            SBoxGenerator.C_AES) := by
    simp only [SBoxGenerator.generate_aes_sbox, SBoxGenerator.generate_sbox]
    refine List.map_congr_left ?_
    intro x hx
    rw [inverse_eq_lit x (List.mem_range.mp hx)]
  rw [h]
  decide

lemma aes_sbox_getD_lt : ∀ b, (SBoxGenerator.generate_aes_sbox).getD b 0 < 256 := by
  rw [generate_aes_sbox_eq]
  intro b
  rcases Nat.lt_or_ge b 256 with hb | hb
  · revert b; decide
  · rw [List.getD_eq_default]
    · decide
    · simp [canonical_fips197_sbox]; omega

-- C7 core
lemma affine_transform_zero (matrix : List Nat) (constant : Nat) :
    affine_transform 0 matrix constant = constant := by
  simp [affine_transform, List.range_succ]

-- C6 counterexample core
lemma power_zero_zero : GF256.power 0 0 = 0 := rfl

section CipherProofs

open AESCipher



lemma gf_multiply_loop_acc : ∀ n a b r,
    gf_multiply_loop n a b r = r ^^^ gf_multiply_loop n a b 0 := by
  intro n
  induction n with
  | zero => intro a b r; simp [gf_multiply_loop]
  | succ m ih =>
    intro a b r
    simp only [gf_multiply_loop]
    by_cases hb : b &&& 1 ≠ 0
    · simp only [if_pos hb]
      rw [ih _ _ (r ^^^ a), ih _ _ (0 ^^^ a), Nat.zero_xor, Nat.xor_assoc]
    · simp only [if_neg hb]
      exact ih _ _ r

lemma and_one_cases (x : Nat) : x &&& 1 = 0 ∨ x &&& 1 = 1 := by
  rw [Nat.and_one_is_mod]
  omega

lemma shiftRight_xor (x y n : Nat) : (x ^^^ y) >>> n = x >>> n ^^^ y >>> n := by
  apply Nat.eq_of_testBit_eq
  intro i
  simp [Nat.testBit_shiftRight, Nat.testBit_xor]

lemma xor_left_comm (a b c : Nat) : a ^^^ (b ^^^ c) = b ^^^ (a ^^^ c) := by
  rw [← Nat.xor_assoc, Nat.xor_comm a b, Nat.xor_assoc]

lemma gf_multiply_loop_linear : ∀ n a x y,
    gf_multiply_loop n a (x ^^^ y) 0 = gf_multiply_loop n a x 0 ^^^ gf_multiply_loop n a y 0 := by
  intro n
  induction n with
  | zero => intro a x y; simp [gf_multiply_loop]
  | succ m ih =>
    intro a x y
    simp only [gf_multiply_loop]
    have hxy : (x ^^^ y) &&& 1 = (x &&& 1) ^^^ (y &&& 1) := Nat.and_xor_distrib_right
    rw [gf_multiply_loop_acc m _ _ (if (x ^^^ y) &&& 1 ≠ 0 then 0 ^^^ a else 0),
        gf_multiply_loop_acc m _ _ (if x &&& 1 ≠ 0 then 0 ^^^ a else 0),
        gf_multiply_loop_acc m _ _ (if y &&& 1 ≠ 0 then 0 ^^^ a else 0)]
    rw [shiftRight_xor, ih]
    rcases and_one_cases x with hx | hx <;> rcases and_one_cases y with hy | hy <;>
      simp [hxy, hx, hy, Nat.xor_assoc, Nat.xor_comm, xor_left_comm, Nat.xor_cancel_left]

lemma gf_multiply_xor (a x y : Nat) :
    gf_multiply a (x ^^^ y) = gf_multiply a x ^^^ gf_multiply a y := by
  simp only [gf_multiply, gf_multiply_loop_linear]
  exact Nat.and_xor_distrib_right

lemma gf_multiply_zero (a : Nat) : gf_multiply a 0 = 0 := by
  have h : ∀ n a, gf_multiply_loop n a 0 0 = 0 := by
    intro n
    induction n with
    | zero => intro a; simp [gf_multiply_loop]
    | succ m ih => intro a; simp [gf_multiply_loop, ih]
  simp [gf_multiply, h]

lemma gf_multiply_lt (a b : Nat) : gf_multiply a b < 256 := by
  have h := Nat.and_le_right (n := gf_multiply_loop 8 a b 0) (m := 0xFF)
  simp only [gf_multiply]
  omega

lemma xor_transpose16 (a1 a2 a3 a4 b1 b2 b3 b4 c1 c2 c3 c4 d1 d2 d3 d4 : Nat) :
    (a1 ^^^ a2 ^^^ a3 ^^^ a4) ^^^ (b1 ^^^ b2 ^^^ b3 ^^^ b4) ^^^ (c1 ^^^ c2 ^^^ c3 ^^^ c4)
        ^^^ (d1 ^^^ d2 ^^^ d3 ^^^ d4)
      = (a1 ^^^ (b1 ^^^ (c1 ^^^ d1))) ^^^ ((a2 ^^^ (b2 ^^^ (c2 ^^^ d2)))
          ^^^ ((a3 ^^^ (b3 ^^^ (c3 ^^^ d3))) ^^^ (a4 ^^^ (b4 ^^^ (c4 ^^^ d4))))) := by
  simp [Nat.xor_assoc, Nat.xor_comm, xor_left_comm]
lemma invMixCombo00 : ∀ s, s < 256 →
    gf_multiply 14 (gf_multiply 2 s) ^^^ (gf_multiply 11 s ^^^ (gf_multiply 13 s ^^^ gf_multiply 9 (gf_multiply 3 s))) = s := by decide

lemma invMixCombo01 : ∀ s, s < 256 →
    gf_multiply 14 (gf_multiply 3 s) ^^^ (gf_multiply 11 (gf_multiply 2 s) ^^^ (gf_multiply 13 s ^^^ gf_multiply 9 s)) = 0 := by decide

lemma invMixCombo02 : ∀ s, s < 256 →
    gf_multiply 14 s ^^^ (gf_multiply 11 (gf_multiply 3 s) ^^^ (gf_multiply 13 (gf_multiply 2 s) ^^^ gf_multiply 9 s)) = 0 := by decide

lemma invMixCombo03 : ∀ s, s < 256 →
    gf_multiply 14 s ^^^ (gf_multiply 11 s ^^^ (gf_multiply 13 (gf_multiply 3 s) ^^^ gf_multiply 9 (gf_multiply 2 s))) = 0 := by decide

lemma invMixCombo10 : ∀ s, s < 256 →
    gf_multiply 9 (gf_multiply 2 s) ^^^ (gf_multiply 14 s ^^^ (gf_multiply 11 s ^^^ gf_multiply 13 (gf_multiply 3 s))) = 0 := by decide

lemma invMixCombo11 : ∀ s, s < 256 →
    gf_multiply 9 (gf_multiply 3 s) ^^^ (gf_multiply 14 (gf_multiply 2 s) ^^^ (gf_multiply 11 s ^^^ gf_multiply 13 s)) = s := by decide

lemma invMixCombo12 : ∀ s, s < 256 →
    gf_multiply 9 s ^^^ (gf_multiply 14 (gf_multiply 3 s) ^^^ (gf_multiply 11 (gf_multiply 2 s) ^^^ gf_multiply 13 s)) = 0 := by decide

lemma invMixCombo13 : ∀ s, s < 256 →
    gf_multiply 9 s ^^^ (gf_multiply 14 s ^^^ (gf_multiply 11 (gf_multiply 3 s) ^^^ gf_multiply 13 (gf_multiply 2 s))) = 0 := by decide

lemma invMixCombo20 : ∀ s, s < 256 →
    gf_multiply 13 (gf_multiply 2 s) ^^^ (gf_multiply 9 s ^^^ (gf_multiply 14 s ^^^ gf_multiply 11 (gf_multiply 3 s))) = 0 := by decide

lemma invMixCombo21 : ∀ s, s < 256 →
    gf_multiply 13 (gf_multiply 3 s) ^^^ (gf_multiply 9 (gf_multiply 2 s) ^^^ (gf_multiply 14 s ^^^ gf_multiply 11 s)) = 0 := by decide

lemma invMixCombo22 : ∀ s, s < 256 →
    gf_multiply 13 s ^^^ (gf_multiply 9 (gf_multiply 3 s) ^^^ (gf_multiply 14 (gf_multiply 2 s) ^^^ gf_multiply 11 s)) = s := by decide

lemma invMixCombo23 : ∀ s, s < 256 →
    gf_multiply 13 s ^^^ (gf_multiply 9 s ^^^ (gf_multiply 14 (gf_multiply 3 s) ^^^ gf_multiply 11 (gf_multiply 2 s))) = 0 := by decide

lemma invMixCombo30 : ∀ s, s < 256 →
    gf_multiply 11 (gf_multiply 2 s) ^^^ (gf_multiply 13 s ^^^ (gf_multiply 9 s ^^^ gf_multiply 14 (gf_multiply 3 s))) = 0 := by decide

lemma invMixCombo31 : ∀ s, s < 256 →
    gf_multiply 11 (gf_multiply 3 s) ^^^ (gf_multiply 13 (gf_multiply 2 s) ^^^ (gf_multiply 9 s ^^^ gf_multiply 14 s)) = 0 := by decide

lemma invMixCombo32 : ∀ s, s < 256 →
    gf_multiply 11 s ^^^ (gf_multiply 13 (gf_multiply 3 s) ^^^ (gf_multiply 9 (gf_multiply 2 s) ^^^ gf_multiply 14 s)) = 0 := by decide

lemma invMixCombo33 : ∀ s, s < 256 →
    gf_multiply 11 s ^^^ (gf_multiply 13 s ^^^ (gf_multiply 9 (gf_multiply 3 s) ^^^ gf_multiply 14 (gf_multiply 2 s))) = s := by decide

lemma mixInvCombo00 : ∀ s, s < 256 →
    gf_multiply 2 (gf_multiply 14 s) ^^^ (gf_multiply 3 (gf_multiply 9 s) ^^^ (gf_multiply 13 s ^^^ gf_multiply 11 s)) = s := by decide

lemma mixInvCombo01 : ∀ s, s < 256 →
    gf_multiply 2 (gf_multiply 11 s) ^^^ (gf_multiply 3 (gf_multiply 14 s) ^^^ (gf_multiply 9 s ^^^ gf_multiply 13 s)) = 0 := by decide

lemma mixInvCombo02 : ∀ s, s < 256 →
    gf_multiply 2 (gf_multiply 13 s) ^^^ (gf_multiply 3 (gf_multiply 11 s) ^^^ (gf_multiply 14 s ^^^ gf_multiply 9 s)) = 0 := by decide

lemma mixInvCombo03 : ∀ s, s < 256 →
    gf_multiply 2 (gf_multiply 9 s) ^^^ (gf_multiply 3 (gf_multiply 13 s) ^^^ (gf_multiply 11 s ^^^ gf_multiply 14 s)) = 0 := by decide

lemma mixInvCombo10 : ∀ s, s < 256 →
    gf_multiply 14 s ^^^ (gf_multiply 2 (gf_multiply 9 s) ^^^ (gf_multiply 3 (gf_multiply 13 s) ^^^ gf_multiply 11 s)) = 0 := by decide

lemma mixInvCombo11 : ∀ s, s < 256 →
    gf_multiply 11 s ^^^ (gf_multiply 2 (gf_multiply 14 s) ^^^ (gf_multiply 3 (gf_multiply 9 s) ^^^ gf_multiply 13 s)) = s := by decide

lemma mixInvCombo12 : ∀ s, s < 256 →
    gf_multiply 13 s ^^^ (gf_multiply 2 (gf_multiply 11 s) ^^^ (gf_multiply 3 (gf_multiply 14 s) ^^^ gf_multiply 9 s)) = 0 := by decide

lemma mixInvCombo13 : ∀ s, s < 256 →
    gf_multiply 9 s ^^^ (gf_multiply 2 (gf_multiply 13 s) ^^^ (gf_multiply 3 (gf_multiply 11 s) ^^^ gf_multiply 14 s)) = 0 := by decide

lemma mixInvCombo20 : ∀ s, s < 256 →
    gf_multiply 14 s ^^^ (gf_multiply 9 s ^^^ (gf_multiply 2 (gf_multiply 13 s) ^^^ gf_multiply 3 (gf_multiply 11 s))) = 0 := by decide

lemma mixInvCombo21 : ∀ s, s < 256 →
    gf_multiply 11 s ^^^ (gf_multiply 14 s ^^^ (gf_multiply 2 (gf_multiply 9 s) ^^^ gf_multiply 3 (gf_multiply 13 s))) = 0 := by decide

lemma mixInvCombo22 : ∀ s, s < 256 →
    gf_multiply 13 s ^^^ (gf_multiply 11 s ^^^ (gf_multiply 2 (gf_multiply 14 s) ^^^ gf_multiply 3 (gf_multiply 9 s))) = s := by decide

lemma mixInvCombo23 : ∀ s, s < 256 →
    gf_multiply 9 s ^^^ (gf_multiply 13 s ^^^ (gf_multiply 2 (gf_multiply 11 s) ^^^ gf_multiply 3 (gf_multiply 14 s))) = 0 := by decide

lemma mixInvCombo30 : ∀ s, s < 256 →
    gf_multiply 3 (gf_multiply 14 s) ^^^ (gf_multiply 9 s ^^^ (gf_multiply 13 s ^^^ gf_multiply 2 (gf_multiply 11 s))) = 0 := by decide

lemma mixInvCombo31 : ∀ s, s < 256 →
    gf_multiply 3 (gf_multiply 11 s) ^^^ (gf_multiply 14 s ^^^ (gf_multiply 9 s ^^^ gf_multiply 2 (gf_multiply 13 s))) = 0 := by decide

lemma mixInvCombo32 : ∀ s, s < 256 →
    gf_multiply 3 (gf_multiply 13 s) ^^^ (gf_multiply 11 s ^^^ (gf_multiply 14 s ^^^ gf_multiply 2 (gf_multiply 9 s))) = 0 := by decide

lemma mixInvCombo33 : ∀ s, s < 256 →
    gf_multiply 3 (gf_multiply 9 s) ^^^ (gf_multiply 13 s ^^^ (gf_multiply 11 s ^^^ gf_multiply 2 (gf_multiply 14 s))) = s := by decide

lemma inv_mix_mix_col (a b c d : Nat) (ha : a < 256) (hb : b < 256) (hc : c < 256)
    (hd : d < 256) :
    inv_mix_single_column (mix_single_column [a, b, c, d]) = [a, b, c, d] := by
  simp only [mix_single_column, inv_mix_single_column, List.getD_cons_zero, List.getD_cons_succ,
    gf_multiply_xor, List.cons.injEq, and_true]
  refine ⟨?_, ?_, ?_, ?_⟩
  · rw [xor_transpose16, invMixCombo00 a ha, invMixCombo01 b hb, invMixCombo02 c hc,
      invMixCombo03 d hd]
    simp
  · rw [xor_transpose16, invMixCombo10 a ha, invMixCombo11 b hb, invMixCombo12 c hc,
      invMixCombo13 d hd]
    simp
  · rw [xor_transpose16, invMixCombo20 a ha, invMixCombo21 b hb, invMixCombo22 c hc,
      invMixCombo23 d hd]
    simp
  · rw [xor_transpose16, invMixCombo30 a ha, invMixCombo31 b hb, invMixCombo32 c hc,
      invMixCombo33 d hd]
    simp

lemma mix_inv_mix_col (a b c d : Nat) (ha : a < 256) (hb : b < 256) (hc : c < 256)
    (hd : d < 256) :
    mix_single_column (inv_mix_single_column [a, b, c, d]) = [a, b, c, d] := by
  simp only [mix_single_column, inv_mix_single_column, List.getD_cons_zero, List.getD_cons_succ,
    gf_multiply_xor, List.cons.injEq, and_true]
  refine ⟨?_, ?_, ?_, ?_⟩
  · rw [xor_transpose16, mixInvCombo00 a ha, mixInvCombo01 b hb, mixInvCombo02 c hc,
      mixInvCombo03 d hd]
    simp
  · rw [xor_transpose16, mixInvCombo10 a ha, mixInvCombo11 b hb, mixInvCombo12 c hc,
      mixInvCombo13 d hd]
    simp
  · rw [xor_transpose16, mixInvCombo20 a ha, mixInvCombo21 b hb, mixInvCombo22 c hc,
      mixInvCombo23 d hd]
    simp
  · rw [xor_transpose16, mixInvCombo30 a ha, mixInvCombo31 b hb, mixInvCombo32 c hc,
      mixInvCombo33 d hd]
    simp

-- ## State-level helpers

lemma xor_lt256 {x y : Nat} (hx : x < 256) (hy : y < 256) : x ^^^ y < 256 := by
  have h : x ^^^ y < 2 ^ 8 := Nat.xor_lt_two_pow (by omega) (by omega)
  omega

lemma getD_lt_256 {l : List Nat} (h : ∀ b ∈ l, b < 256) (i : Nat) : l.getD i 0 < 256 := by
  rcases Nat.lt_or_ge i l.length with hi | hi
  · rw [List.getD_eq_getElem _ _ hi]
    exact h _ (List.getElem_mem hi)
  · rw [List.getD_eq_default _ _ hi]
    omega

lemma length_eq_sixteen (s : List Nat) (h : s.length = 16) :
    ∃ a0 a1 a2 a3 a4 a5 a6 a7 a8 a9 a10 a11 a12 a13 a14 a15,
      s = [a0, a1, a2, a3, a4, a5, a6, a7, a8, a9, a10, a11, a12, a13, a14, a15] := by
  rcases s with _ | ⟨a0, s⟩; · simp at h
  rcases s with _ | ⟨a1, s⟩; · simp at h
  rcases s with _ | ⟨a2, s⟩; · simp at h
  rcases s with _ | ⟨a3, s⟩; · simp at h
  rcases s with _ | ⟨a4, s⟩; · simp at h
  rcases s with _ | ⟨a5, s⟩; · simp at h
  rcases s with _ | ⟨a6, s⟩; · simp at h
  rcases s with _ | ⟨a7, s⟩; · simp at h
  rcases s with _ | ⟨a8, s⟩; · simp at h
  rcases s with _ | ⟨a9, s⟩; · simp at h
  rcases s with _ | ⟨a10, s⟩; · simp at h
  rcases s with _ | ⟨a11, s⟩; · simp at h
  rcases s with _ | ⟨a12, s⟩; · simp at h
  rcases s with _ | ⟨a13, s⟩; · simp at h
  rcases s with _ | ⟨a14, s⟩; · simp at h
  rcases s with _ | ⟨a15, s⟩; · simp at h
  rcases s with _ | ⟨a16, s⟩
  · exact ⟨a0, a1, a2, a3, a4, a5, a6, a7, a8, a9, a10, a11, a12, a13, a14, a15, rfl⟩
  · simp at h

-- ## ShiftRows

lemma shift_rows_length (s : List Nat) : (shift_rows s).length = 16 := rfl

lemma inv_shift_rows_length (s : List Nat) : (inv_shift_rows s).length = 16 := rfl

lemma inv_shift_rows_shift_rows (s : List Nat) (h : s.length = 16) :
    inv_shift_rows (shift_rows s) = s := by
  obtain ⟨a0, a1, a2, a3, a4, a5, a6, a7, a8, a9, a10, a11, a12, a13, a14, a15, rfl⟩ :=
    length_eq_sixteen s h
  rfl

lemma shift_rows_inv_shift_rows (s : List Nat) (h : s.length = 16) :
    shift_rows (inv_shift_rows s) = s := by
  obtain ⟨a0, a1, a2, a3, a4, a5, a6, a7, a8, a9, a10, a11, a12, a13, a14, a15, rfl⟩ :=
    length_eq_sixteen s h
  rfl

lemma shift_rows_mem_lt {s : List Nat} (h : ∀ b ∈ s, b < 256) :
    ∀ b ∈ shift_rows s, b < 256 := by
  intro b hb
  simp only [shift_rows, List.mem_map, List.mem_range] at hb
  obtain ⟨p, _, rfl⟩ := hb
  exact getD_lt_256 h _

lemma inv_shift_rows_mem_lt {s : List Nat} (h : ∀ b ∈ s, b < 256) :
    ∀ b ∈ inv_shift_rows s, b < 256 := by
  intro b hb
  simp only [inv_shift_rows, List.mem_map, List.mem_range] at hb
  obtain ⟨p, _, rfl⟩ := hb
  exact getD_lt_256 h _

-- ## AddRoundKey

lemma add_round_key_length (s k : List Nat) : (add_round_key s k).length = 16 := rfl

lemma add_round_key_add_round_key (s k : List Nat) (h : s.length = 16) :
    add_round_key (add_round_key s k) k = s := by
  obtain ⟨a0, a1, a2, a3, a4, a5, a6, a7, a8, a9, a10, a11, a12, a13, a14, a15, rfl⟩ :=
    length_eq_sixteen s h
  show add_round_key [_, _, _, _, _, _, _, _, _, _, _, _, _, _, _, _] k = _
  simp [add_round_key, List.range_succ, Nat.xor_assoc]

lemma add_round_key_mem_lt {s k : List Nat} (hs : ∀ b ∈ s, b < 256) (hk : ∀ b ∈ k, b < 256) :
    ∀ b ∈ add_round_key s k, b < 256 := by
  intro b hb
  simp only [add_round_key, List.mem_map, List.mem_range] at hb
  obtain ⟨p, _, rfl⟩ := hb
  exact xor_lt256 (getD_lt_256 hs _) (getD_lt_256 hk _)

-- ## SubBytes

lemma sub_bytes_length (c : Cipher) (s : List Nat) : (sub_bytes c s).length = s.length := by
  simp [sub_bytes]

lemma inv_sub_bytes_sub_bytes (c : Cipher)
    (hinv : ∀ x, x < 256 → c.inv_sbox.getD (c.sbox.getD x 0) 0 = x)
    (s : List Nat) (hs : ∀ b ∈ s, b < 256) :
    inv_sub_bytes c (sub_bytes c s) = s := by
  simp only [sub_bytes, inv_sub_bytes, List.map_map]
  have h : s.map (fun b => c.inv_sbox.getD (c.sbox.getD b 0) 0) = s.map id := by
    apply List.map_congr_left
    intro x hx
    exact hinv x (hs x hx)
  simpa using h

lemma sub_bytes_mem_lt {c : Cipher} (hsbox : ∀ x, x < 256 → c.sbox.getD x 0 < 256)
    {s : List Nat} (hs : ∀ b ∈ s, b < 256) :
    ∀ b ∈ sub_bytes c s, b < 256 := by
  intro b hb
  simp only [sub_bytes, List.mem_map] at hb
  obtain ⟨x, hx, rfl⟩ := hb
  exact hsbox x (hs x hx)

-- ## MixColumns state level

lemma mix_columns_length (s : List Nat) : (mix_columns s).length = 16 := rfl

lemma inv_mix_columns_length (s : List Nat) : (inv_mix_columns s).length = 16 := rfl

lemma mix_columns_mem_lt {s : List Nat} (hs : ∀ b ∈ s, b < 256) :
    ∀ b ∈ mix_columns s, b < 256 := by
  intro b hb
  simp only [mix_columns, mix_single_column, List.mem_flatten, List.mem_map,
    List.mem_range, List.getD_cons_zero, List.getD_cons_succ] at hb
  obtain ⟨l, ⟨cc, _, rfl⟩, hbl⟩ := hb
  simp only [List.mem_cons, List.not_mem_nil, or_false] at hbl
  rcases hbl with rfl | rfl | rfl | rfl <;>
    (repeat' apply xor_lt256) <;>
    first
      | exact gf_multiply_lt _ _
      | exact getD_lt_256 hs _

lemma inv_mix_columns_mem_lt {s : List Nat} (hs : ∀ b ∈ s, b < 256) :
    ∀ b ∈ inv_mix_columns s, b < 256 := by
  intro b hb
  simp only [inv_mix_columns, inv_mix_single_column, List.mem_flatten, List.mem_map,
    List.mem_range, List.getD_cons_zero, List.getD_cons_succ] at hb
  obtain ⟨l, ⟨cc, _, rfl⟩, hbl⟩ := hb
  simp only [List.mem_cons, List.not_mem_nil, or_false] at hbl
  rcases hbl with rfl | rfl | rfl | rfl <;>
    (repeat' apply xor_lt256) <;>
    first
      | exact gf_multiply_lt _ _
      | exact getD_lt_256 hs _

lemma inv_mix_columns_mix_columns (s : List Nat) (h : s.length = 16)
    (hs : ∀ b ∈ s, b < 256) :
    inv_mix_columns (mix_columns s) = s := by
  obtain ⟨a0, a1, a2, a3, a4, a5, a6, a7, a8, a9, a10, a11, a12, a13, a14, a15, rfl⟩ :=
    length_eq_sixteen s h
  show inv_mix_single_column (mix_single_column [a0, a1, a2, a3])
      ++ (inv_mix_single_column (mix_single_column [a4, a5, a6, a7])
      ++ (inv_mix_single_column (mix_single_column [a8, a9, a10, a11])
      ++ (inv_mix_single_column (mix_single_column [a12, a13, a14, a15]) ++ []))) = _
  rw [inv_mix_mix_col a0 a1 a2 a3 (hs _ (by simp)) (hs _ (by simp)) (hs _ (by simp))
      (hs _ (by simp)),
    inv_mix_mix_col a4 a5 a6 a7 (hs _ (by simp)) (hs _ (by simp)) (hs _ (by simp))
      (hs _ (by simp)),
    inv_mix_mix_col a8 a9 a10 a11 (hs _ (by simp)) (hs _ (by simp)) (hs _ (by simp))
      (hs _ (by simp)),
    inv_mix_mix_col a12 a13 a14 a15 (hs _ (by simp)) (hs _ (by simp)) (hs _ (by simp))
      (hs _ (by simp))]
  rfl

lemma mix_columns_inv_mix_columns (s : List Nat) (h : s.length = 16)
    (hs : ∀ b ∈ s, b < 256) :
    mix_columns (inv_mix_columns s) = s := by
  obtain ⟨a0, a1, a2, a3, a4, a5, a6, a7, a8, a9, a10, a11, a12, a13, a14, a15, rfl⟩ :=
    length_eq_sixteen s h
  show mix_single_column (inv_mix_single_column [a0, a1, a2, a3])
      ++ (mix_single_column (inv_mix_single_column [a4, a5, a6, a7])
      ++ (mix_single_column (inv_mix_single_column [a8, a9, a10, a11])
      ++ (mix_single_column (inv_mix_single_column [a12, a13, a14, a15]) ++ []))) = _
  rw [mix_inv_mix_col a0 a1 a2 a3 (hs _ (by simp)) (hs _ (by simp)) (hs _ (by simp))
      (hs _ (by simp)),
    mix_inv_mix_col a4 a5 a6 a7 (hs _ (by simp)) (hs _ (by simp)) (hs _ (by simp))
      (hs _ (by simp)),
    mix_inv_mix_col a8 a9 a10 a11 (hs _ (by simp)) (hs _ (by simp)) (hs _ (by simp))
      (hs _ (by simp)),
    mix_inv_mix_col a12 a13 a14 a15 (hs _ (by simp)) (hs _ (by simp)) (hs _ (by simp))
      (hs _ (by simp))]
  rfl


-- ## Round pairing and block round trip

lemma enc_dec_foldl_pair (c : Cipher) (rks : List (List Nat))
    (hsbox : ∀ x, x < 256 → c.sbox.getD x 0 < 256)
    (hinv : ∀ x, x < 256 → c.inv_sbox.getD (c.sbox.getD x 0) 0 = x)
    (hrk : ∀ r, ∀ b ∈ rks.getD r [], b < 256) :
    ∀ (l : List Nat) (st : List Nat), st.length = 16 → (∀ b ∈ st, b < 256) →
      (l.reverse).foldl
          (fun s r =>
            inv_mix_columns (add_round_key (inv_sub_bytes c (inv_shift_rows s)) (rks.getD r [])))
          (shift_rows (sub_bytes c (l.foldl
            (fun s r => add_round_key (mix_columns (shift_rows (sub_bytes c s))) (rks.getD r []))
            st)))
        = shift_rows (sub_bytes c st) := by
  intro l
  induction l with
  | nil => intro st h16 hlt; rfl
  | cons r t ih =>
    intro st h16 hlt
    have hst'lt : ∀ b ∈ add_round_key (mix_columns (shift_rows (sub_bytes c st))) (rks.getD r []),
        b < 256 :=
      add_round_key_mem_lt (mix_columns_mem_lt (shift_rows_mem_lt (sub_bytes_mem_lt hsbox hlt)))
        (hrk r)
    simp only [List.foldl_cons, List.reverse_cons, List.foldl_append, List.foldl_nil]
    rw [ih _ (add_round_key_length _ _) hst'lt]
    rw [inv_shift_rows_shift_rows _ (by simp [sub_bytes_length, add_round_key_length])]
    rw [inv_sub_bytes_sub_bytes c hinv _ hst'lt]
    rw [add_round_key_add_round_key _ _ (mix_columns_length _)]
    rw [inv_mix_columns_mix_columns _ (shift_rows_length _)
      (shift_rows_mem_lt (sub_bytes_mem_lt hsbox hlt))]

lemma enc_foldl_mem_lt (c : Cipher) (rks : List (List Nat))
    (hsbox : ∀ x, x < 256 → c.sbox.getD x 0 < 256)
    (hrk : ∀ r, ∀ b ∈ rks.getD r [], b < 256) :
    ∀ (l : List Nat) (st : List Nat), (∀ b ∈ st, b < 256) →
      ∀ b ∈ l.foldl
        (fun s r => add_round_key (mix_columns (shift_rows (sub_bytes c s))) (rks.getD r [])) st,
        b < 256 := by
  intro l
  induction l with
  | nil => intro st hlt; exact hlt
  | cons r t ih =>
    intro st hlt
    simp only [List.foldl_cons]
    exact ih _ (add_round_key_mem_lt
      (mix_columns_mem_lt (shift_rows_mem_lt (sub_bytes_mem_lt hsbox hlt))) (hrk r))

lemma encrypt_block_ok (c : Cipher) (rks : List (List Nat)) (pt : List Nat)
    (h16 : pt.length = 16) :
    encrypt_block c pt rks = Except.ok
      (add_round_key (shift_rows (sub_bytes c ((List.range' 1 9).foldl
        (fun st r => add_round_key (mix_columns (shift_rows (sub_bytes c st))) (rks.getD r []))
        (add_round_key pt (rks.getD 0 []))))) (rks.getD N_ROUNDS [])) := by
  simp [encrypt_block, N_BLOCK, h16]

lemma decrypt_block_encrypt_block (c : Cipher) (rks : List (List Nat))
    (hsbox : ∀ x, x < 256 → c.sbox.getD x 0 < 256)
    (hinv : ∀ x, x < 256 → c.inv_sbox.getD (c.sbox.getD x 0) 0 = x)
    (hrk : ∀ r, ∀ b ∈ rks.getD r [], b < 256)
    (pt : List Nat) (h16 : pt.length = 16) (hlt : ∀ b ∈ pt, b < 256) :
    ∃ ct, encrypt_block c pt rks = Except.ok ct ∧ ct.length = 16 ∧ (∀ b ∈ ct, b < 256) ∧
      decrypt_block c ct rks = Except.ok pt := by
  have hst0lt : ∀ b ∈ add_round_key pt (rks.getD 0 []), b < 256 :=
    add_round_key_mem_lt hlt (hrk 0)
  refine ⟨_, encrypt_block_ok c rks pt h16, add_round_key_length _ _, ?_, ?_⟩
  · exact add_round_key_mem_lt
      (shift_rows_mem_lt (sub_bytes_mem_lt hsbox (enc_foldl_mem_lt c rks hsbox hrk _ _ hst0lt)))
      (hrk N_ROUNDS)
  · simp only [decrypt_block, N_BLOCK, add_round_key_length, if_neg (by omega : ¬ (16 : Nat) ≠ 16)]
    rw [add_round_key_add_round_key _ _ (shift_rows_length _)]
    rw [enc_dec_foldl_pair c rks hsbox hinv hrk (List.range' 1 9) _
      (add_round_key_length _ _) hst0lt]
    rw [inv_shift_rows_shift_rows _ (by simp [sub_bytes_length, add_round_key_length])]
    rw [inv_sub_bytes_sub_bytes c hinv _ hst0lt]
    rw [add_round_key_add_round_key _ _ h16]

end CipherProofs

section CipherProofs2

open AESCipher


-- ## toBlocks

lemma toBlocks_nil : toBlocks [] = [] := by
  rw [toBlocks]
  simp

lemma toBlocks_cons (l : List Nat) (h : l ≠ []) :
    toBlocks l = l.take 16 :: toBlocks (l.drop 16) := by
  rw [toBlocks]
  simp [h]

lemma flatten_toBlocks (l : List Nat) : (toBlocks l).flatten = l := by
  have key : ∀ n (l : List Nat), l.length ≤ n → (toBlocks l).flatten = l := by
    intro n
    induction n with
    | zero =>
      intro l hl
      have : l = [] := List.eq_nil_of_length_eq_zero (by omega)
      subst this
      simp [toBlocks_nil]
    | succ m ih =>
      intro l hl
      by_cases h : l = []
      · subst h; simp [toBlocks_nil]
      · rw [toBlocks_cons l h]
        simp only [List.flatten_cons]
        rw [ih (l.drop 16) (by simp; omega)]
        exact List.take_append_drop 16 l
  exact key l.length l le_rfl

lemma toBlocks_length_mem (l : List Nat) (hdvd : 16 ∣ l.length) :
    ∀ b ∈ toBlocks l, b.length = 16 := by
  have key : ∀ n (l : List Nat), l.length ≤ n → 16 ∣ l.length →
      ∀ b ∈ toBlocks l, b.length = 16 := by
    intro n
    induction n with
    | zero =>
      intro l hl _
      have : l = [] := List.eq_nil_of_length_eq_zero (by omega)
      subst this
      simp [toBlocks_nil]
    | succ m ih =>
      intro l hl hdvd
      by_cases h : l = []
      · subst h; simp [toBlocks_nil]
      · have hpos : 0 < l.length := List.length_pos.mpr h
        have h16 : 16 ≤ l.length := by
          rcases hdvd with ⟨k, hk⟩
          rcases Nat.eq_zero_or_pos k with rfl | hkpos
          · omega
          · omega
        rw [toBlocks_cons l h]
        intro b hb
        rcases List.mem_cons.mp hb with rfl | hb
        · simp [List.length_take]; omega
        · exact ih (l.drop 16) (by simp; omega) (by simp; omega) b hb
  exact key l.length l le_rfl hdvd

lemma toBlocks_subset (l : List Nat) : ∀ b ∈ toBlocks l, ∀ x ∈ b, x ∈ l := by
  have key : ∀ n (l : List Nat), l.length ≤ n → ∀ b ∈ toBlocks l, ∀ x ∈ b, x ∈ l := by
    intro n
    induction n with
    | zero =>
      intro l hl
      have : l = [] := List.eq_nil_of_length_eq_zero (by omega)
      subst this
      simp [toBlocks_nil]
    | succ m ih =>
      intro l hl
      by_cases h : l = []
      · subst h; simp [toBlocks_nil]
      · rw [toBlocks_cons l h]
        intro b hb
        rcases List.mem_cons.mp hb with rfl | hb
        · intro x hx; exact List.take_subset 16 l hx
        · intro x hx
          exact List.drop_subset 16 l (ih (l.drop 16) (by simp; omega) b hb x hx)
  exact key l.length l le_rfl

lemma toBlocks_flatten_of_blocks (bs : List (List Nat)) (h : ∀ b ∈ bs, b.length = 16) :
    toBlocks bs.flatten = bs := by
  induction bs with
  | nil => simp [toBlocks_nil]
  | cons b t ih =>
    have hb : b.length = 16 := h b (by simp)
    have hne : (b :: t).flatten ≠ [] := by
      simp only [List.flatten_cons]
      intro hcontra
      have := congrArg List.length hcontra
      simp [hb] at this
    rw [List.flatten_cons, toBlocks_cons _ (by simpa using hne)]
    have htake : (b ++ t.flatten).take 16 = b := by
      rw [← hb, List.take_left]
    have hdrop : (b ++ t.flatten).drop 16 = t.flatten := by
      rw [← hb, List.drop_left]
    rw [htake, hdrop, ih (fun x hx => h x (by simp [hx]))]

lemma flatten_length_of_blocks (bs : List (List Nat)) (h : ∀ b ∈ bs, b.length = 16) :
    bs.flatten.length = 16 * bs.length := by
  induction bs with
  | nil => simp
  | cons b t ih =>
    simp only [List.flatten_cons, List.length_append, List.length_cons]
    rw [h b (by simp), ih (fun x hx => h x (by simp [hx]))]
    ring

-- ## PKCS7 padding

lemma pkcs7_pad_length (data : List Nat) :
    (pkcs7_pad data 16).length = data.length + (16 - data.length % 16) := by
  simp [pkcs7_pad]

lemma pkcs7_pad_dvd (data : List Nat) : 16 ∣ (pkcs7_pad data 16).length := by
  rw [pkcs7_pad_length]
  omega

lemma pkcs7_pad_ne_nil (data : List Nat) : pkcs7_pad data 16 ≠ [] := by
  intro h
  have := congrArg List.length h
  rw [pkcs7_pad_length] at this
  simp at this
  omega

lemma pkcs7_pad_mem_lt (data : List Nat) (h : ∀ b ∈ data, b < 256) :
    ∀ b ∈ pkcs7_pad data 16, b < 256 := by
  intro b hb
  simp only [pkcs7_pad, List.mem_append, List.mem_replicate] at hb
  rcases hb with hb | ⟨_, rfl⟩
  · exact h b hb
  · omega

lemma pkcs7_pad_getD_high (data : List Nat) (i : Nat) (hlo : data.length ≤ i)
    (hhi : i < (pkcs7_pad data 16).length) :
    (pkcs7_pad data 16).getD i 0 = 16 - data.length % 16 := by
  rw [List.getD_eq_getElem _ _ hhi]
  simp only [pkcs7_pad]
  rw [List.getElem_append_right (by simpa using hlo)]
  simp

lemma pkcs7_unpad_pad (data : List Nat) :
    pkcs7_unpad (pkcs7_pad data 16) = Except.ok data := by
  set p := 16 - data.length % 16 with hp
  have hp1 : 1 ≤ p := by omega
  have hp16 : p ≤ 16 := by omega
  have hlen : (pkcs7_pad data 16).length = data.length + p := pkcs7_pad_length data
  have hne0 : (pkcs7_pad data 16).length ≠ 0 := by omega
  have hlast : (pkcs7_pad data 16).getD ((pkcs7_pad data 16).length - 1) 0 = p :=
    pkcs7_pad_getD_high data _ (by omega) (by omega)
  rw [pkcs7_unpad]
  rw [if_neg hne0, hlast, if_neg (by omega)]
  rw [if_neg (by omega)]
  have hall : (List.range' ((pkcs7_pad data 16).length - p) p).all
      (fun i => (pkcs7_pad data 16).getD i 0 == p) = true := by
    rw [List.all_eq_true]
    intro i hi
    rw [List.mem_range'] at hi
    obtain ⟨j, hj, rfl⟩ := hi
    have : (pkcs7_pad data 16).getD ((pkcs7_pad data 16).length - p + j) 0 = p :=
      pkcs7_pad_getD_high data _ (by omega) (by omega)
    simpa using this
  rw [if_pos hall]
  congr 1
  have : (pkcs7_pad data 16).length - p = data.length := by omega
  rw [this]
  simp only [pkcs7_pad]
  rw [List.take_left]

-- ## xor_block

lemma xor_block_length (b p : List Nat) : (xor_block b p).length = 16 := rfl

lemma xor_block_mem_lt {b p : List Nat} (hb : ∀ x ∈ b, x < 256) (hp : ∀ x ∈ p, x < 256) :
    ∀ x ∈ xor_block b p, x < 256 := by
  intro x hx
  simp only [xor_block, N_BLOCK, List.mem_map, List.mem_range] at hx
  obtain ⟨j, _, rfl⟩ := hx
  exact xor_lt256 (getD_lt_256 hb _) (getD_lt_256 hp _)

lemma xor_block_cancel (b p : List Nat) (h : b.length = 16) :
    xor_block (xor_block b p) p = b := by
  obtain ⟨a0, a1, a2, a3, a4, a5, a6, a7, a8, a9, a10, a11, a12, a13, a14, a15, rfl⟩ :=
    length_eq_sixteen b h
  show xor_block (xor_block [_, _, _, _, _, _, _, _, _, _, _, _, _, _, _, _] p) p = _
  simp [xor_block, N_BLOCK, List.range_succ, Nat.xor_assoc]

-- ## Key expansion facts

/-- Invariant on the word list: every word is 4 bytes, all below 256. -/
def WordsGood (w : List (List Nat)) : Prop :=
  ∀ word ∈ w, word.length = 4 ∧ ∀ b ∈ word, b < 256

lemma rcon_getD_lt (n : Nat) : RCON.getD n 0 < 256 := by
  rcases Nat.lt_or_ge n 10 with h | h
  · revert h; revert n; decide
  · rw [List.getD_eq_default]
    · omega
    · simp [RCON]; omega

lemma words_getD_getD_lt {w : List (List Nat)} (hw : WordsGood w) (i j : Nat) :
    (w.getD i []).getD j 0 < 256 := by
  rcases Nat.lt_or_ge i w.length with hi | hi
  · rw [List.getD_eq_getElem _ _ hi]
    exact getD_lt_256 (hw _ (List.getElem_mem hi)).2 j
  · rw [List.getD_eq_default _ _ hi]
    simp [List.getD]

lemma words_getD_mem_lt {w : List (List Nat)} (hw : WordsGood w) (i : Nat) :
    ∀ b ∈ w.getD i [], b < 256 := by
  rcases Nat.lt_or_ge i w.length with hi | hi
  · rw [List.getD_eq_getElem _ _ hi]
    exact (hw _ (List.getElem_mem hi)).2
  · rw [List.getD_eq_default _ _ hi]
    simp

lemma key_expansion_word_good {w : List (List Nat)} (hw : WordsGood w) (i : Nat) :
    WordsGood (key_expansion_word w i) := by
  intro word hword
  simp only [key_expansion_word, List.mem_append, List.mem_singleton] at hword
  rcases hword with hword | rfl
  · exact hw word hword
  · constructor
    · simp
    · intro b hb
      simp only [List.mem_map, List.mem_range] at hb
      obtain ⟨j, _, rfl⟩ := hb
      apply xor_lt256 (words_getD_getD_lt hw _ _)
      by_cases hi4 : i % 4 = 0
      · simp only [if_pos hi4]
        have hsub : ∀ b ∈ sub_word (rot_word (w.getD (i - 1) []))
            SBoxGenerator.generate_aes_sbox, b < 256 := by
          intro b hb
          simp only [sub_word, List.mem_map] at hb
          obtain ⟨x, _, rfl⟩ := hb
          exact aes_sbox_getD_lt x
        rcases hme : sub_word (rot_word (w.getD (i - 1) [])) SBoxGenerator.generate_aes_sbox
          with _ | ⟨t0, rest⟩
        · simp [List.getD]
        · have ht0 : t0 < 256 := hsub t0 (by rw [hme]; simp)
          have hrest : ∀ b ∈ rest, b < 256 := fun b hb => hsub b (by rw [hme]; simp [hb])
          cases j with
          | zero => simpa using xor_lt256 ht0 (rcon_getD_lt _)
          | succ m => simp only [List.getD_cons_succ]; exact getD_lt_256 hrest m
      · simp only [if_neg hi4]
        exact words_getD_getD_lt hw _ _

lemma foldl_key_expansion_good (l : List Nat) :
    ∀ w, WordsGood w → WordsGood (l.foldl key_expansion_word w) := by
  induction l with
  | nil => intro w hw; exact hw
  | cons i t ih => intro w hw; exact ih _ (key_expansion_word_good hw i)

lemma foldl_key_expansion_length (l : List Nat) :
    ∀ w, (l.foldl key_expansion_word w).length = w.length + l.length := by
  induction l with
  | nil => intro w; simp
  | cons i t ih =>
    intro w
    simp only [List.foldl_cons, ih, key_expansion_word]
    simp
    omega

lemma key_expansion_eq (c : Cipher) (key : List Nat) (hk : key.length = 16) :
    key_expansion c key = Except.ok ((List.range 11).map (fun i =>
      (List.range 4).foldl (fun rk j => rk ++
        (((List.range' 4 40).foldl key_expansion_word
          ((List.range 4).map (fun i => [key.getD (4 * i) 0, key.getD (4 * i + 1) 0,
            key.getD (4 * i + 2) 0, key.getD (4 * i + 3) 0]))).getD (4 * i + j) [])) [])) := by
  rw [key_expansion, if_neg (by simp [N_KEY, hk])]

lemma key_expansion_ok (c : Cipher) (key : List Nat) (hk : key.length = 16)
    (hkb : ∀ b ∈ key, b < 256) :
    ∃ rks, key_expansion c key = Except.ok rks ∧ rks.length = 11 ∧
      (∀ rk ∈ rks, rk.length = 16 ∧ ∀ b ∈ rk, b < 256) := by
  have hw0 : WordsGood ((List.range 4).map (fun i =>
      [key.getD (4 * i) 0, key.getD (4 * i + 1) 0, key.getD (4 * i + 2) 0,
        key.getD (4 * i + 3) 0])) := by
    intro word hword
    simp only [List.mem_map, List.mem_range] at hword
    obtain ⟨i, _, rfl⟩ := hword
    refine ⟨rfl, ?_⟩
    intro b hb
    simp only [List.mem_cons, List.not_mem_nil, or_false] at hb
    rcases hb with rfl | rfl | rfl | rfl <;> exact getD_lt_256 hkb _
  have hwgood : WordsGood ((List.range' 4 40).foldl key_expansion_word
      ((List.range 4).map (fun i => [key.getD (4 * i) 0, key.getD (4 * i + 1) 0,
        key.getD (4 * i + 2) 0, key.getD (4 * i + 3) 0]))) :=
    foldl_key_expansion_good _ _ hw0
  have hwlen : ((List.range' 4 40).foldl key_expansion_word
      ((List.range 4).map (fun i => [key.getD (4 * i) 0, key.getD (4 * i + 1) 0,
        key.getD (4 * i + 2) 0, key.getD (4 * i + 3) 0]))).length = 44 := by
    rw [foldl_key_expansion_length]
    simp
  refine ⟨_, key_expansion_eq c key hk, by simp, ?_⟩
  intro rk hrk
  generalize hW : (List.range' 4 40).foldl key_expansion_word
    ((List.range 4).map (fun i => [key.getD (4 * i) 0, key.getD (4 * i + 1) 0,
      key.getD (4 * i + 2) 0, key.getD (4 * i + 3) 0])) = W at hrk hwgood hwlen
  simp only [List.mem_map, List.mem_range] at hrk
  obtain ⟨i, hi, rfl⟩ := hrk
  have hrange4 : List.range 4 = [0, 1, 2, 3] := rfl
  rw [hrange4]
  simp only [List.foldl_cons, List.foldl_nil, List.nil_append]
  have hword : ∀ j, j < 4 →
      (W.getD (4 * i + j) []).length = 4 ∧ ∀ b ∈ W.getD (4 * i + j) [], b < 256 := by
    intro j hj
    apply hwgood
    rw [List.getD_eq_getElem _ _ (by omega)]
    exact List.getElem_mem _
  constructor
  · simp only [List.length_append]
    rw [(hword 0 (by omega)).1, (hword 1 (by omega)).1, (hword 2 (by omega)).1,
      (hword 3 (by omega)).1]
  · intro b hb
    simp only [List.mem_append] at hb
    rcases hb with ((hb | hb) | hb) | hb
    · exact (hword 0 (by omega)).2 b hb
    · exact (hword 1 (by omega)).2 b hb
    · exact (hword 2 (by omega)).2 b hb
    · exact (hword 3 (by omega)).2 b hb

-- ## CBC round trip

lemma cbc_blocks_round_trip (c : Cipher) (rks : List (List Nat))
    (hsbox : ∀ x, x < 256 → c.sbox.getD x 0 < 256)
    (hinv : ∀ x, x < 256 → c.inv_sbox.getD (c.sbox.getD x 0) 0 = x)
    (hrk : ∀ r, ∀ b ∈ rks.getD r [], b < 256) :
    ∀ (bs : List (List Nat)) (prev : List Nat),
      (∀ b ∈ bs, b.length = 16 ∧ ∀ x ∈ b, x < 256) →
      (∀ x ∈ prev, x < 256) →
      ∃ cts, cbc_encrypt_blocks c rks prev bs = Except.ok cts ∧
        cts.length = bs.length ∧
        (∀ ct ∈ cts, ct.length = 16) ∧
        cbc_decrypt_blocks c rks prev cts = Except.ok bs.flatten := by
  intro bs
  induction bs with
  | nil => exact fun prev _ _ => ⟨[], rfl, rfl, by simp, rfl⟩
  | cons b t ih =>
    intro prev hbs hprev
    have hb16 : b.length = 16 := (hbs b (by simp)).1
    have hblt : ∀ x ∈ b, x < 256 := (hbs b (by simp)).2
    obtain ⟨ct, henc, hct16, hctlt, hdec⟩ :=
      decrypt_block_encrypt_block c rks hsbox hinv hrk (xor_block b prev) rfl
        (xor_block_mem_lt hblt hprev)
    obtain ⟨cts, henct, hlen, hctslen, hdect⟩ :=
      ih ct (fun x hx => hbs x (by simp [hx])) hctlt
    refine ⟨ct :: cts, ?_, by simp [hlen], ?_, ?_⟩
    · simp only [cbc_encrypt_blocks, henc, henct]
    · intro x hx
      rcases List.mem_cons.mp hx with rfl | hx
      · exact hct16
      · exact hctslen x hx
    · simp only [cbc_decrypt_blocks, hdec, hdect]
      rw [xor_block_cancel b prev hb16]
      simp



-- ## C4: decrypt rejection

lemma pkcs7_unpad_error (p : List Nat)
    (hbad : p.getD (p.length - 1) 0 < 1 ∨ 16 < p.getD (p.length - 1) 0 ∨
      ∃ i, p.length - p.getD (p.length - 1) 0 ≤ i ∧ i < p.length ∧
        p.getD i 0 ≠ p.getD (p.length - 1) 0) :
    ∃ e, pkcs7_unpad p = Except.error e := by
  rw [pkcs7_unpad]
  by_cases h0 : p.length = 0
  · exact ⟨_, if_pos h0⟩
  rw [if_neg h0]
  by_cases hrange : p.getD (p.length - 1) 0 < 1 ∨ p.getD (p.length - 1) 0 > 16
  · exact ⟨_, if_pos hrange⟩
  rw [if_neg hrange]
  push_neg at hrange
  rcases hbad with hbad | hbad | ⟨i, hi1, hi2, hi3⟩
  · omega
  · omega
  by_cases hshort : p.length < p.getD (p.length - 1) 0
  · exact ⟨_, if_pos hshort⟩
  rw [if_neg hshort]
  have hall : ¬ ((List.range' (p.length - p.getD (p.length - 1) 0)
      (p.getD (p.length - 1) 0)).all (fun j => p.getD j 0 == p.getD (p.length - 1) 0) = true) := by
    intro hcontra
    rw [List.all_eq_true] at hcontra
    have hmem : i ∈ List.range' (p.length - p.getD (p.length - 1) 0)
        (p.getD (p.length - 1) 0) := by
      rw [List.mem_range']
      exact ⟨i - (p.length - p.getD (p.length - 1) 0), by omega, by omega⟩
    have := hcontra i hmem
    simp only [beq_iff_eq] at this
    exact hi3 this
  rw [if_neg (by simpa using hall)]
  exact ⟨_, rfl⟩


end CipherProofs2

section CycleProofs

open CryptographicTests
-- ## C10: cycle structure machinery


lemma set_true_count_false_lt : ∀ (l : List Bool) (i : Nat), l.getD i true = false →
    (l.set i true).count false < l.count false := by
  intro l
  induction l with
  | nil => intro i h2; simp [List.getD] at h2
  | cons b t ih =>
    intro i h2
    cases i with
    | zero =>
      simp only [List.getD_cons_zero] at h2
      subst h2
      simp [List.count_cons]
    | succ j =>
      simp only [List.getD_cons_succ] at h2
      have := ih j h2
      simp only [List.set, List.count_cons]
      rcases b with _ | _ <;> simp <;> omega

lemma set_true_count_true : ∀ (l : List Bool) (i : Nat), l.getD i true = false →
    (l.set i true).count true = l.count true + 1 := by
  intro l
  induction l with
  | nil => intro i h2; simp [List.getD] at h2
  | cons b t ih =>
    intro i h2
    cases i with
    | zero =>
      simp only [List.getD_cons_zero] at h2
      subst h2
      simp [List.count_cons]
    | succ j =>
      simp only [List.getD_cons_succ] at h2
      have := ih j h2
      simp only [List.set, List.count_cons]
      rcases b with _ | _ <;> simp <;> omega

lemma getD_lt_length_of_false {l : List Bool} {i : Nat} (h : l.getD i true = false) :
    i < l.length := by
  by_contra hge
  rw [List.getD_eq_default _ _ (by omega)] at h
  simp at h

lemma getD_set_true_self {l : List Bool} {i : Nat} (h : i < l.length) :
    (l.set i true).getD i true = true := by
  rw [List.getD_eq_getElem _ _ (by simpa using h)]
  simp [List.getElem_set_self]

lemma getD_set_true_mono {l : List Bool} {i j : Nat} (h : l.getD j true = true) :
    (l.set i true).getD j true = true := by
  by_cases hj : j < l.length
  · by_cases hij : i = j
    · subst hij; exact getD_set_true_self hj
    · rw [List.getD_eq_getElem _ _ (by simpa using hj)] at h ⊢
      rw [List.getElem_set_ne hij]
      exact h
  · rw [List.getD_eq_default _ _ (by simpa using hj)]

lemma walkCycle_spec (sbox : List Nat) : ∀ (m : Nat) (v : List Bool), v.count false ≤ m →
    ∀ (curr n : Nat),
      (walkCycle sbox v curr n).1.count true + n = v.count true + (walkCycle sbox v curr n).2 ∧
      (walkCycle sbox v curr n).1.length = v.length ∧
      (∀ j, v.getD j true = true → (walkCycle sbox v curr n).1.getD j true = true) ∧
      (walkCycle sbox v curr n).1.getD curr true = true := by
  intro m
  induction m with
  | zero =>
    intro v hv curr n
    have hvis : v.getD curr true = true := by
      by_contra hc
      have hfalse : v.getD curr true = false := by
        rcases hh : v.getD curr true with _ | _ <;> simp_all
      have hcl := getD_lt_length_of_false hfalse
      have hmem : (false : Bool) ∈ v := by
        rw [List.getD_eq_getElem _ _ (by simpa using hcl)] at hfalse
        rw [← hfalse]
        exact List.getElem_mem _
      have hpos : 0 < v.count false := List.count_pos_iff.mpr hmem
      omega
    rw [walkCycle, if_pos hvis]
    exact ⟨rfl, rfl, fun j hj => hj, hvis⟩
  | succ m ih =>
    intro v hv curr n
    by_cases hvis : v.getD curr true = true
    · rw [walkCycle, if_pos hvis]
      exact ⟨rfl, rfl, fun j hj => hj, hvis⟩
    · have hfalse : v.getD curr true = false := by
        rcases hh : v.getD curr true with _ | _ <;> simp_all
      rw [walkCycle, if_neg hvis]
      have hlt : (v.set curr true).count false < v.count false :=
        set_true_count_false_lt v curr hfalse
      have hcurrlen : curr < v.length := getD_lt_length_of_false hfalse
      obtain ⟨hcount, hlen, hmono, hstart⟩ :=
        ih (v.set curr true) (by omega) (sbox.getD curr 0) (n + 1)
      refine ⟨?_, ?_, ?_, ?_⟩
      · rw [set_true_count_true v curr hfalse] at hcount
        omega
      · rw [hlen, List.length_set]
      · intro j hj
        exact hmono j (getD_set_true_mono hj)
      · exact hmono curr (getD_set_true_self hcurrlen)

lemma cycle_foldl_spec (sbox : List Nat) : ∀ (l : List Nat) (st : List Bool × List Nat),
    st.1.count true = st.2.sum →
    ((l.foldl (fun (st : List Bool × List Nat) i =>
        if st.1.getD i true then st
        else
          let w := walkCycle sbox st.1 i 0
          (w.1, st.2 ++ [w.2])) st).1.count true
      = (l.foldl (fun (st : List Bool × List Nat) i =>
        if st.1.getD i true then st
        else
          let w := walkCycle sbox st.1 i 0
          (w.1, st.2 ++ [w.2])) st).2.sum) ∧
    (∀ j, st.1.getD j true = true →
      (l.foldl (fun (st : List Bool × List Nat) i =>
        if st.1.getD i true then st
        else
          let w := walkCycle sbox st.1 i 0
          (w.1, st.2 ++ [w.2])) st).1.getD j true = true) ∧
    (∀ i ∈ l,
      (l.foldl (fun (st : List Bool × List Nat) i =>
        if st.1.getD i true then st
        else
          let w := walkCycle sbox st.1 i 0
          (w.1, st.2 ++ [w.2])) st).1.getD i true = true) := by
  intro l
  induction l with
  | nil => exact fun st h => ⟨h, fun j hj => hj, by simp⟩
  | cons i t ih =>
    intro st hst
    simp only [List.foldl_cons]
    by_cases hvis : st.1.getD i true = true
    · rw [if_pos hvis]
      obtain ⟨h1, h2, h3⟩ := ih st hst
      refine ⟨h1, h2, ?_⟩
      intro x hx
      rcases List.mem_cons.mp hx with rfl | hx
      · exact h2 x hvis
      · exact h3 x hx
    · rw [if_neg hvis]
      obtain ⟨hcount, _, hmono, hstart⟩ :=
        walkCycle_spec sbox (st.1.count false) st.1 le_rfl i 0
      have hnew : (walkCycle sbox st.1 i 0).1.count true
          = (st.2 ++ [(walkCycle sbox st.1 i 0).2]).sum := by
        simp only [List.sum_append, List.sum_cons, List.sum_nil]
        omega
      obtain ⟨h1, h2, h3⟩ := ih ((walkCycle sbox st.1 i 0).1, st.2 ++ [(walkCycle sbox st.1 i 0).2]) hnew
      refine ⟨h1, ?_, ?_⟩
      · intro j hj
        exact h2 j (hmono j hj)
      · intro x hx
        rcases List.mem_cons.mp hx with rfl | hx
        · exact h2 x hstart
        · exact h3 x hx

lemma all_true_count {l : List Bool} (h : ∀ j, j < l.length → l.getD j true = true) :
    l.count true = l.length := by
  induction l with
  | nil => simp
  | cons b t ih =>
    have hb : b = true := by
      have := h 0 (by simp)
      simpa using this
    subst hb
    rw [List.count_cons]
    simp only [List.length_cons]
    rw [ih]
    · simp
    · intro j hj
      have := h (j + 1) (by simpa using hj)
      simpa using this

lemma cycle_lengths_sum_eq (sbox : List Nat) : (cycle_lengths sbox).sum = 256 := by
  obtain ⟨h1, _, h3⟩ := cycle_foldl_spec sbox (List.range 256)
    (List.replicate 256 false, []) (by decide)
  have hlen : ((List.range 256).foldl (fun (st : List Bool × List Nat) i =>
      if st.1.getD i true then st
      else
        let w := walkCycle sbox st.1 i 0
        (w.1, st.2 ++ [w.2])) (List.replicate 256 false, [])).1.length = 256 := by
    have haux : ∀ (l : List Nat) (st : List Bool × List Nat),
        (l.foldl (fun (st : List Bool × List Nat) i =>
          if st.1.getD i true then st
          else
            let w := walkCycle sbox st.1 i 0
            (w.1, st.2 ++ [w.2])) st).1.length = st.1.length := by
      intro l
      induction l with
      | nil => intro st; rfl
      | cons i t ih =>
        intro st
        simp only [List.foldl_cons]
        by_cases hvis : st.1.getD i true = true
        · rw [if_pos hvis]; exact ih st
        · rw [if_neg hvis]
          rw [ih]
          exact (walkCycle_spec sbox (st.1.count false) st.1 le_rfl i 0).2.1
    rw [haux]
    simp
  rw [cycle_lengths, ← h1]
  refine Eq.trans (all_true_count ?_) hlen
  intro j hj
  rw [hlen] at hj
  exact h3 j (List.mem_range.mpr hj)


-- ## Pointwise description of a Möbius pass

lemma getD_set_self_nat {l : List Nat} {i : Nat} (h : i < l.length) (v : Nat) :
    (l.set i v).getD i 0 = v := by
  rw [List.getD_eq_getElem _ _ (by simpa using h)]
  simp [List.getElem_set_self]

lemma getD_set_ne_nat {l : List Nat} {i j : Nat} (h : i ≠ j) (v : Nat) :
    (l.set i v).getD j 0 = l.getD j 0 := by
  by_cases hj : j < l.length
  · rw [List.getD_eq_getElem _ _ (by simpa using hj), List.getD_eq_getElem _ _ hj,
      List.getElem_set_ne h]
  · rw [List.getD_eq_default _ _ (by simpa using hj), List.getD_eq_default _ _ (by omega)]

lemma mobius_step_length : ∀ (l : List Nat) (h : Nat) (a : List Nat),
    (l.foldl (fun b i => if i &&& h = 0
      then b.set (i + h) (b.getD (i + h) 0 ^^^ b.getD i 0) else b) a).length = a.length := by
  intro l
  induction l with
  | nil => intro h a; rfl
  | cons i t ih =>
    intro h a
    simp only [List.foldl_cons]
    rw [ih]
    by_cases hc : i &&& h = 0
    · rw [if_pos hc, List.length_set]
    · rw [if_neg hc]

lemma mobiusPass_length (n h : Nat) (a : List Nat) : (mobiusPass n h a).length = a.length :=
  mobius_step_length _ _ _

-- bounded bit facts (all instances of 8-bit arithmetic, checked by enumeration)
lemma bitfact_add : ∀ m, m < 256 → ∀ k, k < 8 → m &&& 2^k = 0 → m + 2^k = m ^^^ 2^k := by
  decide

lemma bitfact_partner_set : ∀ m, m < 256 → ∀ k, k < 8 → m &&& 2^k = 0 →
    (m ^^^ 2^k) &&& 2^k ≠ 0 := by
  decide

lemma bitfact_partner_clear : ∀ j, j < 256 → ∀ k, k < 8 → j &&& 2^k ≠ 0 →
    (j ^^^ 2^k) &&& 2^k = 0 := by
  decide

lemma bitfact_xor_lt : ∀ j, j < 256 → ∀ k, k < 8 → j ^^^ 2^k < 256 := by
  decide

lemma bitfact_other_bit : ∀ j, j < 256 → ∀ k, k < 8 → ∀ l, l < 8 → k ≠ l →
    (j ^^^ 2^l) &&& 2^k = j &&& 2^k := by
  decide

lemma xor_cancel_pow (j h : Nat) : (j ^^^ h) ^^^ h = j := Nat.xor_cancel_right h j

lemma mobiusPass_prefix_getD (k : Nat) (hk : k < 8) :
    ∀ (m : Nat), m ≤ 256 → ∀ (a : List Nat), a.length = 256 → ∀ j, j < 256 →
      ((List.range m).foldl (fun b i => if i &&& 2^k = 0
          then b.set (i + 2^k) (b.getD (i + 2^k) 0 ^^^ b.getD i 0) else b) a).getD j 0
        = if j &&& 2^k ≠ 0 ∧ j ^^^ 2^k < m then a.getD j 0 ^^^ a.getD (j ^^^ 2^k) 0
          else a.getD j 0 := by
  intro m
  induction m with
  | zero =>
    intro _ a ha j hj
    simp
  | succ m ih =>
    intro hm a ha j hj
    rw [List.range_succ, List.foldl_append, List.foldl_cons, List.foldl_nil]
    have hblen : ((List.range m).foldl (fun b i => if i &&& 2^k = 0
        then b.set (i + 2^k) (b.getD (i + 2^k) 0 ^^^ b.getD i 0) else b) a).length = 256 := by
      rw [mobius_step_length, ha]
    by_cases hmbit : m &&& 2^k = 0
    · rw [if_pos hmbit]
      have hq : m + 2^k = m ^^^ 2^k := bitfact_add m (by omega) k hk hmbit
      have hqlt : m ^^^ 2^k < 256 := bitfact_xor_lt m (by omega) k hk
      have hqbit : (m ^^^ 2^k) &&& 2^k ≠ 0 := bitfact_partner_set m (by omega) k hk hmbit
      have hqq : (m ^^^ 2^k) ^^^ 2^k = m := xor_cancel_pow m (2^k)
      by_cases hjq : j = m ^^^ 2^k
      · subst hjq
        rw [hq, getD_set_self_nat (by omega)]
        rw [ih (by omega) a ha _ (by omega), ih (by omega) a ha _ (by omega)]
        rw [hqq]
        rw [if_neg, if_neg, if_pos]
        · exact ⟨hqbit, by omega⟩
        · rintro ⟨hc, -⟩
          exact hc hmbit
        · rintro ⟨-, hlt⟩
          omega
      · rw [hq, getD_set_ne_nat (fun hcontra => hjq hcontra.symm)]
        rw [ih (by omega) a ha j hj]
        have hne : j ^^^ 2^k ≠ m := by
          intro hcontra
          apply hjq
          rw [← hcontra, xor_cancel_pow]
        have hiff : (j &&& 2^k ≠ 0 ∧ j ^^^ 2^k < m + 1)
            ↔ (j &&& 2^k ≠ 0 ∧ j ^^^ 2^k < m) := by
          constructor
          · rintro ⟨hjb, hlt⟩
            exact ⟨hjb, by omega⟩
          · rintro ⟨hjb, hlt⟩
            exact ⟨hjb, by omega⟩
        simp only [hiff]
    · rw [if_neg hmbit]
      rw [ih (by omega) a ha j hj]
      have hne : j &&& 2^k ≠ 0 → j ^^^ 2^k ≠ m := by
        intro hjb hcontra
        have h0 := bitfact_partner_clear j hj k hk hjb
        rw [hcontra] at h0
        exact hmbit h0
      have hiff : (j &&& 2^k ≠ 0 ∧ j ^^^ 2^k < m + 1)
          ↔ (j &&& 2^k ≠ 0 ∧ j ^^^ 2^k < m) := by
        constructor
        · rintro ⟨hjb, hlt⟩
          have := hne hjb
          exact ⟨hjb, by omega⟩
        · rintro ⟨hjb, hlt⟩
          exact ⟨hjb, by omega⟩
      simp only [hiff]

lemma mobiusPass_getD (k : Nat) (hk : k < 8) (a : List Nat) (ha : a.length = 256)
    (j : Nat) (hj : j < 256) :
    (mobiusPass 256 (2^k) a).getD j 0
      = if j &&& 2^k ≠ 0 then a.getD j 0 ^^^ a.getD (j ^^^ 2^k) 0 else a.getD j 0 := by
  rw [mobiusPass, mobiusPass_prefix_getD k hk 256 le_rfl a ha j hj]
  by_cases hjb : j &&& 2^k ≠ 0
  · rw [if_pos ⟨hjb, bitfact_xor_lt j hj k hk⟩, if_pos hjb]
  · rw [if_neg (by tauto), if_neg hjb]

lemma list_ext_getD {l1 l2 : List Nat} (hlen : l1.length = l2.length)
    (h : ∀ j, j < l1.length → l1.getD j 0 = l2.getD j 0) : l1 = l2 := by
  apply List.ext_getElem hlen
  intro i h1 h2
  have := h i h1
  rw [List.getD_eq_getElem _ _ h1, List.getD_eq_getElem _ _ h2] at this
  exact this

lemma mobiusPass_invol (k : Nat) (hk : k < 8) (a : List Nat) (ha : a.length = 256) :
    mobiusPass 256 (2^k) (mobiusPass 256 (2^k) a) = a := by
  have hlen1 : (mobiusPass 256 (2^k) a).length = 256 := by rw [mobiusPass_length, ha]
  apply list_ext_getD (by rw [mobiusPass_length, hlen1, ha])
  intro j hj
  rw [mobiusPass_length, hlen1] at hj
  rw [mobiusPass_getD k hk _ hlen1 j hj]
  by_cases hjb : j &&& 2^k ≠ 0
  · have hplt : j ^^^ 2^k < 256 := bitfact_xor_lt j hj k hk
    have hpclear : (j ^^^ 2^k) &&& 2^k = 0 := bitfact_partner_clear j hj k hk hjb
    rw [if_pos hjb]
    rw [mobiusPass_getD k hk a ha j hj, mobiusPass_getD k hk a ha (j ^^^ 2^k) hplt]
    simp [hjb, hpclear, Nat.xor_assoc]
  · rw [if_neg hjb, mobiusPass_getD k hk a ha j hj, if_neg hjb]

lemma xor_swap_right (j x y : Nat) : (j ^^^ x) ^^^ y = (j ^^^ y) ^^^ x := by
  rw [Nat.xor_assoc, Nat.xor_comm x y, ← Nat.xor_assoc]

lemma mobiusPass_comm_pass (k l : Nat) (hk : k < 8) (hl : l < 8) (hkl : k ≠ l)
    (a : List Nat) (ha : a.length = 256) :
    mobiusPass 256 (2^k) (mobiusPass 256 (2^l) a)
      = mobiusPass 256 (2^l) (mobiusPass 256 (2^k) a) := by
  have hlenl : (mobiusPass 256 (2^l) a).length = 256 := by rw [mobiusPass_length, ha]
  have hlenk : (mobiusPass 256 (2^k) a).length = 256 := by rw [mobiusPass_length, ha]
  apply list_ext_getD (by rw [mobiusPass_length, hlenl, mobiusPass_length, hlenk])
  intro j hj
  rw [mobiusPass_length, hlenl] at hj
  have hjk : j ^^^ 2^k < 256 := bitfact_xor_lt j hj k hk
  have hjl : j ^^^ 2^l < 256 := bitfact_xor_lt j hj l hl
  have hob1 : (j ^^^ 2^k) &&& 2^l = j &&& 2^l :=
    bitfact_other_bit j hj l hl k hk (fun h => hkl h.symm)
  have hob2 : (j ^^^ 2^l) &&& 2^k = j &&& 2^k :=
    bitfact_other_bit j hj k hk l hl hkl
  rw [mobiusPass_getD k hk _ hlenl j hj, mobiusPass_getD l hl _ hlenk j hj]
  by_cases hbk : j &&& 2^k = 0 <;> by_cases hbl : j &&& 2^l = 0
  · rw [if_neg (show ¬(j &&& 2^k ≠ 0) by simp [hbk]),
      if_neg (show ¬(j &&& 2^l ≠ 0) by simp [hbl]),
      mobiusPass_getD l hl a ha j hj, mobiusPass_getD k hk a ha j hj,
      if_neg (show ¬(j &&& 2^l ≠ 0) by simp [hbl]),
      if_neg (show ¬(j &&& 2^k ≠ 0) by simp [hbk])]
  · rw [if_neg (show ¬(j &&& 2^k ≠ 0) by simp [hbk]),
      if_pos (show j &&& 2^l ≠ 0 from hbl),
      mobiusPass_getD l hl a ha j hj,
      if_pos (show j &&& 2^l ≠ 0 from hbl),
      mobiusPass_getD k hk a ha j hj,
      if_neg (show ¬(j &&& 2^k ≠ 0) by simp [hbk]),
      mobiusPass_getD k hk a ha (j ^^^ 2^l) hjl,
      if_neg (show ¬((j ^^^ 2^l) &&& 2^k ≠ 0) by simp [hob2, hbk])]
  · rw [if_pos (show j &&& 2^k ≠ 0 from hbk),
      if_neg (show ¬(j &&& 2^l ≠ 0) by simp [hbl]),
      mobiusPass_getD l hl a ha j hj,
      if_neg (show ¬(j &&& 2^l ≠ 0) by simp [hbl]),
      mobiusPass_getD l hl a ha (j ^^^ 2^k) hjk,
      if_neg (show ¬((j ^^^ 2^k) &&& 2^l ≠ 0) by simp [hob1, hbl]),
      mobiusPass_getD k hk a ha j hj,
      if_pos (show j &&& 2^k ≠ 0 from hbk)]
  · rw [if_pos (show j &&& 2^k ≠ 0 from hbk),
      if_pos (show j &&& 2^l ≠ 0 from hbl),
      mobiusPass_getD l hl a ha j hj,
      if_pos (show j &&& 2^l ≠ 0 from hbl),
      mobiusPass_getD l hl a ha (j ^^^ 2^k) hjk,
      if_pos (show (j ^^^ 2^k) &&& 2^l ≠ 0 by simp [hob1, hbl]),
      mobiusPass_getD k hk a ha j hj,
      if_pos (show j &&& 2^k ≠ 0 from hbk),
      mobiusPass_getD k hk a ha (j ^^^ 2^l) hjl,
      if_pos (show (j ^^^ 2^l) &&& 2^k ≠ 0 by simp [hob2, hbk]),
      xor_swap_right j (2^l) (2^k)]
    simp [Nat.xor_assoc, Nat.xor_comm, xor_left_comm]

lemma passes_foldl_length (ks : List Nat) :
    ∀ a : List Nat, (ks.foldl (fun b x => mobiusPass 256 (2^x) b) a).length = a.length := by
  induction ks with
  | nil => intro a; rfl
  | cons x t ih =>
    intro a
    simp only [List.foldl_cons]
    rw [ih, mobiusPass_length]

lemma passes_foldl_comm (ks : List Nat) (hks : ∀ x ∈ ks, x < 8) (k : Nat) (hk : k < 8)
    (hne : ∀ x ∈ ks, x ≠ k) :
    ∀ a : List Nat, a.length = 256 →
      mobiusPass 256 (2^k) (ks.foldl (fun b x => mobiusPass 256 (2^x) b) a)
        = ks.foldl (fun b x => mobiusPass 256 (2^x) b) (mobiusPass 256 (2^k) a) := by
  induction ks with
  | nil => intro a _; rfl
  | cons x t ih =>
    intro a ha
    simp only [List.foldl_cons]
    rw [ih (fun y hy => hks y (by simp [hy])) (fun y hy => hne y (by simp [hy])) _
        (by rw [mobiusPass_length, ha]),
      mobiusPass_comm_pass k x hk (hks x (by simp)) (fun h => hne x (by simp) h.symm) a ha]

lemma passes_foldl_invol (ks : List Nat) (hks : ∀ x ∈ ks, x < 8) (hnd : ks.Nodup) :
    ∀ a : List Nat, a.length = 256 →
      ks.foldl (fun b x => mobiusPass 256 (2^x) b)
        (ks.foldl (fun b x => mobiusPass 256 (2^x) b) a) = a := by
  induction ks with
  | nil => intro a _; rfl
  | cons k t ih =>
    intro a ha
    have hk : k < 8 := hks k (by simp)
    have hknotin : k ∉ t := (List.nodup_cons.mp hnd).1
    have htnd : t.Nodup := (List.nodup_cons.mp hnd).2
    have htlt : ∀ x ∈ t, x < 8 := fun x hx => hks x (by simp [hx])
    simp only [List.foldl_cons]
    rw [passes_foldl_comm t htlt k hk (fun x hx h => hknotin (h ▸ hx)) _
      (by rw [mobiusPass_length, ha])]
    rw [mobiusPass_invol k hk a ha]
    exact ih htlt htnd a ha

lemma anf_transform_eq_passes (a : List Nat) (ha : a.length = 256) :
    anf_transform a = [0, 1, 2, 3, 4, 5, 6, 7].foldl (fun b x => mobiusPass 256 (2^x) b) a := by
  rw [anf_transform, ha]
  rw [anfLoop, dif_pos (by norm_num)]
  rw [show (1 : Nat) <<< 1 = 2 from rfl]
  rw [anfLoop, dif_pos (by norm_num)]
  rw [show (2 : Nat) <<< 1 = 4 from rfl]
  rw [anfLoop, dif_pos (by norm_num)]
  rw [show (4 : Nat) <<< 1 = 8 from rfl]
  rw [anfLoop, dif_pos (by norm_num)]
  rw [show (8 : Nat) <<< 1 = 16 from rfl]
  rw [anfLoop, dif_pos (by norm_num)]
  rw [show (16 : Nat) <<< 1 = 32 from rfl]
  rw [anfLoop, dif_pos (by norm_num)]
  rw [show (32 : Nat) <<< 1 = 64 from rfl]
  rw [anfLoop, dif_pos (by norm_num)]
  rw [show (64 : Nat) <<< 1 = 128 from rfl]
  rw [anfLoop, dif_pos (by norm_num)]
  rw [show (128 : Nat) <<< 1 = 256 from rfl]
  rw [anfLoop, dif_neg (by norm_num)]
  norm_num [List.foldl_cons, List.foldl_nil]

lemma anf_transform_length_256 (a : List Nat) (ha : a.length = 256) :
    (anf_transform a).length = 256 := by
  rw [anf_transform_eq_passes a ha, passes_foldl_length, ha]

lemma anf_transform_involution_core (a : List Nat) (ha : a.length = 256) :
    anf_transform (anf_transform a) = a := by
  rw [anf_transform_eq_passes a ha,
    anf_transform_eq_passes _ (by rw [passes_foldl_length, ha])]
  exact passes_foldl_invol [0, 1, 2, 3, 4, 5, 6, 7] (by decide) (by decide) a ha

end CycleProofs

/-! ## Claim theorems -/

section Claims

open AESCipher CryptographicTests

/-- Claim C1: CBC round-trip identity.  For every plaintext byte string (any
length, including empty), every 16-byte key, every 16-byte IV, and every
`AESCipher` built from a bijective 256-entry S-box with matching inverse
(`inv_sbox[sbox[x]] = x` for all x in 0..255),
`decrypt(encrypt(plaintext, key, iv), key) = plaintext`. -/
theorem cbc_round_trip (sbox inv_sbox : List Nat) (pt key iv : List Nat)
    (hsbox_len : sbox.length = 256) (hinv_len : inv_sbox.length = 256)
    (hsbox : ∀ x, x < 256 → sbox.getD x 0 < 256)
    (hinv : ∀ x, x < 256 → inv_sbox.getD (sbox.getD x 0) 0 = x)
    (hpt : ∀ b ∈ pt, b < 256)
    (hkey : key.length = 16) (hkeyb : ∀ b ∈ key, b < 256)
    (hiv : iv.length = 16) (hivb : ∀ b ∈ iv, b < 256) :
    ∃ ct, encrypt ⟨sbox, inv_sbox⟩ pt key iv = Except.ok ct ∧
      decrypt ⟨sbox, inv_sbox⟩ ct key = Except.ok pt := by
  obtain ⟨rks, hrks, hrks11, hrkgood⟩ := key_expansion_ok ⟨sbox, inv_sbox⟩ key hkey hkeyb
  have hrk : ∀ r, ∀ x ∈ rks.getD r [], x < 256 := by
    intro r x hx
    rcases Nat.lt_or_ge r rks.length with hr | hr
    · rw [List.getD_eq_getElem _ _ hr] at hx
      exact (hrkgood _ (List.getElem_mem hr)).2 x hx
    · rw [List.getD_eq_default _ _ hr] at hx
      simp at hx
  have hpadgood : ∀ b ∈ toBlocks (pkcs7_pad pt N_BLOCK), b.length = 16 ∧ ∀ x ∈ b, x < 256 := by
    intro b hb
    constructor
    · exact toBlocks_length_mem _ (pkcs7_pad_dvd pt) b hb
    · intro x hx
      exact pkcs7_pad_mem_lt pt hpt x (toBlocks_subset _ b hb x hx)
  obtain ⟨cts, hcts, hctslen, hcts16, hctsdec⟩ :=
    cbc_blocks_round_trip ⟨sbox, inv_sbox⟩ rks hsbox hinv hrk
      (toBlocks (pkcs7_pad pt N_BLOCK)) iv hpadgood hivb
  have hne : pkcs7_pad pt N_BLOCK ≠ [] := pkcs7_pad_ne_nil pt
  have hbs_pos : 0 < (toBlocks (pkcs7_pad pt N_BLOCK)).length := by
    rw [toBlocks_cons _ hne]
    simp
  have hflatlen : cts.flatten.length = 16 * cts.length := flatten_length_of_blocks cts hcts16
  refine ⟨iv ++ cts.flatten, ?_, ?_⟩
  · rw [encrypt, if_neg (by omega), hrks]
    simp only [hcts]
  · have hctlen : (iv ++ cts.flatten).length ≥ 32 := by
      simp only [List.length_append, hiv, hflatlen, hctslen]
      omega
    rw [decrypt, recovered_plaintext, if_neg (by omega), hrks]
    have htake : (iv ++ cts.flatten).take 16 = iv := by
      rw [← hiv, List.take_left]
    have hdrop : (iv ++ cts.flatten).drop 16 = cts.flatten := by
      rw [← hiv, List.drop_left]
    rw [htake, hdrop, toBlocks_flatten_of_blocks cts hcts16]
    simp only [hctsdec, flatten_toBlocks, N_BLOCK]
    exact pkcs7_unpad_pad pt

/-- Witness for C1 at the identity S-box, empty plaintext, all-zero key and IV. -/
theorem cbc_round_trip_witness :
    ∃ ct, AESCipher.encrypt ⟨List.range 256, List.range 256⟩ [] (List.replicate 16 0)
        (List.replicate 16 0) = Except.ok ct ∧
      AESCipher.decrypt ⟨List.range 256, List.range 256⟩ ct (List.replicate 16 0)
        = Except.ok [] :=
  cbc_round_trip (List.range 256) (List.range 256) [] (List.replicate 16 0)
    (List.replicate 16 0) (by decide) (by decide) (by decide) (by decide) (by simp)
    (by decide) (by decide) (by decide) (by decide)

/-- Claim C2 (counterexample): the claimed spot value `S(0x7D) = 0xF6` is false
for the S-box generated from the AES matrix and 0x63 — the generated (and
canonical FIPS-197) value at 0x7D is 0xFF. -/
theorem generate_aes_sbox_spot_7D :
    (SBoxGenerator.generate_sbox SBoxGenerator.AES_MATRIX SBoxGenerator.C_AES).getD 0x7D 0
      ≠ 0xF6 := by
  rw [show SBoxGenerator.generate_sbox SBoxGenerator.AES_MATRIX SBoxGenerator.C_AES
      = canonical_fips197_sbox from generate_aes_sbox_eq]
  decide

/-- Claim C2 (amended): `generate_sbox(AES_MATRIX, C_AES)` yields the canonical
FIPS-197 AES S-box at all 256 entries; entry 0x00 is 0x63, entry 0x01 is 0x7C,
entry 0x7D is 0xFF (not 0xF6), and entry 0xFF is 0x16. -/
theorem generate_aes_sbox_matches_fips197 :
    SBoxGenerator.generate_sbox SBoxGenerator.AES_MATRIX SBoxGenerator.C_AES
        = canonical_fips197_sbox ∧
    (SBoxGenerator.generate_sbox SBoxGenerator.AES_MATRIX SBoxGenerator.C_AES).getD 0x00 0
        = 0x63 ∧
    (SBoxGenerator.generate_sbox SBoxGenerator.AES_MATRIX SBoxGenerator.C_AES).getD 0x01 0
        = 0x7C ∧
    (SBoxGenerator.generate_sbox SBoxGenerator.AES_MATRIX SBoxGenerator.C_AES).getD 0x7D 0
        = 0xFF ∧
    (SBoxGenerator.generate_sbox SBoxGenerator.AES_MATRIX SBoxGenerator.C_AES).getD 0xFF 0
        = 0x16 := by
  have h : SBoxGenerator.generate_sbox SBoxGenerator.AES_MATRIX SBoxGenerator.C_AES
      = canonical_fips197_sbox := generate_aes_sbox_eq
  refine ⟨h, ?_, ?_, ?_, ?_⟩ <;> rw [h] <;> decide

/-- Claim C3: multiplicative-inverse law of the table-driven field: for every
a in 1..255, `multiply(a, inverse(a)) = 1`, and `inverse(0) = 0`. -/
theorem multiply_inverse_law :
    (∀ a, a < 256 → 1 ≤ a → GF256.multiply a (GF256.inverse a) = 1) ∧
    GF256.inverse 0 = 0 :=
  ⟨multiply_inverse_eq_one, rfl⟩

/-- Witness for C3 at a = 7. -/
theorem multiply_inverse_law_witness : GF256.multiply 7 (GF256.inverse 7) = 1 :=
  multiply_inverse_law.1 7 (by norm_num) (by norm_num)

/-- Claim C4: `AESCipher.decrypt` raises an error for every input shorter than
32 bytes (IV plus one block), and raises an error whenever the recovered
padded plaintext's declared pad length (its final byte) is outside 1..16 or
one of the last pad-length bytes differs from it; in these cases no plaintext
is returned. -/
theorem decrypt_rejects (c : Cipher) (ciphertext key : List Nat) :
    (ciphertext.length < 32 → ∃ e, decrypt c ciphertext key = Except.error e) ∧
    (∀ p, recovered_plaintext c ciphertext key = Except.ok p →
      (p.getD (p.length - 1) 0 < 1 ∨ 16 < p.getD (p.length - 1) 0 ∨
        ∃ i, p.length - p.getD (p.length - 1) 0 ≤ i ∧ i < p.length ∧
          p.getD i 0 ≠ p.getD (p.length - 1) 0) →
      ∃ e, decrypt c ciphertext key = Except.error e) := by
  constructor
  · intro hshort
    refine ⟨"Ciphertext too short", ?_⟩
    rw [decrypt, recovered_plaintext, if_pos hshort]
  · intro p hp hbad
    obtain ⟨e, he⟩ := pkcs7_unpad_error p hbad
    refine ⟨e, ?_⟩
    rw [decrypt, hp]
    simp only [he]


/-- Witness for C4 on the empty ciphertext. -/
theorem decrypt_rejects_witness :
    ∃ e, AESCipher.decrypt ⟨[], []⟩ [] [] = Except.error e :=
  (decrypt_rejects ⟨[], []⟩ [] []).1 (by decide)

/-- Claim C5: the round-key schedule depends only on the 16-byte master key,
never on the caller's custom S-box: any two cipher instances produce identical
schedules of 11 sixteen-byte round keys, because SubWord in the expansion uses
the fixed standard AES S-box. -/
theorem key_schedule_ignores_custom_sbox (c1 c2 : AESCipher.Cipher) (key : List Nat)
    (hk : key.length = 16) (hkb : ∀ b ∈ key, b < 256) :
    AESCipher.key_expansion c1 key = AESCipher.key_expansion c2 key ∧
    ∃ rks, AESCipher.key_expansion c1 key = Except.ok rks ∧ rks.length = 11 ∧
      ∀ rk ∈ rks, rk.length = 16 := by
  refine ⟨rfl, ?_⟩
  obtain ⟨rks, h1, h2, h3⟩ := key_expansion_ok c1 key hk hkb
  exact ⟨rks, h1, h2, fun rk hrk => (h3 rk hrk).1⟩

/-- Witness for C5 with two different instances and the all-zero key. -/
theorem key_schedule_ignores_custom_sbox_witness :
    AESCipher.key_expansion ⟨[], []⟩ (List.replicate 16 0)
        = AESCipher.key_expansion ⟨[1], [2]⟩ (List.replicate 16 0) ∧
    ∃ rks, AESCipher.key_expansion ⟨[], []⟩ (List.replicate 16 0) = Except.ok rks ∧
      rks.length = 11 ∧ ∀ rk ∈ rks, rk.length = 16 :=
  key_schedule_ignores_custom_sbox ⟨[], []⟩ ⟨[1], [2]⟩ (List.replicate 16 0)
    (by decide) (by decide)

/-- Claim C6 (counterexample): `power(0, 0)` returns 0, not 1 — the `a == 0`
guard precedes the `n == 0` guard in the source. -/
theorem power_zero_zero_ne_one : GF256.power 0 0 ≠ 1 := by decide

/-- Claim C6 (amended): `power(a, n)` computes `exp[(log[a]*n) mod 255]` for
a ≠ 0 and n ≠ 0, returns 1 for a ≠ 0 and n = 0, and returns 0 for a = 0 and
every n — including n = 0, so `power(0, 0) = 0`, not 1. -/
theorem power_spec_amended :
    (∀ n, GF256.power 0 n = 0) ∧
    (∀ a, a ≠ 0 → GF256.power a 0 = 1) ∧
    (∀ a n, a ≠ 0 → n ≠ 0 →
      GF256.power a n = GF256.exp_table.getD (GF256.log_table.getD a 0 * n % 255) 0) := by
  refine ⟨?_, ?_, ?_⟩
  · intro n
    rw [GF256.power, if_pos rfl]
  · intro a ha
    rw [GF256.power, if_neg ha, if_pos rfl]
  · intro a n ha hn
    rw [GF256.power, if_neg ha, if_neg hn]

/-- Witness for the amended C6 at (0,5), (3,0) and (3,2). -/
theorem power_spec_amended_witness :
    GF256.power 0 5 = 0 ∧ GF256.power 3 0 = 1 ∧
    GF256.power 3 2 = GF256.exp_table.getD (GF256.log_table.getD 3 0 * 2 % 255) 0 :=
  ⟨power_spec_amended.1 5, power_spec_amended.2.1 3 (by norm_num),
    power_spec_amended.2.2 3 2 (by norm_num) (by norm_num)⟩

/-- Claim C7: for every 8-row affine matrix and every constant c in 0..255,
`generate_sbox(M, c)[0] = c`, because `inverse(0) = 0` and the affine
transform of the zero byte is `0 XOR c` regardless of the matrix. -/
theorem generate_sbox_zero_entry (matrix : List Nat) (constant : Nat)
    (hm : matrix.length = 8) (hc : constant < 256) :
    (SBoxGenerator.generate_sbox matrix constant).getD 0 0 = constant := by
  simp only [SBoxGenerator.generate_sbox]
  rw [getD_map_range 256 _ 0 (by norm_num)]
  rw [show GF256.inverse 0 = 0 from rfl]
  exact affine_transform_zero matrix constant

/-- Witness for C7 at the AES matrix and constant 0x63. -/
theorem generate_sbox_zero_entry_witness :
    (SBoxGenerator.generate_sbox SBoxGenerator.AES_MATRIX 0x63).getD 0 0 = 0x63 :=
  generate_sbox_zero_entry SBoxGenerator.AES_MATRIX 0x63 (by decide) (by norm_num)

/-- Claim C8: MixColumns and InvMixColumns are mutual inverses on every
16-byte state with entries in 0..255. -/
theorem mix_columns_mutual_inverse (state : List Nat) (h16 : state.length = 16)
    (hs : ∀ b ∈ state, b < 256) :
    AESCipher.inv_mix_columns (AESCipher.mix_columns state) = state ∧
    AESCipher.mix_columns (AESCipher.inv_mix_columns state) = state :=
  ⟨inv_mix_columns_mix_columns state h16 hs, mix_columns_inv_mix_columns state h16 hs⟩

/-- Witness for C8 at the state 0,1,...,15. -/
theorem mix_columns_mutual_inverse_witness :
    AESCipher.inv_mix_columns (AESCipher.mix_columns
      [0, 1, 2, 3, 4, 5, 6, 7, 8, 9, 10, 11, 12, 13, 14, 15])
        = [0, 1, 2, 3, 4, 5, 6, 7, 8, 9, 10, 11, 12, 13, 14, 15] ∧
    AESCipher.mix_columns (AESCipher.inv_mix_columns
      [0, 1, 2, 3, 4, 5, 6, 7, 8, 9, 10, 11, 12, 13, 14, 15])
        = [0, 1, 2, 3, 4, 5, 6, 7, 8, 9, 10, 11, 12, 13, 14, 15] :=
  mix_columns_mutual_inverse [0, 1, 2, 3, 4, 5, 6, 7, 8, 9, 10, 11, 12, 13, 14, 15]
    (by decide) (by decide)

/-- Claim C9: the Möbius/ANF transform is an involution: applying
`anf_transform` twice to any length-256 truth table of 0/1 values returns the
original table. -/
theorem anf_transform_involution (truth_table : List Nat)
    (h256 : truth_table.length = 256) (h01 : ∀ b ∈ truth_table, b = 0 ∨ b = 1) :
    CryptographicTests.anf_transform (CryptographicTests.anf_transform truth_table)
      = truth_table :=
  anf_transform_involution_core truth_table h256

/-- Witness for C9 at the all-zero truth table. -/
theorem anf_transform_involution_witness :
    CryptographicTests.anf_transform (CryptographicTests.anf_transform
      (List.replicate 256 0)) = List.replicate 256 0 :=
  anf_transform_involution (List.replicate 256 0) (by decide) (by decide)

/-- Claim C10: for every 256-entry S-box that is a permutation of 0..255, the
cycle lengths collected by `calculate_cycle_structure` (the `cycles` list,
embedded as `cycle_lengths`) sum to exactly 256. -/
theorem cycle_lengths_sum_256 (sbox : List Nat) (hlen : sbox.length = 256)
    (hb : ∀ b ∈ sbox, b < 256) (hnd : sbox.Nodup) :
    (CryptographicTests.cycle_lengths sbox).sum = 256 :=
  cycle_lengths_sum_eq sbox

/-- Witness for C10 at the identity permutation. -/
theorem cycle_lengths_sum_256_witness :
    (CryptographicTests.cycle_lengths (List.range 256)).sum = 256 :=
  cycle_lengths_sum_256 (List.range 256) (by decide) (by decide) (List.nodup_range 256)

end Claims
